import Mathlib

/-!
# Telemetry ingestion pipeline: embedding and properties

Shallow embedding of `internal/models`, `internal/service`, the two ingress
adapters, the admission middleware, the Redis cache, the MySQL device lookup, the
configuration check and the MQTT client construction of the telemetry endpoint.

Conventions of the embedding.

* Go pointers used as optional fields (`*float64`, `*uint`, `*string`) are `Option`.
* `float64` is a type parameter `F` with the arithmetic operations that the program
  uses; the functions taken from Go's `math` package are the fields of `MathFns`.
  Statements about exact arithmetic take `F` to be a field (the reals, with `realMath`).
  `Float64` interprets it as IEEE 754 binary64: rounding to nearest with ties to even,
  overflow to the infinities, NaN, each operation rounded on its own; the sign of zero
  is not modelled, and the values of the `math` functions at finite arguments outside
  their special cases are a parameter (`FiniteMath`).
* `uint`/`uint64` identifiers are `Nat` (they are only copied, never computed with).
* `time.Time` is an `Int` (nanoseconds on the wall clock), `time.Duration` is an `Int`
  of nanoseconds kept inside the signed 64-bit range.
* A Go `error` is `Option String`: `none` is `nil`, `some msg` carries `Error()`.
* Collaborators (repository, cache, logger, clock) are the fields of `Deps`, each a
  transition on an abstract world `W`; every call is recorded in a trace.
* The Redis cache is embedded over the commands of a `RedisClient`; `memRedis` is a
  working server kept as a keyed store of hashes.
* The admission middleware is embedded over a map from client IP to entry; its handler
  runs atomically (the mutex) and goroutine interleaving is not modelled.  The token
  bucket of `golang.org/x/time/rate` is not among the sources and is modelled from the
  specification, with exact rational arithmetic.
* The MySQL lookup is embedded over the answer of its one query (`ScanResult`).
* Code that slices a string can end in a run-time panic; its result is an `Outcome`.
* The binding of an HTTP body by gin is the JSON decoding, an input, followed by the
  `binding:"required"` tags of the request type (`ShouldBindJSON`).
-/

namespace Telemetria

/-! ## internal/models/telemetry.go -/

/-- TelemetryRequest: the inbound report. -/
structure TelemetryRequest (F : Type) where
  Identificador : String
  Latitud : Option F
  Longitud : Option F
  Sensor1 : Option F
  Sensor2 : Option F
  Sensor3 : Option F
  Sensor4 : Option F
  Sensor5 : Option F

/-- Device: a telemetry device row. -/
structure Device (F : Type) where
  IDTelemetria : Nat
  Identificador : String
  Nombre : String
  UltimaConexion : Int
  TiempoFueraLinea : String
  Latitud : Option F
  Longitud : Option F

/-- Measurement: one telemetry sample. -/
structure Measurement (F : Type) where
  IDMedicion : Nat
  IDTelemetria : Nat
  Fecha : Int
  Latitud : Option F
  Longitud : Option F
  Distancia : Option F
  Sensor1 : Option F
  Sensor2 : Option F
  Sensor3 : Option F
  Sensor4 : Option F
  Sensor5 : Option F

/-- ErrorRecord: an audit row. -/
structure ErrorRecord where
  IDMedicion : Nat
  IDTelemetria : Option Nat
  Identificador : Option String
  Fecha : Int
  Descripcion : String
deriving DecidableEq

/-- ValidationError: a field name with a message. -/
structure ValidationError where
  Field : String
  Message : String
deriving DecidableEq

/-- InvalidRequest: what is written to the invalid-request log. -/
structure InvalidRequest (F : Type) where
  Timestamp : Int
  IPAddress : String
  Identificador : String
  Latitud : Option F
  Longitud : Option F
  Errors : List ValidationError

/-! ## internal/service/validation.go -/

/-- ValidationErrors: the error value returned by `ValidateRequiredFields`. -/
structure ValidationErrors where
  Errors : List ValidationError
deriving DecidableEq

/-- ValidateRequiredFields: `none` is the `nil` error. -/
def ValidateRequiredFields {F : Type} (req : TelemetryRequest F) : Option ValidationErrors :=
  let errors : List ValidationError := []
  let errors :=
    if req.Identificador = "" then
      errors ++ [{ Field := "identificador", Message := "El identificador es requerido" }]
    else errors
  let errors :=
    if req.Latitud.isNone then
      errors ++ [{ Field := "latitud", Message := "La latitud es requerida" }]
    else errors
  let errors :=
    if req.Longitud.isNone then
      errors ++ [{ Field := "longitud", Message := "La longitud es requerida" }]
    else errors
  if errors.length > 0 then some { Errors := errors } else none

/-- The `Error()` method of `ValidationErrors`: the loop body, on the entries left. -/
def ValidationErrors.errorLoop : Nat → List ValidationError → String → String
  | _, [], msg => msg
  | i, err :: rest, msg =>
    let msg := if i > 0 then msg ++ ", " else msg
    ValidationErrors.errorLoop (i + 1) rest (msg ++ (err.Field ++ ": " ++ err.Message))

/-- The `Error()` method of `ValidationErrors`. -/
def ValidationErrors.Error (v : ValidationErrors) : String :=
  if v.Errors.length = 0 then "Validación fallida"
  else ValidationErrors.errorLoop 0 v.Errors "Validación fallida: "

/-- The `GetErrors()` method of `ValidationErrors`. -/
def ValidationErrors.GetErrors (v : ValidationErrors) : List ValidationError :=
  v.Errors

/-- The violations that the specification asks for, written from its words: one per
missing field, in the order identificador, latitud, longitud. -/
def specViolations {F : Type} (req : TelemetryRequest F) : List ValidationError :=
  (if req.Identificador = "" then
    [{ Field := "identificador", Message := "El identificador es requerido" }] else []) ++
  (if req.Latitud.isNone then
    [{ Field := "latitud", Message := "La latitud es requerida" }] else []) ++
  (if req.Longitud.isNone then
    [{ Field := "longitud", Message := "La longitud es requerida" }] else [])

/-- The list of violations carried by the result of `ValidateRequiredFields`. -/
def violationsOf (r : Option ValidationErrors) : List ValidationError :=
  match r with
  | none => []
  | some v => v.GetErrors

/-! ## internal/service/distance.go -/

/-- The functions of Go's `math` package used by the distance calculation. -/
structure MathFns (F : Type) where
  Pi : F
  Sin : F → F
  Cos : F → F
  Sqrt : F → F
  Atan2 : F → F → F

/-- EarthRadiusKm: the Earth radius in kilometres. -/
def EarthRadiusKm {F : Type} [NatCast F] : F := 6371

/-- degreesToRadians: degrees to radians. -/
def degreesToRadians {F : Type} [Mul F] [Div F] [NatCast F] (m : MathFns F) (degrees : F) : F :=
  degrees * m.Pi / 180

/-- CalculateDistance: haversine distance in metres between two GPS fixes. -/
def CalculateDistance {F : Type} [Add F] [Sub F] [Mul F] [Div F] [NatCast F] [One F]
    (m : MathFns F) (lat1 lon1 lat2 lon2 : F) : F :=
  let lat1Rad := degreesToRadians m lat1
  let lon1Rad := degreesToRadians m lon1
  let lat2Rad := degreesToRadians m lat2
  let lon2Rad := degreesToRadians m lon2
  let deltaLat := lat2Rad - lat1Rad
  let deltaLon := lon2Rad - lon1Rad
  let a := m.Sin (deltaLat / 2) * m.Sin (deltaLat / 2) +
    m.Cos lat1Rad * m.Cos lat2Rad * m.Sin (deltaLon / 2) * m.Sin (deltaLon / 2)
  let c := 2 * m.Atan2 (m.Sqrt a) (m.Sqrt (1 - a))
  let distanceKm := EarthRadiusKm * c
  let distanceMeters := distanceKm * 1000
  distanceMeters

/-- The values of the `math` functions at the points met when a distance from a
point to itself is computed; they hold over the reals and for IEEE doubles alike. -/
structure MathFns.ExactAtZero {F : Type} [Zero F] [One F] (m : MathFns F) : Prop where
  sin_zero : m.Sin 0 = 0
  sqrt_zero : m.Sqrt 0 = 0
  sqrt_one : m.Sqrt 1 = 1
  atan2_zero_one : m.Atan2 0 1 = 0

/-! ## Go's `time` and `fmt` as used by internal/service/telemetry.go -/

/-- Two's-complement wrap of an integer into the signed 64-bit range. -/
def wrapInt64 (x : Int) : Int := (x + 2 ^ 63) % 2 ^ 64 - 2 ^ 63

/-- The largest `time.Duration`. -/
def maxDuration : Int := 2 ^ 63 - 1

/-- The smallest `time.Duration`. -/
def minDuration : Int := -(2 ^ 63)

/-- Go's `time.Second`, in nanoseconds. -/
def Second : Int := 1000000000

/-- Go's `time.Minute`, in nanoseconds. -/
def Minute : Int := 60 * Second

/-- Go's `time.Hour`, in nanoseconds. -/
def Hour : Int := 60 * Minute

/-- Go's `Time.Sub`: the difference of two instants, saturating at the ends of the
`Duration` range. -/
def timeSub (t u : Int) : Int :=
  if t - u > maxDuration then maxDuration
  else if t - u < minDuration then minDuration
  else t - u

/-- Go's `strings.Split` by a one-character separator, on the characters left;
`cur` is the part being accumulated. -/
def splitLoop (sep : Char) : List Char → List Char → List (List Char)
  | [], cur => [cur]
  | ch :: rest, cur =>
    if ch = sep then cur :: splitLoop sep rest [] else splitLoop sep rest (cur ++ [ch])

/-- Go's `strings.Split(s, ":")`. -/
def stringsSplitColon (s : String) : List (List Char) :=
  splitLoop ':' s.toList []

/-- The white space of Go's `fmt` scanner (`isSpace`), by code point. -/
def isSpace (ch : Char) : Bool :=
  let n := ch.toNat
  (0x09 ≤ n && n ≤ 0x0d) || n == 0x20 || n == 0x85 || n == 0xa0 || n == 0x1680 ||
  (0x2000 ≤ n && n ≤ 0x200a) || n == 0x2028 || n == 0x2029 || n == 0x202f ||
  n == 0x205f || n == 0x3000

/-- The scanner's `SkipSpace` inside `Sscanf`: blanks are dropped, a newline is an
error (`none`). -/
def skipSpace : List Char → Option (List Char)
  | [] => some []
  | ch :: rest =>
    if ch = '\n' then none
    else if isSpace ch then skipSpace rest
    else some (ch :: rest)

/-- The value of a run of decimal digits, most significant first. -/
def digitsValue (ds : List Char) : Nat :=
  ds.foldl (fun acc d => 10 * acc + (d.toNat - '0'.toNat)) 0

/-- The scanner's `%d` verb for an `int` operand: leading blanks, an optional sign,
one or more decimal digits, and a value that fits 64 bits.  Returns the value and
the rest of the input. -/
def scanInt (input : List Char) : Option (Int × List Char) :=
  match skipSpace input with
  | none => none
  | some s =>
    let neg := s.head? = some '-'
    let s := if s.head? = some '-' ∨ s.head? = some '+' then s.tail else s
    let ds := s.takeWhile Char.isDigit
    let rest := s.dropWhile Char.isDigit
    if ds.length = 0 then none
    else
      let v : Int := if neg then -(digitsValue ds : Int) else (digitsValue ds : Int)
      if v < minDuration ∨ v > maxDuration then none else some (v, rest)

/-- A literal character of the format: the next input character must be it. -/
def scanLiteral (lit : Char) : List Char → Option (List Char)
  | [] => none
  | ch :: rest => if ch = lit then some rest else none

/-- Go's `fmt.Sscanf(s, "%d:%d:%d", &hours, &minutes, &seconds)`: `none` is an error.
Input left after the third number is not looked at. -/
def sscanfHMS (s : String) : Option (Int × Int × Int) :=
  match scanInt s.toList with
  | none => none
  | some (hours, r1) =>
    match scanLiteral ':' r1 with
    | none => none
    | some r2 =>
      match scanInt r2 with
      | none => none
      | some (minutes, r3) =>
        match scanLiteral ':' r3 with
        | none => none
        | some r4 =>
          match scanInt r4 with
          | none => none
          | some (seconds, _) => some (hours, minutes, seconds)

/-- parseTimeDuration: an `HH:MM:SS` string to a duration in nanoseconds.  When
`Sscanf` fails the source appends the cause to "error al parsear tiempo"; the wording of
the cause is not modelled. -/
def parseTimeDuration (timeStr : String) : Except String Int :=
  let parts := stringsSplitColon timeStr
  if parts.length ≠ 3 then
    Except.error ("formato de tiempo inválido: " ++ timeStr)
  else
    match sscanfHMS timeStr with
    | none => Except.error "error al parsear tiempo"
    | some (hours, minutes, seconds) =>
      let duration := wrapInt64 (wrapInt64 (wrapInt64 (hours * Hour) +
        wrapInt64 (minutes * Minute)) + wrapInt64 (seconds * Second))
      Except.ok duration

/-! ## Collaborators and traces -/

/-- A call made to a collaborator, with its arguments. -/
inductive Call (F : Type) where
  | cacheGetDevice (identifier : String)
  | cacheSetDevice (device : Device F)
  | repoGetDeviceByIdentifier (identifier : String)
  | repoUpdateDeviceConnection (deviceID : Nat) (timestamp : Int)
  | repoInsertMeasurement (measurement : Measurement F)
  | repoInsertError (errorRecord : ErrorRecord)
  | rCacheUpdateDeviceLocation (identifier : String) (latitud longitud : F) (timestamp : Int)
  | loggerInfo (msg : String)
  | loggerWarning (msg : String)
  | loggerError (msg : String)
  | loggerLogDeviceData (identifier : String) (data : TelemetryRequest F)
  | loggerLogInvalidRequest (req : InvalidRequest F)

/-- The collaborators of `TelemetryService` and of the ingress adapters: the
`database.Repository` and `database.Cache` interfaces, the `*redis.Cache` extension,
the device logger, the clock, and the formatting functions of Go's `time`.  A
collaborator method takes the world before the call and returns its results with the
world after it; a returned error is `some msg`. -/
structure Deps (W F : Type) where
  now : W → Int × W
  cacheGetDevice : String → W → (Option (Device F) × Option String) × W
  cacheSetDevice : Device F → W → Option String × W
  repoGetDeviceByIdentifier : String → W → (Option (Device F) × Option String) × W
  repoUpdateDeviceConnection : Nat → Int → W → Option String × W
  repoInsertMeasurement : Measurement F → W → Option String × W
  repoInsertError : ErrorRecord → W → Option String × W
  rCacheUpdateDeviceLocation : String → F → F → Int → W → Option String × W
  loggerLogDeviceData : String → TelemetryRequest F → W → Option String × W
  formatRFC3339 : Int → String
  durationString : Int → String
  math : MathFns F

/-- The state of a run: the world and the calls made so far, oldest first. -/
structure St (W F : Type) where
  world : W
  trace : List (Call F)

/-- Record a call and move to the world it left. -/
def St.record {W F : Type} (s : St W F) (call : Call F) (w : W) : St W F :=
  { world := w, trace := s.trace ++ [call] }

/-- Record a call of the application logger (`Info`, `Warning`, `Error`), which
returns nothing. -/
def St.log {W F : Type} (s : St W F) (call : Call F) : St W F :=
  { world := s.world, trace := s.trace ++ [call] }

/-- The error records passed to `InsertError` in a trace, in order. -/
def insertedErrors {F : Type} (trace : List (Call F)) : List ErrorRecord :=
  trace.filterMap fun call =>
    match call with
    | Call.repoInsertError e => some e
    | _ => none

/-- The measurements passed to `InsertMeasurement` in a trace, in order. -/
def insertedMeasurements {F : Type} (trace : List (Call F)) : List (Measurement F) :=
  trace.filterMap fun call =>
    match call with
    | Call.repoInsertMeasurement m => some m
    | _ => none

/-- The arguments of the `UpdateDeviceConnection` calls in a trace, in order. -/
def connectionUpdates {F : Type} (trace : List (Call F)) : List (Nat × Int) :=
  trace.filterMap fun call =>
    match call with
    | Call.repoUpdateDeviceConnection d t => some (d, t)
    | _ => none

/-- The arguments of the `UpdateDeviceLocation` calls in a trace, in order. -/
def locationUpdates {F : Type} (trace : List (Call F)) : List (String × F × F × Int) :=
  trace.filterMap fun call =>
    match call with
    | Call.rCacheUpdateDeviceLocation i la lo t => some (i, la, lo, t)
    | _ => none

/-- The arguments of the `LogDeviceData` calls in a trace, in order. -/
def deviceDataLogs {F : Type} (trace : List (Call F)) : List (String × TelemetryRequest F) :=
  trace.filterMap fun call =>
    match call with
    | Call.loggerLogDeviceData i d => some (i, d)
    | _ => none

/-- The identifiers of the cache `GetDevice` calls in a trace, in order. -/
def cacheLookups {F : Type} (trace : List (Call F)) : List String :=
  trace.filterMap fun call =>
    match call with
    | Call.cacheGetDevice i => some i
    | _ => none

/-- The identifiers of the repository `GetDeviceByIdentifier` calls in a trace. -/
def repoLookups {F : Type} (trace : List (Call F)) : List String :=
  trace.filterMap fun call =>
    match call with
    | Call.repoGetDeviceByIdentifier i => some i
    | _ => none

/-- The devices passed to the cache `SetDevice` in a trace, in order. -/
def cacheStores {F : Type} (trace : List (Call F)) : List (Device F) :=
  trace.filterMap fun call =>
    match call with
    | Call.cacheSetDevice d => some d
    | _ => none

/-- The entries passed to `LogInvalidRequest` in a trace, in order. -/
def invalidRequestLogs {F : Type} (trace : List (Call F)) : List (InvalidRequest F) :=
  trace.filterMap fun call =>
    match call with
    | Call.loggerLogInvalidRequest r => some r
    | _ => none

/-- Substring: `part` occurs inside `whole`. -/
def Contains (whole part : String) : Prop :=
  ∃ pre post : String, whole = pre ++ part ++ post

/-! ## internal/service/telemetry.go -/

/-- Go's `strings.Join`. -/
def stringsJoin (elems : List String) (sep : String) : String :=
  match elems with
  | [] => ""
  | e :: rest => rest.foldl (fun acc x => acc ++ sep ++ x) e

/-- The staleness message built by `validateOfflineTime`. -/
def offlineMessage {W F : Type} (c : Deps W F) (device : Device F) (elapsed : Int) : String :=
  "Tiempo fuera de línea excedido: última conexión " ++
    c.formatRFC3339 device.UltimaConexion ++
    ", tiempo máximo permitido " ++ device.TiempoFueraLinea ++
    ", tiempo transcurrido " ++ c.durationString elapsed

/-- validateOfflineTime: the staleness check of a resolved device. -/
def validateOfflineTime {W F : Type} (c : Deps W F) (s : St W F) (device : Device F) :
    List String × St W F :=
  let errors : List String := []
  match parseTimeDuration device.TiempoFueraLinea with
  | Except.error err =>
    let s := s.log (Call.loggerWarning
      ("Error al parsear TiempoFueraLinea para dispositivo " ++ device.Identificador ++
        ": " ++ err))
    (errors, s)
  | Except.ok maxOfflineDuration =>
    let t := c.now s.world
    let s : St W F := { world := t.2, trace := s.trace }
    let timeSinceLastConnection := timeSub t.1 device.UltimaConexion
    if timeSinceLastConnection > maxOfflineDuration then
      let errorMsg := offlineMessage c device timeSinceLastConnection
      let errors := errors ++ [errorMsg]
      let s := s.log (Call.loggerWarning
        ("Dispositivo " ++ device.Identificador ++ " tiempo fuera de línea excedido: " ++
          errorMsg))
      (errors, s)
    else
      (errors, s)

/-- validateCoordinates: the coordinate check on the report. -/
def validateCoordinates {F : Type} (req : TelemetryRequest F) : List String :=
  let errors : List String := []
  let errors := if req.Latitud.isNone then errors ++ ["Falta dato: Latitud"] else errors
  let errors := if req.Longitud.isNone then errors ++ ["Falta dato: Longitud"] else errors
  errors

/-- getDevice: the device from the cache, else from the repository with write-back.
The result is the Go pair (device, error). -/
def getDevice {W F : Type} (c : Deps W F) (s : St W F) (identifier : String) :
    (Option (Device F) × Option String) × St W F :=
  let r := c.cacheGetDevice identifier s.world
  let s := s.record (Call.cacheGetDevice identifier) r.2
  let s :=
    match r.1.2 with
    | some err => s.log (Call.loggerWarning ("Error al obtener dispositivo del caché: " ++ err))
    | none => s
  match r.1.1 with
  | some device =>
    let s := s.log (Call.loggerInfo ("Dispositivo encontrado en caché: " ++ identifier))
    ((some device, none), s)
  | none =>
    let s := s.log (Call.loggerInfo
      ("Dispositivo no está en caché, consultando base de datos: " ++ identifier))
    let q := c.repoGetDeviceByIdentifier identifier s.world
    let s := s.record (Call.repoGetDeviceByIdentifier identifier) q.2
    match q.1.2 with
    | some err =>
      ((none, some ("error al consultar dispositivo desde la base de datos: " ++ err)), s)
    | none =>
      match q.1.1 with
      | none => ((none, none), s)
      | some device =>
        let w := c.cacheSetDevice device s.world
        let s := s.record (Call.cacheSetDevice device) w.2
        let s :=
          match w.1 with
          | some err =>
            s.log (Call.loggerWarning ("Error al almacenar dispositivo en caché: " ++ err))
          | none => s.log (Call.loggerInfo ("Dispositivo almacenado en caché: " ++ identifier))
        ((some device, none), s)

/-- The policy block of `ProcessTelemetryData` (the staleness and coordinate checks
and their audit record): returns the violations found and the state after the block. -/
def policyChecks {W F : Type} (c : Deps W F) (s : St W F)
    (req : TelemetryRequest F) (device : Device F) : List String × St W F :=
  let v := validateOfflineTime c s device
  let errors := v.1
  let s := v.2
  let coordinateErrors := validateCoordinates req
  let errors := errors ++ coordinateErrors
  if errors.length > 0 then
    let errorDesc := stringsJoin errors "; "
    let t := c.now s.world
    let errorRecord : ErrorRecord :=
      { IDMedicion := 0
        IDTelemetria := some device.IDTelemetria
        Identificador := some req.Identificador
        Fecha := t.1
        Descripcion := errorDesc }
    let r := c.repoInsertError errorRecord t.2
    let s := s.record (Call.repoInsertError errorRecord) r.2
    match r.1 with
    | some err =>
      (errors, s.log (Call.loggerError ("Error al insertar registro de error: " ++ err)))
    | none => (errors, s)
  else (errors, s)

/-- The distance block of `ProcessTelemetryData`: present only when the device's
last fix and the report's coordinates are all present. -/
def distanceStep {F : Type} [Add F] [Sub F] [Mul F] [Div F] [NatCast F] [One F]
    (m : MathFns F) (device : Device F)
    (req : TelemetryRequest F) : Option F :=
  match device.Latitud, device.Longitud, req.Latitud, req.Longitud with
  | some dLat, some dLon, some rLat, some rLon => some (CalculateDistance m dLat dLon rLat rLon)
  | _, _, _, _ => none

/-- The measurement record built by `ProcessTelemetryData`, with timestamp `fecha`. -/
def buildMeasurement {F : Type} [Add F] [Sub F] [Mul F] [Div F] [NatCast F] [One F]
    (m : MathFns F) (device : Device F)
    (req : TelemetryRequest F) (fecha : Int) : Measurement F :=
  { IDMedicion := 0
    IDTelemetria := device.IDTelemetria
    Fecha := fecha
    Latitud := req.Latitud
    Longitud := req.Longitud
    Distancia := distanceStep m device req
    Sensor1 := req.Sensor1
    Sensor2 := req.Sensor2
    Sensor3 := req.Sensor3
    Sensor4 := req.Sensor4
    Sensor5 := req.Sensor5 }

/-- The tail of `ProcessTelemetryData` after a successful measurement insert: the
connection update, the cache refresh, the device log and the final log line. -/
def afterInsert {W F : Type} (c : Deps W F) (s : St W F)
    (req : TelemetryRequest F) (device : Device F) : Option String × St W F :=
  let t := c.now s.world
  let now := t.1
  let u := c.repoUpdateDeviceConnection device.IDTelemetria now t.2
  let s := s.record (Call.repoUpdateDeviceConnection device.IDTelemetria now) u.2
  let s :=
    match u.1 with
    | some err =>
      s.log (Call.loggerWarning ("Error al actualizar conexión del dispositivo: " ++ err))
    | none => s
  let s :=
    match req.Latitud, req.Longitud with
    | some lat, some lon =>
      let l := c.rCacheUpdateDeviceLocation req.Identificador lat lon now s.world
      let s := s.record (Call.rCacheUpdateDeviceLocation req.Identificador lat lon now) l.2
      match l.1 with
      | some err =>
        s.log (Call.loggerWarning
          ("Error al actualizar ubicación del dispositivo en caché: " ++ err))
      | none => s
    | _, _ => s
  let g := c.loggerLogDeviceData req.Identificador req s.world
  let s := s.record (Call.loggerLogDeviceData req.Identificador req) g.2
  let s :=
    match g.1 with
    | some err =>
      s.log (Call.loggerWarning ("Error al registrar datos del dispositivo: " ++ err))
    | none => s
  let s := s.log (Call.loggerInfo
    ("Datos de telemetría procesados para dispositivo: " ++ req.Identificador))
  (none, s)

/-- The persistence block of `ProcessTelemetryData`: the distance, the measurement
insert, and on success the rest of the function. -/
def persistMeasurement {W F : Type} [Add F] [Sub F] [Mul F] [Div F] [NatCast F] [One F]
    (c : Deps W F) (s : St W F)
    (req : TelemetryRequest F) (device : Device F) : Option String × St W F :=
  let t := c.now s.world
  let measurement := buildMeasurement c.math device req t.1
  let r := c.repoInsertMeasurement measurement t.2
  let s := s.record (Call.repoInsertMeasurement measurement) r.2
  match r.1 with
  | some err => (some ("error al insertar medición: " ++ err), s)
  | none => afterInsert c s req device

/-- The error returned by the `InsertMeasurement` call that the persistence block
makes when run from state `s` (`none` when the insert succeeds). -/
def insertAnswer {W F : Type} [Add F] [Sub F] [Mul F] [Div F] [NatCast F] [One F]
    (c : Deps W F) (s : St W F)
    (req : TelemetryRequest F) (device : Device F) : Option String :=
  (c.repoInsertMeasurement (buildMeasurement c.math device req (c.now s.world).1)
    (c.now s.world).2).1

/-- ProcessTelemetryData, from the point where the device has been resolved
(the statements after the `device == nil` block). -/
def processResolved {W F : Type} [Add F] [Sub F] [Mul F] [Div F] [NatCast F] [One F]
    (c : Deps W F) (s : St W F)
    (req : TelemetryRequest F) (device : Device F) : Option String × St W F :=
  persistMeasurement c (policyChecks c s req device).2 req device

/-- ProcessTelemetryData: the ingestion pipeline.  The first component is the
returned error (`none` is `nil`), the second the state after the run. -/
def ProcessTelemetryData {W F : Type} [Add F] [Sub F] [Mul F] [Div F] [NatCast F] [One F]
    (c : Deps W F) (s : St W F)
    (req : TelemetryRequest F) : Option String × St W F :=
  match ValidateRequiredFields req with
  | some err => (some ("validación fallida: " ++ err.Error), s)
  | none =>
    let d := getDevice c s req.Identificador
    let s := d.2
    match d.1.2 with
    | some err => (some ("error al obtener dispositivo: " ++ err), s)
    | none =>
      match d.1.1 with
      | none =>
        let s := s.log (Call.loggerWarning ("Dispositivo no encontrado: " ++ req.Identificador))
        let t := c.now s.world
        let errorRecord : ErrorRecord :=
          { IDMedicion := 0
            IDTelemetria := none
            Identificador := some req.Identificador
            Fecha := t.1
            Descripcion :=
              "Identificador no existe en la base de datos: " ++ req.Identificador }
        let r := c.repoInsertError errorRecord t.2
        let s := s.record (Call.repoInsertError errorRecord) r.2
        let s :=
          match r.1 with
          | some err => s.log (Call.loggerError ("Error al insertar registro de error: " ++ err))
          | none => s
        (some ("dispositivo no encontrado: " ++ req.Identificador), s)
      | some device => processResolved c s req device

/-! ## internal/http/handlers.go -/

/-- The JSON body written by the HTTP handler (a `gin.H`). -/
inductive GinH where
  | error (error : String)
  | errorFields (error : String) (fields : List ValidationError)
  | success (status : String) (message : String)
deriving DecidableEq

/-- The HTTP response: status code and body. -/
structure HttpResponse where
  code : Nat
  body : GinH
deriving DecidableEq

/-- The message of the validator for a field that fails its `binding:"required"` tag. -/
def requiredTagError (field : String) : String :=
  "Key: 'TelemetryRequest." ++ field ++ "' Error:Field validation for '" ++ field ++
    "' failed on the 'required' tag"

/-- The fields of a `TelemetryRequest` that fail their `binding:"required"` tag
(models/telemetry.go): an empty `Identificador`, a nil `Latitud`, a nil `Longitud`. -/
def missingRequired {F : Type} (req : TelemetryRequest F) : List String :=
  (if req.Identificador = "" then ["Identificador"] else []) ++
  (if req.Latitud.isNone then ["Latitud"] else []) ++
  (if req.Longitud.isNone then ["Longitud"] else [])

/-- gin's `c.ShouldBindJSON(&req)` for a `TelemetryRequest`: the body is decoded
(`decoded` is the outcome of the JSON decoder) and the decoded value is then checked
against the `binding:"required"` tags; a failed check is an error, as a failed decoding
is. -/
def ShouldBindJSON {F : Type} (decoded : Except String (TelemetryRequest F)) :
    Except String (TelemetryRequest F) :=
  match decoded with
  | Except.error err => Except.error err
  | Except.ok req =>
    match missingRequired req with
    | [] => Except.ok req
    | field :: fields =>
      Except.error (stringsJoin ((field :: fields).map requiredTagError) "\n")

/-- handleTelemetry: the HTTP POST handler.  `bound` is the outcome of
`c.ShouldBindJSON(&req)` (see `ShouldBindJSON`), `clientIP` the value of
`c.ClientIP()`. -/
def handleTelemetry {W F : Type} [Add F] [Sub F] [Mul F] [Div F] [NatCast F] [One F]
    (c : Deps W F) (clientIP : String) (s : St W F)
    (bound : Except String (TelemetryRequest F)) : HttpResponse × St W F :=
  match bound with
  | Except.error err =>
    let s := s.log (Call.loggerWarning ("Solicitud JSON inválida: " ++ err))
    let t := c.now s.world
    let invalidReq : InvalidRequest F :=
      { Timestamp := t.1
        IPAddress := clientIP
        Identificador := ""
        Latitud := none
        Longitud := none
        Errors := [{ Field := "json", Message := "Formato JSON inválido" }] }
    let s : St W F := { world := t.2, trace := s.trace }
    let s := s.log (Call.loggerLogInvalidRequest invalidReq)
    ({ code := 400, body := GinH.error "Formato JSON inválido" }, s)
  | Except.ok req =>
    match ValidateRequiredFields req with
    | some err =>
      let s := s.log (Call.loggerWarning ("Validación fallida: " ++ err.Error))
      let validationErrors := err.GetErrors
      let t := c.now s.world
      let invalidReq : InvalidRequest F :=
        { Timestamp := t.1
          IPAddress := clientIP
          Identificador := req.Identificador
          Latitud := req.Latitud
          Longitud := req.Longitud
          Errors := validationErrors }
      let s : St W F := { world := t.2, trace := s.trace }
      let s := s.log (Call.loggerLogInvalidRequest invalidReq)
      ({ code := 400, body := GinH.errorFields "Validación fallida" validationErrors }, s)
    | none =>
      let p := ProcessTelemetryData c s req
      let s := p.2
      match p.1 with
      | some err =>
        let s := s.log (Call.loggerError ("Error al procesar datos de telemetría: " ++ err))
        ({ code := 500, body := GinH.error "Error al procesar datos de telemetría" }, s)
      | none =>
        ({ code := 200,
           body := GinH.success "success" "Datos de telemetría procesados exitosamente" }, s)

/-! ## internal/mqtt/handler.go -/

/-- HandleMessage: the MQTT message handler.  `topic` is `msg.Topic()`, `decoded` the
outcome of `json.Unmarshal(msg.Payload(), &req)`. -/
def HandleMessage {W F : Type} [Add F] [Sub F] [Mul F] [Div F] [NatCast F] [One F]
    (c : Deps W F) (topic : String) (s : St W F)
    (decoded : Except String (TelemetryRequest F)) : St W F :=
  let s := s.log (Call.loggerInfo ("Mensaje MQTT recibido en topic: " ++ topic))
  match decoded with
  | Except.error err =>
    let s := s.log (Call.loggerError ("Error al parsear mensaje MQTT: " ++ err))
    let t := c.now s.world
    let invalidReq : InvalidRequest F :=
      { Timestamp := t.1
        IPAddress := "MQTT"
        Identificador := ""
        Latitud := none
        Longitud := none
        Errors := [{ Field := "json", Message := "Formato JSON inválido" }] }
    let s : St W F := { world := t.2, trace := s.trace }
    s.log (Call.loggerLogInvalidRequest invalidReq)
  | Except.ok req =>
    match ValidateRequiredFields req with
    | some err =>
      let s := s.log (Call.loggerWarning ("Validación de mensaje MQTT fallida: " ++ err.Error))
      let validationErrors := err.GetErrors
      let t := c.now s.world
      let invalidReq : InvalidRequest F :=
        { Timestamp := t.1
          IPAddress := "MQTT"
          Identificador := req.Identificador
          Latitud := req.Latitud
          Longitud := req.Longitud
          Errors := validationErrors }
      let s : St W F := { world := t.2, trace := s.trace }
      s.log (Call.loggerLogInvalidRequest invalidReq)
    | none =>
      let p := ProcessTelemetryData c s req
      let s := p.2
      match p.1 with
      | some err =>
        s.log (Call.loggerError ("Error al procesar datos de telemetría MQTT: " ++ err))
      | none =>
        s.log (Call.loggerInfo
          ("Datos de telemetría MQTT procesados exitosamente para dispositivo: " ++
            req.Identificador))

/-! ## Test doubles -/

/-- The answers of a scripted collaborator set: what each method returns, whatever
its arguments. -/
structure Script (F : Type) where
  clock : Int
  cached : Option (Device F)
  cacheGetErr : Option String
  cacheSetErr : Option String
  stored : Option (Device F)
  repoGetErr : Option String
  updateConnErr : Option String
  insertMeasurementErr : Option String
  insertErrorErr : Option String
  updateLocErr : Option String
  logDeviceErr : Option String

/-- Collaborators that answer from a script and keep no state. -/
def scripted {F : Type} (m : MathFns F) (k : Script F) : Deps Unit F :=
  { now := fun w => (k.clock, w)
    cacheGetDevice := fun _ w => ((k.cached, k.cacheGetErr), w)
    cacheSetDevice := fun _ w => (k.cacheSetErr, w)
    repoGetDeviceByIdentifier := fun _ w => ((k.stored, k.repoGetErr), w)
    repoUpdateDeviceConnection := fun _ _ w => (k.updateConnErr, w)
    repoInsertMeasurement := fun _ w => (k.insertMeasurementErr, w)
    repoInsertError := fun _ w => (k.insertErrorErr, w)
    rCacheUpdateDeviceLocation := fun _ _ _ _ w => (k.updateLocErr, w)
    loggerLogDeviceData := fun _ _ w => (k.logDeviceErr, w)
    formatRFC3339 := fun t => "T" ++ toString t
    durationString := fun d => toString d ++ "ns"
    math := m }

/-- The functions of Go's `math` package read over the real numbers. -/
noncomputable def realMath : MathFns ℝ :=
  { Pi := Real.pi
    Sin := Real.sin
    Cos := Real.cos
    Sqrt := Real.sqrt
    Atan2 := fun y x => Complex.arg ⟨x, y⟩ }

/-- The report of the end-to-end scenarios: DEV1 at (10.0, 20.0), no sensors. -/
def dev1Report : TelemetryRequest ℝ :=
  { Identificador := "DEV1"
    Latitud := some 10
    Longitud := some 20
    Sensor1 := none
    Sensor2 := none
    Sensor3 := none
    Sensor4 := none
    Sensor5 := none }

/-- The device DEV1 with prior fix (10.0, 20.0), a one-hour offline bound and the given
last contact. -/
def dev1Device (lastContact : Int) : Device ℝ :=
  { IDTelemetria := 7
    Identificador := "DEV1"
    Nombre := "Equipo 1"
    UltimaConexion := lastContact
    TiempoFueraLinea := "01:00:00"
    Latitud := some 10
    Longitud := some 20 }

/-- A script in which nothing is cached or stored and every call succeeds; the clock
reads `clock`. -/
def emptyScript (clock : Int) : Script ℝ :=
  { clock := clock
    cached := none
    cacheGetErr := none
    cacheSetErr := none
    stored := none
    repoGetErr := none
    updateConnErr := none
    insertMeasurementErr := none
    insertErrorErr := none
    updateLocErr := none
    logDeviceErr := none }

/-- The script of a known device: `device` is in the cache, every call succeeds,
the clock reads `clock`. -/
def cachedScript {F : Type} (device : Device F) (clock : Int) : Script F :=
  { clock := clock
    cached := some device
    cacheGetErr := none
    cacheSetErr := none
    stored := none
    repoGetErr := none
    updateConnErr := none
    insertMeasurementErr := none
    insertErrorErr := none
    updateLocErr := none
    logDeviceErr := none }

/-- The script of a known device whose measurement insert fails. -/
def failingInsertScript (device : Device ℝ) (clock : Int) : Script ℝ :=
  { clock := clock
    cached := some device
    cacheGetErr := none
    cacheSetErr := none
    stored := none
    repoGetErr := none
    updateConnErr := none
    insertMeasurementErr := some "connection refused"
    insertErrorErr := none
    updateLocErr := none
    logDeviceErr := none }

/-- The device DEV1 before its first fix: no last known coordinates. -/
def dev1NoFix (lastContact : Int) : Device ℝ :=
  { IDTelemetria := 7
    Identificador := "DEV1"
    Nombre := "Equipo 1"
    UltimaConexion := lastContact
    TiempoFueraLinea := "01:00:00"
    Latitud := none
    Longitud := none }

/-- A DEV1 report with sensor 1 at zero and sensor 2 absent. -/
def dev1SensorReport : TelemetryRequest ℝ :=
  { Identificador := "DEV1"
    Latitud := some 10
    Longitud := some 20
    Sensor1 := some 0
    Sensor2 := none
    Sensor3 := some 3
    Sensor4 := none
    Sensor5 := none }

/-- A report without identifier. -/
def anonymousReport : TelemetryRequest ℝ :=
  { Identificador := ""
    Latitud := some 10
    Longitud := some 20
    Sensor1 := none
    Sensor2 := none
    Sensor3 := none
    Sensor4 := none
    Sensor5 := none }

/-- A DEV1 report without latitude. -/
def noLatitudeReport : TelemetryRequest ℝ :=
  { Identificador := "DEV1"
    Latitud := none
    Longitud := some 20
    Sensor1 := none
    Sensor2 := none
    Sensor3 := none
    Sensor4 := none
    Sensor5 := none }

/-- A run starts with an empty trace. -/
def St.init {W F : Type} (w : W) : St W F :=
  { world := w, trace := [] }

/-- The script of a known stale device for which every best-effort call fails and only
the measurement insert succeeds. -/
def bestEffortFailScript (device : Device ℝ) (clock : Int) : Script ℝ :=
  { clock := clock
    cached := some device
    cacheGetErr := none
    cacheSetErr := some "cache down"
    stored := none
    repoGetErr := none
    updateConnErr := some "dispositivo no encontrado: 7"
    insertMeasurementErr := none
    insertErrorErr := some "deadlock"
    updateLocErr := some "cache down"
    logDeviceErr := some "disk full" }

/-- The script of a cache miss with a stored device: the repository holds `device`,
the cache is empty and its write-back fails. -/
def storedScript (device : Device ℝ) (clock : Int) : Script ℝ :=
  { clock := clock
    cached := none
    cacheGetErr := some "cache down"
    cacheSetErr := some "cache down"
    stored := some device
    repoGetErr := none
    updateConnErr := none
    insertMeasurementErr := none
    insertErrorErr := none
    updateLocErr := none
    logDeviceErr := none }

/-- The great-circle distance in metres that the specification names: the haversine
formula with Earth radius 6371.0 km, coordinates in degrees. -/
noncomputable def haversineMeters (lat1 lon1 lat2 lon2 : ℝ) : ℝ :=
  1000 * (6371 * (2 * Real.arcsin (Real.sqrt
    (Real.sin ((lat2 * Real.pi / 180 - lat1 * Real.pi / 180) / 2) ^ 2 +
      Real.cos (lat1 * Real.pi / 180) * Real.cos (lat2 * Real.pi / 180) *
        Real.sin ((lon2 * Real.pi / 180 - lon1 * Real.pi / 180) / 2) ^ 2))))

/-! ## internal/config/config.go and internal/http/middleware.go -/

/-- RateLimitConfig: the admission settings.  The `float64` rate is an exact rational,
the burst a Go `int`, the delay a duration in nanoseconds. -/
structure RateLimitConfig where
  RequestsPerSecond : ℚ
  BurstSize : Int
  RequestDelay : Int

/-- Modelled from the spec: the token bucket behind `rate.Limiter` of
`golang.org/x/time/rate`, a dependency whose code is not among the sources.  A
bucket holds at most `burst` tokens, refills continuously at `limit` tokens per second,
and `last` is the instant up to which the refill has been accounted for. -/
structure Limiter where
  limit : ℚ
  burst : Int
  tokens : ℚ
  last : Int

/-- Modelled from the spec: `rate.NewLimiter(r, b)`, a bucket that starts full. -/
def NewLimiter (r : ℚ) (b : Int) : Limiter :=
  { limit := r, burst := b, tokens := b, last := 0 }

/-- Modelled from the spec: the tokens in the bucket at instant `t`, after refilling
for the time elapsed since `last` (none when `t` is not after `last`) up to `burst`. -/
def Limiter.advance (lim : Limiter) (t : Int) : ℚ :=
  min (lim.burst : ℚ) (lim.tokens + lim.limit * (((max 0 (t - lim.last) : Int) : ℚ) / 1000000000))

/-- Modelled from the spec: `Allow()` at instant `t` consumes one token if one is
available and otherwise denies, leaving the bucket as it was. -/
def Limiter.Allow (lim : Limiter) (t : Int) : Bool × Limiter :=
  if 1 ≤ lim.advance t then
    (true, { lim with tokens := lim.advance t - 1, last := t })
  else
    (false, lim)

/-- The `client` record of `RateLimitMiddleware`: a limiter and the last activity. -/
structure client where
  limiter : Limiter
  lastSeen : Int

/-- The `clients` map of `RateLimitMiddleware`, keyed by client IP. -/
abbrev Clients : Type := String → Option client

/-- The empty `clients` map. -/
def Clients.empty : Clients := fun _ => none

/-- The map with the entry of `ip` set to `c`. -/
def Clients.set (clients : Clients) (ip : String) (c : client) : Clients :=
  fun k => if k = ip then some c else clients k

/-- One pass of the cleanup goroutine of `RateLimitMiddleware` over the map, all clock
readings of the pass taken as the one instant `now`: an entry is deleted when
`time.Since(c.lastSeen) > 3*time.Minute`. -/
def sweep (clients : Clients) (now : Int) : Clients :=
  fun ip =>
    match clients ip with
    | some c => if timeSub now c.lastSeen > 3 * Minute then none else some c
    | none => none

/-- What the admission handler did with a request: whether it passed it on
(`c.Next()`), the response it wrote when it did not, and the delay it slept. -/
structure Admission where
  allowed : Bool
  response : Option HttpResponse
  slept : Int
deriving DecidableEq

/-- The limiter of `ip` in the map, a new one from the configuration when `ip` has no
entry yet (the first lines of the handler). -/
def limiterOf (cfg : RateLimitConfig) (clients : Clients) (ip : String) : Limiter :=
  match clients ip with
  | some c => c.limiter
  | none => NewLimiter cfg.RequestsPerSecond cfg.BurstSize

/-- The handler returned by `RateLimitMiddleware`, run atomically for the client `ip`:
`now` is the clock reading stored in `lastSeen`, `allowAt` the later reading taken by
`limiter.Allow()`.  The limiter is shared with the map entry, so the entry holds its
state after `Allow`. -/
def RateLimitMiddleware (cfg : RateLimitConfig) (clients : Clients) (ip : String)
    (now allowAt : Int) : Admission × Clients :=
  let limiter := limiterOf cfg clients ip
  let a := limiter.Allow allowAt
  let clients := clients.set ip { limiter := a.2, lastSeen := now }
  if !a.1 then
    ({ allowed := false,
       response := some { code := 429, body := GinH.error "Límite de tasa excedido" },
       slept := 0 }, clients)
  else
    ({ allowed := true, response := none,
       slept := if cfg.RequestDelay > 0 then cfg.RequestDelay else 0 }, clients)

/-- A request seen by the admission handler: the client IP and the two clock readings. -/
structure Request where
  ip : String
  now : Int
  allowAt : Int

/-- The admission handler run over a sequence of requests: the decision for each
request, in order, and the map left behind. -/
def serve (cfg : RateLimitConfig) (clients : Clients) : List Request → List (String × Bool) × Clients
  | [] => ([], clients)
  | q :: qs =>
    let r := RateLimitMiddleware cfg clients q.ip q.now q.allowAt
    let rest := serve cfg r.2 qs
    ((q.ip, r.1.allowed) :: rest.1, rest.2)

/-- The number of requests of a decision list that were admitted. -/
def admitted (decisions : List (String × Bool)) : Nat :=
  (decisions.filter fun d => d.2).length

/-- The time in seconds, as a rational, from the first to the last `Allow` reading of a
sequence of requests (0 for the empty sequence). -/
def spanSeconds (reqs : List Request) : ℚ :=
  (((reqs.getLast?.map Request.allowAt).getD 0 - (reqs.head?.map Request.allowAt).getD 0 : Int) : ℚ) /
    1000000000

/-- An admission configuration with one token of burst and one token per 1000 s. -/
def slowConfig : RateLimitConfig :=
  { RequestsPerSecond := 1 / 1000, BurstSize := 1, RequestDelay := 0 }

/-- A bucket of the configuration `cfg` in a state that a run can reach: rate and
burst are the configured ones and the tokens lie between 0 and the burst. -/
def Limiter.Valid (cfg : RateLimitConfig) (lim : Limiter) : Prop :=
  lim.limit = cfg.RequestsPerSecond ∧ lim.burst = cfg.BurstSize ∧
  0 ≤ lim.tokens ∧ lim.tokens ≤ (lim.burst : ℚ)

/-- The requests are in the order of their `Allow` clock readings. -/
def InOrder (reqs : List Request) : Prop :=
  reqs.Pairwise fun a b => a.allowAt ≤ b.allowAt

/-- The requests never ask for more than a bucket of the configuration can supply: every
run of consecutive requests has at most the burst plus the refill over its span (at
most `BurstSize` at once and at most `RequestsPerSecond` sustained). -/
def Conforms (cfg : RateLimitConfig) (reqs : List Request) : Prop :=
  ∀ w : List Request, w <:+: reqs → w ≠ [] →
    (w.length : ℚ) ≤ (cfg.BurstSize : ℚ) + cfg.RequestsPerSecond * spanSeconds w

/-! ## internal/database/redis/cache.go -/

/-- A Redis hash as returned by `HGetAll`: field names with their string values. -/
abbrev Hash : Type := List (String × String)

/-- The commands of the go-redis client used by the cache, each a transition on the
state `R` of the Redis server; a returned error is `some msg`. -/
structure RedisClient (R : Type) where
  hGetAll : String → R → (Hash × Option String) × R
  hSet : String → Hash → R → Option String × R
  expire : String → Int → R → Option String × R

/-- Connection: the Redis client and the configured cache TTL. -/
structure Connection (R : Type) where
  client : RedisClient R
  ttl : Int

/-- How values cross the Redis boundary: the go-redis argument writer for `uint` and
`float64`, `json.Unmarshal` for reading them back, and `time.Format`/`time.Parse` with
the RFC 3339 layout. -/
structure Codec (F : Type) where
  formatUint : Nat → String
  parseUint : String → Option Nat
  formatFloat : F → String
  parseFloat : String → Option F
  formatTime : Int → String
  parseTime : String → Option Int

/-- Go's zero `time.Time` (1 January of year 1), in nanoseconds from the Unix epoch. -/
def zeroTime : Int := -62135596800 * Second

/-- The key under which a device is cached. -/
def deviceKey (identifier : String) : String :=
  "device:" ++ identifier

/-- Cache.GetDevice: the cached device for an identifier, `(nil, nil)` on a miss. -/
def Cache.GetDevice {R F : Type} (conn : Connection R) (cd : Codec F) (identifier : String)
    (r : R) : (Option (Device F) × Option String) × R :=
  let key := deviceKey identifier
  let g := conn.client.hGetAll key r
  match g.1.2 with
  | some err => ((none, some ("error al obtener dispositivo del caché: " ++ err)), g.2)
  | none =>
    let result := g.1.1
    if result.length = 0 then ((none, none), g.2)
    else
      let device : Device F :=
        { IDTelemetria := 0
          Identificador := identifier
          Nombre := ""
          UltimaConexion := zeroTime
          TiempoFueraLinea := ""
          Latitud := none
          Longitud := none }
      let device :=
        match result.lookup "idTelemetria" with
        | some val =>
          match cd.parseUint val with
          | some id => { device with IDTelemetria := id }
          | none => device
        | none => device
      let device :=
        match result.lookup "nombre" with
        | some val => { device with Nombre := val }
        | none => device
      let device :=
        match result.lookup "ultimaConexion" with
        | some val =>
          match cd.parseTime val with
          | some t => { device with UltimaConexion := t }
          | none => device
        | none => device
      let device :=
        match result.lookup "tiempoFueraLinea" with
        | some val => { device with TiempoFueraLinea := val }
        | none => device
      let device :=
        match result.lookup "latitud" with
        | some val =>
          match cd.parseFloat val with
          | some lat => { device with Latitud := some lat }
          | none => device
        | none => device
      let device :=
        match result.lookup "longitud" with
        | some val =>
          match cd.parseFloat val with
          | some lon => { device with Longitud := some lon }
          | none => device
        | none => device
      ((some device, none), g.2)

/-- The fields written by `Cache.SetDevice` for a device. -/
def deviceFields {F : Type} (cd : Codec F) (device : Device F) : Hash :=
  let data : Hash :=
    [("idTelemetria", cd.formatUint device.IDTelemetria),
     ("nombre", device.Nombre),
     ("ultimaConexion", cd.formatTime device.UltimaConexion),
     ("tiempoFueraLinea", device.TiempoFueraLinea)]
  let data :=
    match device.Latitud with
    | some lat => data ++ [("latitud", cd.formatFloat lat)]
    | none => data
  let data :=
    match device.Longitud with
    | some lon => data ++ [("longitud", cd.formatFloat lon)]
    | none => data
  data

/-- Cache.SetDevice: store a device in the cache and set the expiry of its key. -/
def Cache.SetDevice {R F : Type} (conn : Connection R) (cd : Codec F) (device : Device F)
    (r : R) : Option String × R :=
  let key := deviceKey device.Identificador
  let data := deviceFields cd device
  let h := conn.client.hSet key data r
  match h.1 with
  | some err => (some ("error al establecer dispositivo en caché: " ++ err), h.2)
  | none =>
    let e := conn.client.expire key conn.ttl h.2
    match e.1 with
    | some err => (some ("error al establecer expiración del caché: " ++ err), e.2)
    | none => (none, e.2)

/-- Cache.UpdateDeviceLocation: write the location fields and refresh the expiry. -/
def Cache.UpdateDeviceLocation {R F : Type} (conn : Connection R) (cd : Codec F)
    (identifier : String) (latitud longitud : F) (timestamp : Int) (r : R) :
    Option String × R :=
  let key := deviceKey identifier
  let data : Hash :=
    [("latitud", cd.formatFloat latitud),
     ("longitud", cd.formatFloat longitud),
     ("ultimaConexion", cd.formatTime timestamp)]
  let h := conn.client.hSet key data r
  match h.1 with
  | some err =>
    (some ("error al actualizar ubicación del dispositivo en caché: " ++ err), h.2)
  | none =>
    let e := conn.client.expire key conn.ttl h.2
    match e.1 with
    | some err => (some ("error al refrescar expiración del caché: " ++ err), e.2)
    | none => (none, e.2)

/-- The collaborators `base` with the cache replaced by the Redis cache over `conn`:
the world is the Redis state next to the world of `base`. -/
def withRedisCache {R W F : Type} (base : Deps W F) (conn : Connection R) (cd : Codec F) :
    Deps (R × W) F :=
  { now := fun s => ((base.now s.2).1, (s.1, (base.now s.2).2))
    cacheGetDevice := fun identifier s =>
      ((Cache.GetDevice conn cd identifier s.1).1, ((Cache.GetDevice conn cd identifier s.1).2, s.2))
    cacheSetDevice := fun device s =>
      ((Cache.SetDevice conn cd device s.1).1, ((Cache.SetDevice conn cd device s.1).2, s.2))
    repoGetDeviceByIdentifier := fun identifier s =>
      ((base.repoGetDeviceByIdentifier identifier s.2).1,
        (s.1, (base.repoGetDeviceByIdentifier identifier s.2).2))
    repoUpdateDeviceConnection := fun deviceID timestamp s =>
      ((base.repoUpdateDeviceConnection deviceID timestamp s.2).1,
        (s.1, (base.repoUpdateDeviceConnection deviceID timestamp s.2).2))
    repoInsertMeasurement := fun m s =>
      ((base.repoInsertMeasurement m s.2).1, (s.1, (base.repoInsertMeasurement m s.2).2))
    repoInsertError := fun e s =>
      ((base.repoInsertError e s.2).1, (s.1, (base.repoInsertError e s.2).2))
    rCacheUpdateDeviceLocation := fun identifier lat lon timestamp s =>
      ((Cache.UpdateDeviceLocation conn cd identifier lat lon timestamp s.1).1,
        ((Cache.UpdateDeviceLocation conn cd identifier lat lon timestamp s.1).2, s.2))
    loggerLogDeviceData := fun identifier data s =>
      ((base.loggerLogDeviceData identifier data s.2).1,
        (s.1, (base.loggerLogDeviceData identifier data s.2).2))
    formatRFC3339 := base.formatRFC3339
    durationString := base.durationString
    math := base.math }

/-- A Redis server as a keyed store of hashes; a key that holds no field is absent. -/
abbrev MemStore : Type := String → Hash

/-- `HSet` on a hash: the given fields replace the fields of the same name and the
other fields stay. -/
def mergeFields (data old : Hash) : Hash :=
  data ++ old.filter fun p => (data.lookup p.1).isNone

/-- A working Redis client over the keyed store: no command fails and no key expires
while it is used. -/
def memRedis : RedisClient MemStore :=
  { hGetAll := fun key r => ((r key, none), r)
    hSet := fun key data r =>
      (none, fun k => if k = key then mergeFields data (r k) else r k)
    expire := fun _ _ r => (none, r) }

/-- The empty keyed store. -/
def MemStore.empty : MemStore := fun _ => []

/-- A codec for the test doubles: identifiers in decimal; the stored devices of the
examples carry no coordinates, so no coordinate is ever written or read, and the
timestamp is not read back. -/
def testCodec : Codec ℝ :=
  { formatUint := fun n => String.mk (Nat.toDigits 10 n)
    parseUint := fun s =>
      if s.toList.length ≠ 0 ∧ s.toList.all Char.isDigit = true then
        some (digitsValue s.toList)
      else none
    formatFloat := fun _ => ""
    parseFloat := fun _ => none
    formatTime := fun t => "T" ++ toString t
    parseTime := fun _ => none }

/-! ## internal/http/server.go -/

/-- LoggingMiddleware around the rest of the chain `next`: the request is timed and
logged after `c.Next()` returned.  `next` also hands back the state `α` that the later
middleware keeps outside the request (the rate-limit map). -/
def LoggingMiddleware {W F α : Type} (c : Deps W F) (method path clientIP : String)
    (s : St W F) (next : St W F → (HttpResponse × St W F) × α) :
    (HttpResponse × St W F) × α :=
  let start := c.now s.world
  let s : St W F := { world := start.2, trace := s.trace }
  let r := next s
  let fin := c.now r.1.2.world
  let s : St W F := { world := fin.2, trace := r.1.2.trace }
  let duration := timeSub fin.1 start.1
  let s := s.log (Call.loggerInfo
    (method ++ " " ++ path ++ " - Status: " ++ toString r.1.1.code ++ " - Duration: " ++
      c.durationString duration ++ " - IP: " ++ clientIP))
  ((r.1.1, s), r.2)

/-- The part of the `POST /telemetry` chain below the logging middleware: the
rate-limit handler over the `clients` map, its two clock readings taken from the
collaborators' clock, then `handleTelemetry` unless the request was denied
(`c.Abort()`). -/
def admitThenHandle {W F : Type} [Add F] [Sub F] [Mul F] [Div F] [NatCast F] [One F]
    (cfg : RateLimitConfig) (c : Deps W F)
    (clientIP : String) (clients : Clients) (s : St W F)
    (bound : Except String (TelemetryRequest F)) : (HttpResponse × St W F) × Clients :=
  let seen := c.now s.world
  let allowAt := c.now seen.2
  let a := RateLimitMiddleware cfg clients clientIP seen.1 allowAt.1
  let s : St W F := { world := allowAt.2, trace := s.trace }
  match a.1.response with
  | some resp => ((resp, s), a.2)
  | none => (handleTelemetry c clientIP s bound, a.2)

/-- The chain that `NewServer` and `registerRoutes` build for `POST /telemetry`: the
logging middleware, the rate-limit middleware, then `handleTelemetry`.  `gin.Recovery`
is left out: nothing below it panics. -/
def serveTelemetry {W F : Type} [Add F] [Sub F] [Mul F] [Div F] [NatCast F] [One F]
    (cfg : RateLimitConfig) (c : Deps W F)
    (clientIP : String) (clients : Clients) (s : St W F)
    (bound : Except String (TelemetryRequest F)) : (HttpResponse × St W F) × Clients :=
  LoggingMiddleware c "POST" "/telemetry" clientIP s fun s0 =>
    admitThenHandle cfg c clientIP clients s0 bound

/-- An admission configuration that admits nothing: no burst and no refill. -/
def closedConfig : RateLimitConfig :=
  { RequestsPerSecond := 0, BurstSize := 0, RequestDelay := 0 }

/-! ## internal/database/mysql/repository.go -/

/-- The outcome of `QueryRowContext(...).Scan(...)` for the device query, which selects
`idTelemetria, Identificador, Nombre, UltimaConexion, TiempoFueraLinea`: the five
scanned columns, `sql.ErrNoRows`, or another error. -/
inductive ScanResult where
  | row (idTelemetria : Nat) (identificador nombre : String) (ultimaConexion : Int)
      (tiempoFueraLinea : String)
  | errNoRows
  | error (msg : String)

/-- The database behind the MySQL repository: the device query by identifier, as a
transition on the state `D` of the server. -/
structure SqlDB (D : Type) where
  queryDevice : String → D → ScanResult × D

/-- Repository.GetDeviceByIdentifier of the MySQL repository: the device row for an
identifier, `(nil, nil)` when there is none. -/
def Repository.GetDeviceByIdentifier {D F : Type} (db : SqlDB D) (identifier : String)
    (d : D) : (Option (Device F) × Option String) × D :=
  let q := db.queryDevice identifier d
  match q.1 with
  | ScanResult.errNoRows => ((none, none), q.2)
  | ScanResult.error msg => ((none, some ("error al consultar dispositivo: " ++ msg)), q.2)
  | ScanResult.row idTelemetria identificador nombre ultimaConexion tiempoFueraLinea =>
    let device : Device F :=
      { IDTelemetria := idTelemetria
        Identificador := identificador
        Nombre := nombre
        UltimaConexion := ultimaConexion
        TiempoFueraLinea := tiempoFueraLinea
        Latitud := none
        Longitud := none }
    ((some device, none), q.2)

/-- The collaborators `base` with the device lookup of the repository replaced by the
MySQL one over `db`: the world is the database state next to the world of `base`. -/
def withMySQLRepository {D W F : Type} (base : Deps W F) (db : SqlDB D) : Deps (D × W) F :=
  { now := fun s => ((base.now s.2).1, (s.1, (base.now s.2).2))
    cacheGetDevice := fun identifier s =>
      ((base.cacheGetDevice identifier s.2).1, (s.1, (base.cacheGetDevice identifier s.2).2))
    cacheSetDevice := fun device s =>
      ((base.cacheSetDevice device s.2).1, (s.1, (base.cacheSetDevice device s.2).2))
    repoGetDeviceByIdentifier := fun identifier s =>
      let r : (Option (Device F) × Option String) × D :=
        Repository.GetDeviceByIdentifier db identifier s.1
      (r.1, (r.2, s.2))
    repoUpdateDeviceConnection := fun deviceID timestamp s =>
      ((base.repoUpdateDeviceConnection deviceID timestamp s.2).1,
        (s.1, (base.repoUpdateDeviceConnection deviceID timestamp s.2).2))
    repoInsertMeasurement := fun m s =>
      ((base.repoInsertMeasurement m s.2).1, (s.1, (base.repoInsertMeasurement m s.2).2))
    repoInsertError := fun e s =>
      ((base.repoInsertError e s.2).1, (s.1, (base.repoInsertError e s.2).2))
    rCacheUpdateDeviceLocation := fun identifier lat lon timestamp s =>
      ((base.rCacheUpdateDeviceLocation identifier lat lon timestamp s.2).1,
        (s.1, (base.rCacheUpdateDeviceLocation identifier lat lon timestamp s.2).2))
    loggerLogDeviceData := fun identifier data s =>
      ((base.loggerLogDeviceData identifier data s.2).1,
        (s.1, (base.loggerLogDeviceData identifier data s.2).2))
    formatRFC3339 := base.formatRFC3339
    durationString := base.durationString
    math := base.math }

/-- A database that holds the one row of DEV1 (id 7, bound "01:00:00", last contact at
instant 0) and answers every other identifier with no rows. -/
def dev1Table : SqlDB Unit :=
  { queryDevice := fun identifier d =>
      (if identifier = "DEV1" then ScanResult.row 7 "DEV1" "Equipo 1" 0 "01:00:00"
        else ScanResult.errNoRows, d) }

/-- A Redis server over the keyed store whose next `n` `HSet` commands fail (a
timeout) and which works otherwise; the state is the number of failures left and the
store. -/
def flakyRedis : RedisClient (Nat × MemStore) :=
  { hGetAll := fun key r => ((r.2 key, none), r)
    hSet := fun key data r =>
      match r.1 with
      | n + 1 => (some "i/o timeout", (n, r.2))
      | 0 => (none, (0, fun k => if k = key then mergeFields data (r.2 k) else r.2 k))
    expire := fun _ _ r => (none, r) }

/-! ## internal/config/config.go and internal/mqtt/client.go -/

/-- MySQLConfig: the MySQL settings. -/
structure MySQLConfig where
  Host : String
  Port : String
  User : String
  Password : String
  Database : String
  MaxOpenConns : Int
  MaxIdleConns : Int
  ConnMaxLifetime : Int

/-- RedisConfig: the Redis settings. -/
structure RedisConfig where
  Host : String
  Port : String
  Password : String
  DB : Int
  MaxRetries : Int
  PoolSize : Int
  MinIdleConns : Int
  CacheTTL : Int

/-- MQTTConfig: the MQTT settings. -/
structure MQTTConfig where
  Enabled : Bool
  BrokerURL : String
  ClientID : String
  Username : String
  Password : String
  Topic : String
  QoS : Nat
  CleanSession : Bool

/-- ServerConfig: the HTTP server settings. -/
structure ServerConfig where
  Port : String
  ReadTimeout : Int
  WriteTimeout : Int
  ShutdownTimeout : Int

/-- LoggingConfig: the logging settings. -/
structure LoggingConfig where
  LogDir : String
  AppLogFile : String
  InvalidLogFile : String
  DeviceLogDir : String

/-- Config: the whole application configuration. -/
structure Config where
  Server : ServerConfig
  MySQL : MySQLConfig
  Redis : RedisConfig
  MQTT : MQTTConfig
  RateLimit : RateLimitConfig
  Logging : LoggingConfig

/-- Config.Validate: `none` is the `nil` error. -/
def Config.Validate (c : Config) : Option String :=
  if c.MySQL.Host = "" then some "MYSQL_HOST es requerido"
  else if c.MySQL.Database = "" then some "MYSQL_DATABASE es requerido"
  else if c.Redis.Host = "" then some "REDIS_HOST es requerido"
  else if c.MQTT.Enabled = true ∧ c.MQTT.BrokerURL = "" then
    some "MQTT_BROKER_URL es requerido cuando MQTT está habilitado"
  else none

/-- The result of running Go code that can fail with a slice-bounds run-time panic:
the panic "slice bounds out of range [:high] with length len", or the value returned. -/
inductive Outcome (α : Type) where
  | sliceBoundsPanic (high len : Nat)
  | returned (a : α)

/-- The bytes of a Go string (its UTF-8 encoding). -/
def goBytes (s : String) : List UInt8 :=
  (s.toList.map String.utf8EncodeChar).flatten

/-- Go's `s[:high]` on a string: the first `high` bytes, and a run-time panic when the
string has fewer. -/
def sliceTo (s : String) (high : Nat) : Outcome (List UInt8) :=
  if high ≤ (goBytes s).length then Outcome.returned ((goBytes s).take high)
  else Outcome.sliceBoundsPanic high (goBytes s).length

/-- The client options that `NewClient` hands to the MQTT library; `TLSConfig` tells
whether a TLS configuration was set. -/
structure ClientOptions where
  Servers : List String
  ClientID : String
  CleanSession : Bool
  Username : String
  Password : String
  TLSConfig : Bool
  AutoReconnect : Bool
  MaxReconnectInterval : Int

/-- NewClient of the MQTT package, up to the options it builds (the handlers it
registers only log).  The condition `cfg.BrokerURL[:3] == "ssl" || cfg.BrokerURL[:3] ==
"tls"` slices the broker URL before comparing. -/
def NewClient (cfg : MQTTConfig) : Outcome ClientOptions :=
  let opts : ClientOptions :=
    { Servers := [cfg.BrokerURL]
      ClientID := cfg.ClientID
      CleanSession := cfg.CleanSession
      Username := ""
      Password := ""
      TLSConfig := false
      AutoReconnect := false
      MaxReconnectInterval := 0 }
  let opts := if cfg.Username ≠ "" then { opts with Username := cfg.Username } else opts
  let opts := if cfg.Password ≠ "" then { opts with Password := cfg.Password } else opts
  match sliceTo cfg.BrokerURL 3 with
  | Outcome.sliceBoundsPanic high len => Outcome.sliceBoundsPanic high len
  | Outcome.returned head =>
    let opts :=
      if head = goBytes "ssl" ∨ head = goBytes "tls" then { opts with TLSConfig := true }
      else opts
    Outcome.returned
      { opts with AutoReconnect := true, MaxReconnectInterval := 10 * Second }

/-- The configuration that `Load` builds from an empty environment, with MQTT enabled
and the given broker URL. -/
def configWithBroker (brokerURL : String) : Config :=
  { Server :=
      { Port := "8080", ReadTimeout := 15 * Second, WriteTimeout := 15 * Second,
        ShutdownTimeout := 10 * Second }
    MySQL :=
      { Host := "localhost", Port := "3306", User := "root", Password := "",
        Database := "telemetria", MaxOpenConns := 25, MaxIdleConns := 5,
        ConnMaxLifetime := 5 * Minute }
    Redis :=
      { Host := "localhost", Port := "6379", Password := "", DB := 0, MaxRetries := 3,
        PoolSize := 10, MinIdleConns := 2, CacheTTL := 24 * Hour }
    MQTT :=
      { Enabled := true, BrokerURL := brokerURL, ClientID := "telemetry-endpoint",
        Username := "", Password := "", Topic := "telemetry/data", QoS := 1,
        CleanSession := true }
    RateLimit := { RequestsPerSecond := 100, BurstSize := 200, RequestDelay := 10000000 }
    Logging :=
      { LogDir := "./logs", AppLogFile := "app.log", InvalidLogFile := "invalid_requests.log",
        DeviceLogDir := "./logs/devices" } }

/-! ## Go's `float64` -/

/-- A `float64` value: a finite number, kept as the rational it denotes, an infinity
(negative or positive), or NaN.  The sign of zero is not modelled: zero is `+0`. -/
inductive Float64 where
  | num (q : ℚ)
  | inf (negative : Bool)
  | nan
deriving DecidableEq

/-- The integer nearest to `q`, the even one of the two when `q` is halfway. -/
def roundHalfEven (q : ℚ) : ℤ :=
  if q - ⌊q⌋ < 1 / 2 then ⌊q⌋
  else if 1 / 2 < q - ⌊q⌋ then ⌊q⌋ + 1
  else if ⌊q⌋ % 2 = 0 then ⌊q⌋ else ⌊q⌋ + 1

/-- The binary exponent at `q`: `⌊log₂ |q|⌋`, and -1022 throughout the subnormal
range. -/
def binaryExponent (q : ℚ) : ℤ :=
  max (Int.log 2 |q|) (-1022)

/-- The spacing of the `float64` values around `q`: 53 significant bits. -/
def ulp (q : ℚ) : ℚ :=
  2 ^ (binaryExponent q - 52)

/-- The multiple of the spacing nearest to `q`, ties to the even significand. -/
def roundToFloat (q : ℚ) : ℚ :=
  roundHalfEven (q / ulp q) * ulp q

/-- The magnitude from which rounding overflows: `2^1024 - 2^970`, halfway between the
largest `float64` and `2^1024`. -/
def overflowThreshold : ℚ :=
  2 ^ 1024 - 2 ^ 970

/-- IEEE 754 rounding of an exact result to `float64` (to nearest, ties to even):
an infinity from the overflow threshold on. -/
def Float64.round (q : ℚ) : Float64 :=
  if overflowThreshold ≤ |q| then Float64.inf (decide (q < 0))
  else Float64.num (roundToFloat q)

/-- Negation of a `float64`. -/
def Float64.neg : Float64 → Float64
  | Float64.num q => Float64.num (-q)
  | Float64.inf negative => Float64.inf (!negative)
  | Float64.nan => Float64.nan

/-- Addition of two `float64` values. -/
def Float64.add : Float64 → Float64 → Float64
  | Float64.num p, Float64.num q => Float64.round (p + q)
  | Float64.num _, Float64.inf b => Float64.inf b
  | Float64.inf a, Float64.num _ => Float64.inf a
  | Float64.inf a, Float64.inf b => if a = b then Float64.inf a else Float64.nan
  | Float64.nan, _ => Float64.nan
  | _, Float64.nan => Float64.nan

/-- Subtraction of two `float64` values. -/
def Float64.sub (x y : Float64) : Float64 :=
  Float64.add x (Float64.neg y)

/-- Multiplication of two `float64` values. -/
def Float64.mul : Float64 → Float64 → Float64
  | Float64.num p, Float64.num q => Float64.round (p * q)
  | Float64.num p, Float64.inf b =>
    if p = 0 then Float64.nan else Float64.inf (decide (p < 0) != b)
  | Float64.inf a, Float64.num q =>
    if q = 0 then Float64.nan else Float64.inf (a != decide (q < 0))
  | Float64.inf a, Float64.inf b => Float64.inf (a != b)
  | Float64.nan, _ => Float64.nan
  | _, Float64.nan => Float64.nan

/-- Division of two `float64` values. -/
def Float64.div : Float64 → Float64 → Float64
  | Float64.num p, Float64.num q =>
    if q = 0 then (if p = 0 then Float64.nan else Float64.inf (decide (p < 0)))
    else Float64.round (p / q)
  | Float64.num _, Float64.inf _ => Float64.num 0
  | Float64.inf a, Float64.num q => Float64.inf (a != decide (q < 0))
  | Float64.inf _, Float64.inf _ => Float64.nan
  | Float64.nan, _ => Float64.nan
  | _, Float64.nan => Float64.nan

instance : Neg Float64 := ⟨Float64.neg⟩

instance : Add Float64 := ⟨Float64.add⟩

instance : Sub Float64 := ⟨Float64.sub⟩

instance : Mul Float64 := ⟨Float64.mul⟩

instance : Div Float64 := ⟨Float64.div⟩

instance : Zero Float64 := ⟨Float64.num 0⟩

instance : One Float64 := ⟨Float64.num 1⟩

/-- A numeric constant of the program is converted to the nearest `float64`. -/
instance : NatCast Float64 := ⟨fun n => Float64.round n⟩

/-- The comparison `math.Abs(x-y) <= tol` of two `float64` values with a tolerance. -/
def Float64.withinTolerance (tol : ℚ) (x y : Float64) : Bool :=
  match x - y with
  | Float64.num d => decide (|d| ≤ tol)
  | _ => false

/-- The values that the functions of Go's `math` package return at finite arguments
outside their special cases; they are `float64` values.  `Sin` and `Sqrt` are only
asked at positive arguments, `Cos` at non-negative ones, `Atan2` at non-zero ones. -/
structure FiniteMath where
  Sin : ℚ → ℚ
  Cos : ℚ → ℚ
  Sqrt : ℚ → ℚ
  Atan2 : ℚ → ℚ → ℚ

/-- Go's `math.Pi` as a `float64`. -/
def float64Pi : ℚ := 884279719003555 / 281474976710656

/-- Go's `math.Atan2` on `float64`, with the special cases of its documentation. -/
def float64Atan2 (fin : FiniteMath) : Float64 → Float64 → Float64
  | Float64.nan, _ => Float64.nan
  | _, Float64.nan => Float64.nan
  | Float64.num y, Float64.num x =>
    if y = 0 then (if 0 ≤ x then Float64.num 0 else Float64.num float64Pi)
    else if x = 0 then (if 0 < y then Float64.num (float64Pi / 2)
      else Float64.num (-(float64Pi / 2)))
    else Float64.num (fin.Atan2 y x)
  | Float64.num _, Float64.inf false => Float64.num 0
  | Float64.num y, Float64.inf true =>
    if 0 ≤ y then Float64.num float64Pi else Float64.num (-float64Pi)
  | Float64.inf false, Float64.num _ => Float64.num (float64Pi / 2)
  | Float64.inf true, Float64.num _ => Float64.num (-(float64Pi / 2))
  | Float64.inf false, Float64.inf false => Float64.num (float64Pi / 4)
  | Float64.inf true, Float64.inf false => Float64.num (-(float64Pi / 4))
  | Float64.inf false, Float64.inf true =>
    Float64.num (2652839157010665 / 1125899906842624)
  | Float64.inf true, Float64.inf true =>
    Float64.num (-(2652839157010665 / 1125899906842624))

/-- The functions of Go's `math` package on `float64`: the special cases are those of
the package (NaN and infinite arguments, zero, the sign handling of `Sin` and `Cos`),
the other values are taken from `fin`. -/
def float64Math (fin : FiniteMath) : MathFns Float64 :=
  { Pi := Float64.num float64Pi
    Sin := fun x =>
      match x with
      | Float64.num q =>
        if q = 0 then Float64.num 0
        else if q < 0 then Float64.num (-fin.Sin (-q))
        else Float64.num (fin.Sin q)
      | _ => Float64.nan
    Cos := fun x =>
      match x with
      | Float64.num q => Float64.num (fin.Cos |q|)
      | _ => Float64.nan
    Sqrt := fun x =>
      match x with
      | Float64.num q =>
        if q < 0 then Float64.nan
        else if q = 0 then Float64.num 0
        else Float64.num (fin.Sqrt q)
      | Float64.inf false => Float64.inf false
      | _ => Float64.nan
    Atan2 := float64Atan2 fin }

/-- What the statements below ask of the finite values: the square root of 1 is 1
(`Sqrt` is correctly rounded) and a cosine lies between -1 and 1. -/
structure FiniteMath.Bounded (fin : FiniteMath) : Prop where
  sqrt_one : fin.Sqrt 1 = 1
  cos_le_one : ∀ q : ℚ, |fin.Cos q| ≤ 1

/-- Coarse stand-ins for the finite values, enough to run examples: first-order
approximations of the four functions. -/
def coarseMath : FiniteMath :=
  { Sin := fun q => q
    Cos := fun _ => 1
    Sqrt := fun q => (q + 1) / 2
    Atan2 := fun y x => y / x }

/-- The `float64` nearest to 1e308, the value that the JSON number `1e308` decodes to:
the 53-bit significand 5010420900022432 at exponent 971. -/
def float1e308 : ℚ :=
  5010420900022432 * 2 ^ 971

/-- A DEV1 report with latitude 1e308 and longitude 20, no sensors. -/
def farReport : TelemetryRequest Float64 :=
  { Identificador := "DEV1"
    Latitud := some (Float64.num float1e308)
    Longitud := some (Float64.num 20)
    Sensor1 := none
    Sensor2 := none
    Sensor3 := none
    Sensor4 := none
    Sensor5 := none }

/-- The device DEV1 with prior fix (1e308, 20), as left in the cache by an earlier
report of that position. -/
def farDevice (lastContact : Int) : Device Float64 :=
  { IDTelemetria := 7
    Identificador := "DEV1"
    Nombre := "Equipo 1"
    UltimaConexion := lastContact
    TiempoFueraLinea := "01:00:00"
    Latitud := some (Float64.num float1e308)
    Longitud := some (Float64.num 20) }

/-- The report of the end-to-end scenarios in `float64`: DEV1 at (10.0, 20.0). -/
def dev1Report64 : TelemetryRequest Float64 :=
  { Identificador := "DEV1"
    Latitud := some (Float64.num 10)
    Longitud := some (Float64.num 20)
    Sensor1 := none
    Sensor2 := none
    Sensor3 := none
    Sensor4 := none
    Sensor5 := none }

/-- The device DEV1 with prior fix (10.0, 20.0) in `float64`. -/
def dev1Device64 (lastContact : Int) : Device Float64 :=
  { IDTelemetria := 7
    Identificador := "DEV1"
    Nombre := "Equipo 1"
    UltimaConexion := lastContact
    TiempoFueraLinea := "01:00:00"
    Latitud := some (Float64.num 10)
    Longitud := some (Float64.num 20) }

/-- A database that holds the one row of DEV1 and compares identifiers without regard
to letter case, as the default collations of MySQL do: the query for "dev1" returns the
row whose `Identificador` is "DEV1". -/
def dev1TableAnyCase : SqlDB Unit :=
  { queryDevice := fun identifier d =>
      (if identifier.toList.map Char.toUpper = "DEV1".toList then
        ScanResult.row 7 "DEV1" "Equipo 1" 0 "01:00:00"
      else ScanResult.errNoRows, d) }

/-- The report of DEV1 at (10.0, 20.0) with its identifier written in lower case. -/
def dev1LowerReport : TelemetryRequest ℝ :=
  { Identificador := "dev1"
    Latitud := some 10
    Longitud := some 20
    Sensor1 := none
    Sensor2 := none
    Sensor3 := none
    Sensor4 := none
    Sensor5 := none }

/-- The collaborators of the examples with the Redis cache over a working keyed store
and the MySQL lookup over the one-row table that ignores letter case. -/
def anyCaseDeps (m : MathFns ℝ) : Deps (Unit × (MemStore × Unit)) ℝ :=
  withMySQLRepository
    (withRedisCache (scripted m (emptyScript 5)) ⟨memRedis, 1000⟩ testCodec)
    dev1TableAnyCase

end Telemetria

namespace Telemetria

/-! ## Bookkeeping lemmas on states and traces -/

@[simp] theorem St.record_trace {W F : Type} (s : St W F) (call : Call F) (w : W) :
    (s.record call w).trace = s.trace ++ [call] := rfl

@[simp] theorem St.record_world {W F : Type} (s : St W F) (call : Call F) (w : W) :
    (s.record call w).world = w := rfl

@[simp] theorem St.log_trace {W F : Type} (s : St W F) (call : Call F) :
    (s.log call).trace = s.trace ++ [call] := rfl

@[simp] theorem St.log_world {W F : Type} (s : St W F) (call : Call F) :
    (s.log call).world = s.world := rfl

@[simp] theorem St.init_trace {W F : Type} (w : W) : (St.init w : St W F).trace = [] := rfl

@[simp] theorem St.init_world {W F : Type} (w : W) : (St.init w : St W F).world = w := rfl

@[simp] theorem insertedErrors_append {F : Type} (a b : List (Call F)) :
    insertedErrors (a ++ b) = insertedErrors a ++ insertedErrors b := by
  simp [insertedErrors]

@[simp] theorem insertedMeasurements_append {F : Type} (a b : List (Call F)) :
    insertedMeasurements (a ++ b) = insertedMeasurements a ++ insertedMeasurements b := by
  simp [insertedMeasurements]

@[simp] theorem connectionUpdates_append {F : Type} (a b : List (Call F)) :
    connectionUpdates (a ++ b) = connectionUpdates a ++ connectionUpdates b := by
  simp [connectionUpdates]

@[simp] theorem locationUpdates_append {F : Type} (a b : List (Call F)) :
    locationUpdates (a ++ b) = locationUpdates a ++ locationUpdates b := by
  simp [locationUpdates]

@[simp] theorem deviceDataLogs_append {F : Type} (a b : List (Call F)) :
    deviceDataLogs (a ++ b) = deviceDataLogs a ++ deviceDataLogs b := by
  simp [deviceDataLogs]

@[simp] theorem cacheLookups_append {F : Type} (a b : List (Call F)) :
    cacheLookups (a ++ b) = cacheLookups a ++ cacheLookups b := by
  simp [cacheLookups]

@[simp] theorem repoLookups_append {F : Type} (a b : List (Call F)) :
    repoLookups (a ++ b) = repoLookups a ++ repoLookups b := by
  simp [repoLookups]

@[simp] theorem cacheStores_append {F : Type} (a b : List (Call F)) :
    cacheStores (a ++ b) = cacheStores a ++ cacheStores b := by
  simp [cacheStores]

@[simp] theorem invalidRequestLogs_append {F : Type} (a b : List (Call F)) :
    invalidRequestLogs (a ++ b) = invalidRequestLogs a ++ invalidRequestLogs b := by
  simp [invalidRequestLogs]

@[simp] theorem insertedErrors_nil {F : Type} : insertedErrors ([] : List (Call F)) = [] := rfl

@[simp] theorem insertedErrors_cons {F : Type} (call : Call F) (t : List (Call F)) :
    insertedErrors (call :: t) =
      (match call with
        | Call.repoInsertError e => [e]
        | _ => []) ++ insertedErrors t := by
  cases call <;> simp [insertedErrors]

@[simp] theorem insertedMeasurements_nil {F : Type} : insertedMeasurements ([] : List (Call F)) = [] := rfl

@[simp] theorem insertedMeasurements_cons {F : Type} (call : Call F) (t : List (Call F)) :
    insertedMeasurements (call :: t) =
      (match call with
        | Call.repoInsertMeasurement m => [m]
        | _ => []) ++ insertedMeasurements t := by
  cases call <;> simp [insertedMeasurements]

@[simp] theorem connectionUpdates_nil {F : Type} : connectionUpdates ([] : List (Call F)) = [] := rfl

@[simp] theorem connectionUpdates_cons {F : Type} (call : Call F) (t : List (Call F)) :
    connectionUpdates (call :: t) =
      (match call with
        | Call.repoUpdateDeviceConnection d t => [(d, t)]
        | _ => []) ++ connectionUpdates t := by
  cases call <;> simp [connectionUpdates]

@[simp] theorem locationUpdates_nil {F : Type} : locationUpdates ([] : List (Call F)) = [] := rfl

@[simp] theorem locationUpdates_cons {F : Type} (call : Call F) (t : List (Call F)) :
    locationUpdates (call :: t) =
      (match call with
        | Call.rCacheUpdateDeviceLocation i la lo t => [(i, la, lo, t)]
        | _ => []) ++ locationUpdates t := by
  cases call <;> simp [locationUpdates]

@[simp] theorem deviceDataLogs_nil {F : Type} : deviceDataLogs ([] : List (Call F)) = [] := rfl

@[simp] theorem deviceDataLogs_cons {F : Type} (call : Call F) (t : List (Call F)) :
    deviceDataLogs (call :: t) =
      (match call with
        | Call.loggerLogDeviceData i d => [(i, d)]
        | _ => []) ++ deviceDataLogs t := by
  cases call <;> simp [deviceDataLogs]

@[simp] theorem cacheLookups_nil {F : Type} : cacheLookups ([] : List (Call F)) = [] := rfl

@[simp] theorem cacheLookups_cons {F : Type} (call : Call F) (t : List (Call F)) :
    cacheLookups (call :: t) =
      (match call with
        | Call.cacheGetDevice i => [i]
        | _ => []) ++ cacheLookups t := by
  cases call <;> simp [cacheLookups]

@[simp] theorem repoLookups_nil {F : Type} : repoLookups ([] : List (Call F)) = [] := rfl

@[simp] theorem repoLookups_cons {F : Type} (call : Call F) (t : List (Call F)) :
    repoLookups (call :: t) =
      (match call with
        | Call.repoGetDeviceByIdentifier i => [i]
        | _ => []) ++ repoLookups t := by
  cases call <;> simp [repoLookups]

@[simp] theorem cacheStores_nil {F : Type} : cacheStores ([] : List (Call F)) = [] := rfl

@[simp] theorem cacheStores_cons {F : Type} (call : Call F) (t : List (Call F)) :
    cacheStores (call :: t) =
      (match call with
        | Call.cacheSetDevice d => [d]
        | _ => []) ++ cacheStores t := by
  cases call <;> simp [cacheStores]

@[simp] theorem invalidRequestLogs_nil {F : Type} : invalidRequestLogs ([] : List (Call F)) = [] := rfl

@[simp] theorem invalidRequestLogs_cons {F : Type} (call : Call F) (t : List (Call F)) :
    invalidRequestLogs (call :: t) =
      (match call with
        | Call.loggerLogInvalidRequest r => [r]
        | _ => []) ++ invalidRequestLogs t := by
  cases call <;> simp [invalidRequestLogs]

/-- The calls that `getDevice` adds to the trace are lookups, cache stores and log
lines only. -/
theorem getDevice_trace {W F : Type} (c : Deps W F) (s : St W F) (identifier : String) :
    insertedErrors (getDevice c s identifier).2.trace = insertedErrors s.trace ∧
    insertedMeasurements (getDevice c s identifier).2.trace = insertedMeasurements s.trace ∧
    connectionUpdates (getDevice c s identifier).2.trace = connectionUpdates s.trace ∧
    locationUpdates (getDevice c s identifier).2.trace = locationUpdates s.trace ∧
    deviceDataLogs (getDevice c s identifier).2.trace = deviceDataLogs s.trace ∧
    invalidRequestLogs (getDevice c s identifier).2.trace = invalidRequestLogs s.trace := by
  unfold getDevice
  dsimp only
  repeat' split
  all_goals simp

/-- When validation passes and `getDevice` resolves a device, the pipeline is the
resolved-device part run from the state `getDevice` left. -/
theorem ProcessTelemetryData_resolved {W F : Type} [Add F] [Sub F] [Mul F] [Div F] [NatCast F] [One F]
    (c : Deps W F) (s : St W F)
    (req : TelemetryRequest F) (device : Device F)
    (hv : ValidateRequiredFields req = none)
    (hd : (getDevice c s req.Identificador).1 = (some device, none)) :
    ProcessTelemetryData c s req =
      processResolved c (getDevice c s req.Identificador).2 req device := by
  unfold ProcessTelemetryData
  rw [hv]
  simp [hd]

/-- A report that passes validation has a non-empty identifier and both coordinates. -/
theorem present_of_valid {F : Type} (req : TelemetryRequest F)
    (hv : ValidateRequiredFields req = none) :
    req.Identificador ≠ "" ∧
    ∃ lat lon : F, req.Latitud = some lat ∧ req.Longitud = some lon := by
  rcases req with ⟨ident, la, lo, s1, s2, s3, s4, s5⟩
  by_cases hi : ident = "" <;> cases la <;> cases lo <;>
    simp_all [ValidateRequiredFields]

/-- A report that passes validation has no coordinate violation. -/
theorem validateCoordinates_of_valid {F : Type} (req : TelemetryRequest F)
    (hv : ValidateRequiredFields req = none) : validateCoordinates req = [] := by
  rcases req with ⟨ident, lat, lon, s1, s2, s3, s4, s5⟩
  by_cases hi : ident = "" <;> cases lat <;> cases lon <;>
    simp_all [ValidateRequiredFields, validateCoordinates]

/-- The staleness check adds only log lines to the trace. -/
theorem validateOfflineTime_trace {W F : Type} (c : Deps W F) (s : St W F) (device : Device F) :
    insertedErrors (validateOfflineTime c s device).2.trace = insertedErrors s.trace ∧
    insertedMeasurements (validateOfflineTime c s device).2.trace =
      insertedMeasurements s.trace ∧
    connectionUpdates (validateOfflineTime c s device).2.trace = connectionUpdates s.trace ∧
    locationUpdates (validateOfflineTime c s device).2.trace = locationUpdates s.trace ∧
    deviceDataLogs (validateOfflineTime c s device).2.trace = deviceDataLogs s.trace := by
  unfold validateOfflineTime
  dsimp only
  repeat' split
  all_goals simp

/-- The policy block calls nothing but `InsertError` and the application logger. -/
theorem policyChecks_trace {W F : Type} (c : Deps W F) (s : St W F)
    (req : TelemetryRequest F) (device : Device F) :
    insertedMeasurements (policyChecks c s req device).2.trace = insertedMeasurements s.trace ∧
    connectionUpdates (policyChecks c s req device).2.trace = connectionUpdates s.trace ∧
    locationUpdates (policyChecks c s req device).2.trace = locationUpdates s.trace ∧
    deviceDataLogs (policyChecks c s req device).2.trace = deviceDataLogs s.trace := by
  obtain ⟨-, vm, vc, vl, vd⟩ := validateOfflineTime_trace c s device
  unfold policyChecks
  dsimp only
  repeat' split
  all_goals simp [vm, vc, vl, vd]

/-- The violations found by the policy block are those of the staleness check followed
by those of the coordinate check. -/
theorem policyChecks_errors {W F : Type} (c : Deps W F) (s : St W F)
    (req : TelemetryRequest F) (device : Device F) :
    (policyChecks c s req device).1 =
      (validateOfflineTime c s device).1 ++ validateCoordinates req := by
  unfold policyChecks
  dsimp only
  repeat' split
  all_goals rfl

/-- The policy block writes no error record when there is no violation, and exactly one,
tagged with the device id and the report's identifier and describing the violations,
when there is one. -/
theorem policyChecks_audit {W F : Type} (c : Deps W F) (s : St W F)
    (req : TelemetryRequest F) (device : Device F) :
    ((policyChecks c s req device).1 = [] →
      insertedErrors (policyChecks c s req device).2.trace = insertedErrors s.trace) ∧
    ((policyChecks c s req device).1 ≠ [] →
      ∃ e : ErrorRecord,
        insertedErrors (policyChecks c s req device).2.trace = insertedErrors s.trace ++ [e] ∧
        e.IDTelemetria = some device.IDTelemetria ∧
        e.Identificador = some req.Identificador ∧
        e.Descripcion = stringsJoin (policyChecks c s req device).1 "; ") := by
  obtain ⟨ve, -, -, -, -⟩ := validateOfflineTime_trace c s device
  rw [policyChecks_errors]
  unfold policyChecks
  dsimp only
  constructor
  · intro h
    simp [h, ve]
  · intro h
    have hlen : ((validateOfflineTime c s device).1 ++ validateCoordinates req).length > 0 :=
      List.length_pos.mpr h
    rw [if_pos hlen]
    split <;> simp [ve]

/-- The tail after a successful insert returns `nil`, updates the device connection
once, refreshes the cache location exactly when both report coordinates are present,
writes the device log once, and inserts nothing. -/
theorem afterInsert_spec {W F : Type} (c : Deps W F) (s : St W F)
    (req : TelemetryRequest F) (device : Device F) :
    (afterInsert c s req device).1 = none ∧
    insertedErrors (afterInsert c s req device).2.trace = insertedErrors s.trace ∧
    insertedMeasurements (afterInsert c s req device).2.trace = insertedMeasurements s.trace ∧
    connectionUpdates (afterInsert c s req device).2.trace =
      connectionUpdates s.trace ++ [(device.IDTelemetria, (c.now s.world).1)] ∧
    locationUpdates (afterInsert c s req device).2.trace =
      locationUpdates s.trace ++
        (match req.Latitud, req.Longitud with
          | some lat, some lon => [(req.Identificador, lat, lon, (c.now s.world).1)]
          | _, _ => []) ∧
    deviceDataLogs (afterInsert c s req device).2.trace =
      deviceDataLogs s.trace ++ [(req.Identificador, req)] := by
  unfold afterInsert
  dsimp only
  refine ⟨rfl, ?_, ?_, ?_, ?_, ?_⟩
  all_goals
    repeat' split
    all_goals simp_all

/-- The persistence block calls `InsertMeasurement` exactly once, with the measurement
built from the device and the report, and writes no error record. -/
theorem persistMeasurement_inserts {W F : Type} [Add F] [Sub F] [Mul F] [Div F] [NatCast F] [One F]
    (c : Deps W F) (s : St W F)
    (req : TelemetryRequest F) (device : Device F) :
    insertedMeasurements (persistMeasurement c s req device).2.trace =
      insertedMeasurements s.trace ++ [buildMeasurement c.math device req (c.now s.world).1] ∧
    insertedErrors (persistMeasurement c s req device).2.trace = insertedErrors s.trace := by
  unfold persistMeasurement
  dsimp only
  constructor
  · split
    · simp
    · simp [(afterInsert_spec c _ req device).2.2.1]
  · split
    · simp
    · simp [(afterInsert_spec c _ req device).2.1]

/-- When the measurement insert fails, the persistence block returns an error and
the insert is the last call of the run. -/
theorem persistMeasurement_failure {W F : Type} [Add F] [Sub F] [Mul F] [Div F] [NatCast F] [One F]
    (c : Deps W F) (s : St W F)
    (req : TelemetryRequest F) (device : Device F)
    (hf : insertAnswer c s req device ≠ none) :
    (persistMeasurement c s req device).1 ≠ none ∧
    (persistMeasurement c s req device).2.trace =
      s.trace ++ [Call.repoInsertMeasurement
        (buildMeasurement c.math device req (c.now s.world).1)] := by
  unfold persistMeasurement
  dsimp only
  split
  · simp
  · rename_i h
    exact absurd h hf

/-- When the measurement insert succeeds, the persistence block continues with the
tail of the function. -/
theorem persistMeasurement_success {W F : Type} [Add F] [Sub F] [Mul F] [Div F] [NatCast F] [One F]
    (c : Deps W F) (s : St W F)
    (req : TelemetryRequest F) (device : Device F)
    (hs : insertAnswer c s req device = none) :
    (persistMeasurement c s req device).1 = none ∧
    ∃ t : Int, locationUpdates (persistMeasurement c s req device).2.trace =
      locationUpdates s.trace ++
        (match req.Latitud, req.Longitud with
          | some lat, some lon => [(req.Identificador, lat, lon, t)]
          | _, _ => []) := by
  unfold persistMeasurement
  unfold insertAnswer at hs
  dsimp only
  rw [hs]
  dsimp only
  obtain ⟨h1, -, -, -, h5, -⟩ := afterInsert_spec c
    (s.record (Call.repoInsertMeasurement (buildMeasurement c.math device req (c.now s.world).1))
      (c.repoInsertMeasurement (buildMeasurement c.math device req (c.now s.world).1)
        (c.now s.world).2).2) req device
  refine ⟨h1, (c.now (c.repoInsertMeasurement
    (buildMeasurement c.math device req (c.now s.world).1) (c.now s.world).2).2).1, ?_⟩
  rw [h5]
  simp

/-- The distance from a point to itself is zero. -/
theorem CalculateDistance_self {F : Type} [Field F] (m : MathFns F) (hm : m.ExactAtZero)
    (lat lon : F) : CalculateDistance m lat lon lat lon = 0 := by
  simp [CalculateDistance, hm.sin_zero, hm.sqrt_zero, hm.sqrt_one, hm.atan2_zero_one]

/-- The real functions have the expected values at zero and one. -/
theorem realMath_exactAtZero : realMath.ExactAtZero where
  sin_zero := by simp [realMath]
  sqrt_zero := by simp [realMath]
  sqrt_one := by simp [realMath]
  atan2_zero_one := by
    show Complex.arg ⟨1, 0⟩ = 0
    have h : (⟨1, 0⟩ : ℂ) = 1 := by
      apply Complex.ext <;> simp
    rw [h, Complex.arg_one]

/-- The distance block yields a value exactly when the four coordinates are present,
and then the value is `CalculateDistance` of them. -/
theorem distanceStep_spec {F : Type} [Add F] [Sub F] [Mul F] [Div F] [NatCast F] [One F]
    (m : MathFns F) (device : Device F)
    (req : TelemetryRequest F) :
    ((distanceStep m device req).isSome = true ↔
      device.Latitud.isSome = true ∧ device.Longitud.isSome = true ∧
      req.Latitud.isSome = true ∧ req.Longitud.isSome = true) ∧
    (∀ dLat dLon rLat rLon : F,
      device.Latitud = some dLat → device.Longitud = some dLon →
      req.Latitud = some rLat → req.Longitud = some rLon →
      distanceStep m device req = some (CalculateDistance m dLat dLon rLat rLon)) := by
  unfold distanceStep
  constructor
  · cases device.Latitud <;> cases device.Longitud <;> cases req.Latitud <;>
      cases req.Longitud <;> simp
  · intro a b x y h1 h2 h3 h4
    simp [h1, h2, h3, h4]

/-- The measurements inserted by a run that resolved a device: exactly one, built from
the device and the report. -/
theorem ProcessTelemetryData_measurement {W F : Type}
    [Add F] [Sub F] [Mul F] [Div F] [NatCast F] [One F] (c : Deps W F) (w : W)
    (req : TelemetryRequest F) (device : Device F)
    (hv : ValidateRequiredFields req = none)
    (hd : (getDevice c (St.init w) req.Identificador).1 = (some device, none)) :
    ∃ fecha : Int, insertedMeasurements (ProcessTelemetryData c (St.init w) req).2.trace =
      [buildMeasurement c.math device req fecha] := by
  rw [ProcessTelemetryData_resolved c _ req device hv hd]
  unfold processResolved
  refine ⟨(c.now (policyChecks c (getDevice c (St.init w) req.Identificador).2 req
    device).2.world).1, ?_⟩
  rw [(persistMeasurement_inserts c _ req device).1, (policyChecks_trace c _ req device).1,
    (getDevice_trace c _ req.Identificador).2.1]
  simp

/-! ## Required-field validation -/

/-- C5: `ValidateRequiredFields` reports exactly the violations the specification
lists (one per missing field, in the order identificador, latitud, longitud, none for a
present field); it returns no error exactly when the identifier is non-empty and both
coordinates are present; and a report with a non-empty identifier and both coordinates
supplied passes whatever the coordinate values are (zero included). -/
theorem ValidateRequiredFields_spec {F : Type} (req : TelemetryRequest F) :
    violationsOf (ValidateRequiredFields req) = specViolations req ∧
    (ValidateRequiredFields req = none ↔
      req.Identificador ≠ "" ∧ req.Latitud.isSome = true ∧ req.Longitud.isSome = true) ∧
    (∀ lat lon : F, req.Identificador ≠ "" →
      ValidateRequiredFields { req with Latitud := some lat, Longitud := some lon } = none) := by
  rcases req with ⟨ident, lat, lon, s1, s2, s3, s4, s5⟩
  refine ⟨?_, ?_, ?_⟩
  · by_cases hi : ident = "" <;> cases lat <;> cases lon <;>
      simp [ValidateRequiredFields, violationsOf, specViolations,
        ValidationErrors.GetErrors, hi]
  · by_cases hi : ident = "" <;> cases lat <;> cases lon <;>
      simp [ValidateRequiredFields, hi]
  · intro la lo hi
    simp [ValidateRequiredFields, hi]

/-- Witness for C5: a DEV1 report at latitude 0 and longitude 0 passes, and one without
latitude gets exactly the latitude violation. -/
theorem ValidateRequiredFields_spec_witness :
    ValidateRequiredFields { dev1Report with Latitud := some 0, Longitud := some 0 } = none ∧
    violationsOf (ValidateRequiredFields noLatitudeReport) =
      [{ Field := "latitud", Message := "La latitud es requerida" }] :=
  ⟨(ValidateRequiredFields_spec dev1Report).2.2 0 0 (by decide),
    (ValidateRequiredFields_spec noLatitudeReport).1.trans rfl⟩

/-! ## Device not found -/

/-- C1: for a report that passes `ValidateRequiredFields`, when the cache returns no
device and the repository returns no row, `ProcessTelemetryData` returns an error,
calls `InsertError` exactly once with a record that carries the report's identifier, no
device id and a description containing the identifier, and calls neither
`InsertMeasurement`, `UpdateDeviceConnection` nor `UpdateDeviceLocation`. -/
theorem ProcessTelemetryData_device_not_found {W F : Type} [Field F] (c : Deps W F) (w : W)
    (req : TelemetryRequest F)
    (hv : ValidateRequiredFields req = none)
    (hc : (c.cacheGetDevice req.Identificador w).1.1 = none)
    (hr : (c.repoGetDeviceByIdentifier req.Identificador
      (c.cacheGetDevice req.Identificador w).2).1 = (none, none)) :
    (ProcessTelemetryData c (St.init w) req).1 ≠ none ∧
    (∃ e : ErrorRecord,
      insertedErrors (ProcessTelemetryData c (St.init w) req).2.trace = [e] ∧
      e.Identificador = some req.Identificador ∧ e.IDTelemetria = none ∧
      Contains e.Descripcion req.Identificador) ∧
    insertedMeasurements (ProcessTelemetryData c (St.init w) req).2.trace = [] ∧
    connectionUpdates (ProcessTelemetryData c (St.init w) req).2.trace = [] ∧
    locationUpdates (ProcessTelemetryData c (St.init w) req).2.trace = [] := by
  have hg : getDevice c (St.init w) req.Identificador =
      ((none, none), (getDevice c (St.init w) req.Identificador).2) := by
    unfold getDevice
    simp only [St.init_world, hc]
    rw [Prod.ext_iff] at hr
    cases hce : (c.cacheGetDevice req.Identificador w).1.2 <;> simp [hr.1, hr.2]
  obtain ⟨ge, gm, gc, gl, -, -⟩ := getDevice_trace c (St.init w) req.Identificador
  unfold ProcessTelemetryData
  rw [hv]
  dsimp only
  rw [hg]
  dsimp only
  refine ⟨by simp, ⟨⟨0, none, some req.Identificador,
      (c.now (getDevice c (St.init w) req.Identificador).2.world).1,
      "Identificador no existe en la base de datos: " ++ req.Identificador⟩, ?_, rfl, rfl,
      ⟨"Identificador no existe en la base de datos: ", "", by simp⟩⟩, ?_, ?_, ?_⟩
  all_goals
    split <;> simp [ge, gm, gc, gl]

/-- Witness for C1: DEV1 with an empty cache and an empty repository. -/
theorem ProcessTelemetryData_device_not_found_witness :
    ValidateRequiredFields dev1Report = none ∧
    (ProcessTelemetryData (scripted realMath (emptyScript 0)) (St.init ()) dev1Report).1 ≠ none ∧
    insertedMeasurements
      (ProcessTelemetryData (scripted realMath (emptyScript 0)) (St.init ()) dev1Report).2.trace
      = [] :=
  have h := ProcessTelemetryData_device_not_found (scripted realMath (emptyScript 0)) ()
    dev1Report rfl rfl rfl
  ⟨rfl, h.1, h.2.2.1⟩

/-! ## Staleness policy -/

/-- The bound "01:00:00" parses to one hour. -/
theorem parseTimeDuration_one_hour : parseTimeDuration "01:00:00" = Except.ok (60 * Minute) := by
  rfl

/-- C8: `validateOfflineTime` returns exactly one violation when the max-offline
string parses and the elapsed time (Go's `time.Since`) is strictly greater than the
parsed duration, and no violation otherwise; a violation contains the last-contact time
in RFC 3339 form and the max-offline string; with bound "01:00:00", 59 minutes after
last contact gives none and 61 minutes gives exactly one. -/
theorem validateOfflineTime_spec {W F : Type} (c : Deps W F) (s : St W F) (device : Device F) :
    ((validateOfflineTime c s device).1.length = 1 ↔
      ∃ d : Int, parseTimeDuration device.TiempoFueraLinea = Except.ok d ∧
        timeSub (c.now s.world).1 device.UltimaConexion > d) ∧
    ((validateOfflineTime c s device).1 = [] ↔
      ¬ ∃ d : Int, parseTimeDuration device.TiempoFueraLinea = Except.ok d ∧
        timeSub (c.now s.world).1 device.UltimaConexion > d) ∧
    (∀ msg ∈ (validateOfflineTime c s device).1,
      Contains msg (c.formatRFC3339 device.UltimaConexion) ∧
      Contains msg device.TiempoFueraLinea) ∧
    (device.TiempoFueraLinea = "01:00:00" →
      ((c.now s.world).1 = device.UltimaConexion + 59 * Minute →
        (validateOfflineTime c s device).1 = []) ∧
      ((c.now s.world).1 = device.UltimaConexion + 61 * Minute →
        (validateOfflineTime c s device).1.length = 1)) := by
  refine ⟨?_, ?_, ?_, ?_⟩
  · unfold validateOfflineTime
    cases hp : parseTimeDuration device.TiempoFueraLinea with
    | error e => simp
    | ok d =>
      by_cases hgt : timeSub (c.now s.world).1 device.UltimaConexion > d <;> simp [hgt]
  · unfold validateOfflineTime
    cases hp : parseTimeDuration device.TiempoFueraLinea with
    | error e => simp
    | ok d =>
      by_cases hgt : timeSub (c.now s.world).1 device.UltimaConexion > d <;> simp [hgt]
  · unfold validateOfflineTime
    cases hp : parseTimeDuration device.TiempoFueraLinea with
    | error e => simp
    | ok d =>
      by_cases hgt : timeSub (c.now s.world).1 device.UltimaConexion > d
      · simp only [hgt, if_true, List.nil_append, List.mem_singleton]
        intro msg hmsg
        subst hmsg
        refine ⟨⟨"Tiempo fuera de línea excedido: última conexión ",
          ", tiempo máximo permitido " ++ device.TiempoFueraLinea ++
            ", tiempo transcurrido " ++
            c.durationString (timeSub (c.now s.world).1 device.UltimaConexion), ?_⟩,
          ⟨"Tiempo fuera de línea excedido: última conexión " ++
            c.formatRFC3339 device.UltimaConexion ++ ", tiempo máximo permitido ",
            ", tiempo transcurrido " ++
            c.durationString (timeSub (c.now s.world).1 device.UltimaConexion), ?_⟩⟩ <;>
          simp [offlineMessage, String.append_assoc]
      · simp [hgt]
  · intro htfl
    unfold validateOfflineTime
    rw [htfl, parseTimeDuration_one_hour]
    constructor
    · intro hnow
      have : ¬ timeSub (c.now s.world).1 device.UltimaConexion > 60 * Minute := by
        rw [hnow]
        simp only [timeSub, maxDuration, minDuration, Minute, Second]
        norm_num
      simp [this]
    · intro hnow
      have : timeSub (c.now s.world).1 device.UltimaConexion > 60 * Minute := by
        rw [hnow]
        simp only [timeSub, maxDuration, minDuration, Minute, Second]
        norm_num
      simp [this]

/-- Witness for C8: DEV1 with bound "01:00:00", last seen at instant 0, checked 59 and
61 minutes later. -/
theorem validateOfflineTime_spec_witness :
    (validateOfflineTime (scripted realMath (emptyScript (59 * Minute))) (St.init ())
      (dev1Device 0)).1 = [] ∧
    (validateOfflineTime (scripted realMath (emptyScript (61 * Minute))) (St.init ())
      (dev1Device 0)).1.length = 1 :=
  ⟨((validateOfflineTime_spec (scripted realMath (emptyScript (59 * Minute))) (St.init ())
      (dev1Device 0)).2.2.2 rfl).1 (by decide),
    ((validateOfflineTime_spec (scripted realMath (emptyScript (61 * Minute))) (St.init ())
      (dev1Device 0)).2.2.2 rfl).2 (by decide)⟩

/-! ## The pipeline for a resolved device -/

/-- C2: for a validated report whose resolved device has a parseable max-offline
duration exceeded by the elapsed time since last contact, and with `InsertMeasurement`
succeeding, `ProcessTelemetryData` returns `nil`, calls `InsertError` exactly once with
a record carrying the device id and the staleness message as description, and calls
`InsertMeasurement` exactly once. -/
theorem ProcessTelemetryData_stale_device {W F : Type} [Field F] (c : Deps W F) (w : W)
    (req : TelemetryRequest F) (device : Device F) (d : Int)
    (hv : ValidateRequiredFields req = none)
    (hd : (getDevice c (St.init w) req.Identificador).1 = (some device, none))
    (hp : parseTimeDuration device.TiempoFueraLinea = Except.ok d)
    (hs : timeSub (c.now (getDevice c (St.init w) req.Identificador).2.world).1
      device.UltimaConexion > d)
    (hi : insertAnswer c
      (policyChecks c (getDevice c (St.init w) req.Identificador).2 req device).2
      req device = none) :
    (ProcessTelemetryData c (St.init w) req).1 = none ∧
    (∃ e : ErrorRecord,
      insertedErrors (ProcessTelemetryData c (St.init w) req).2.trace = [e] ∧
      e.IDTelemetria = some device.IDTelemetria ∧
      e.Descripcion = offlineMessage c device
        (timeSub (c.now (getDevice c (St.init w) req.Identificador).2.world).1
          device.UltimaConexion)) ∧
    (∃ m : Measurement F,
      insertedMeasurements (ProcessTelemetryData c (St.init w) req).2.trace = [m]) := by
  obtain ⟨fecha, hm⟩ := ProcessTelemetryData_measurement c w req device hv hd
  refine ⟨?_, ?_, ⟨_, hm⟩⟩
  · rw [ProcessTelemetryData_resolved c _ req device hv hd]
    exact (persistMeasurement_success c _ req device hi).1
  · rw [ProcessTelemetryData_resolved c _ req device hv hd]
    unfold processResolved
    rw [(persistMeasurement_inserts c _ req device).2]
    have herrs : (policyChecks c (getDevice c (St.init w) req.Identificador).2 req device).1 =
        [offlineMessage c device
          (timeSub (c.now (getDevice c (St.init w) req.Identificador).2.world).1
            device.UltimaConexion)] := by
      rw [policyChecks_errors, validateCoordinates_of_valid req hv]
      unfold validateOfflineTime
      rw [hp]
      simp [hs]
    obtain ⟨e, he, hid, -, hdesc⟩ :=
      (policyChecks_audit c (getDevice c (St.init w) req.Identificador).2 req device).2
        (by rw [herrs]; simp)
    refine ⟨e, ?_, hid, ?_⟩
    · rw [he, (getDevice_trace c _ req.Identificador).1]
      simp
    · rw [hdesc, herrs]
      rfl

/-- Witness for C2: DEV1, last seen at instant 0 with a one-hour bound, reports 61
minutes later. -/
theorem ProcessTelemetryData_stale_device_witness :
    (ProcessTelemetryData (scripted realMath (cachedScript (dev1Device 0) (61 * Minute)))
      (St.init ()) dev1Report).1 = none ∧
    (∃ m : Measurement ℝ, insertedMeasurements
      (ProcessTelemetryData (scripted realMath (cachedScript (dev1Device 0) (61 * Minute)))
        (St.init ()) dev1Report).2.trace = [m]) :=
  have h := ProcessTelemetryData_stale_device
    (scripted realMath (cachedScript (dev1Device 0) (61 * Minute))) () dev1Report
    (dev1Device 0) (60 * Minute) rfl rfl parseTimeDuration_one_hour (by decide) rfl
  ⟨h.1, h.2.2⟩

/-- The run for a validated report at the resolved device's last known position
`(lat, lon)`, with the last contact within the max-offline duration and
`InsertMeasurement` succeeding: the result is `nil`, exactly one measurement is
inserted and its distance is the one computed from `(lat, lon)` to itself, `InsertError`
is never called, and `UpdateDeviceLocation` is called once with the report's identifier
and coordinates. -/
theorem ProcessTelemetryData_at_last_fix {W F : Type}
    [Add F] [Sub F] [Mul F] [Div F] [NatCast F] [One F] (c : Deps W F) (w : W)
    (req : TelemetryRequest F) (device : Device F) (d : Int) (lat lon : F)
    (hv : ValidateRequiredFields req = none)
    (hd : (getDevice c (St.init w) req.Identificador).1 = (some device, none))
    (hlat : req.Latitud = some lat) (hlon : req.Longitud = some lon)
    (hdlat : device.Latitud = some lat) (hdlon : device.Longitud = some lon)
    (hp : parseTimeDuration device.TiempoFueraLinea = Except.ok d)
    (hfresh : timeSub (c.now (getDevice c (St.init w) req.Identificador).2.world).1
      device.UltimaConexion ≤ d)
    (hi : insertAnswer c
      (policyChecks c (getDevice c (St.init w) req.Identificador).2 req device).2
      req device = none) :
    (ProcessTelemetryData c (St.init w) req).1 = none ∧
    (∃ m : Measurement F,
      insertedMeasurements (ProcessTelemetryData c (St.init w) req).2.trace = [m] ∧
      m.Distancia = some (CalculateDistance c.math lat lon lat lon)) ∧
    insertedErrors (ProcessTelemetryData c (St.init w) req).2.trace = [] ∧
    (∃ t : Int,
      locationUpdates (ProcessTelemetryData c (St.init w) req).2.trace =
        [(req.Identificador, lat, lon, t)]) := by
  obtain ⟨fecha, hm⟩ := ProcessTelemetryData_measurement c w req device hv hd
  have hres := ProcessTelemetryData_resolved c (St.init w) req device hv hd
  refine ⟨?_, ⟨_, hm, ?_⟩, ?_, ?_⟩
  · rw [hres]
    exact (persistMeasurement_success c _ req device hi).1
  · show distanceStep c.math device req = some _
    rw [(distanceStep_spec c.math device req).2 lat lon lat lon hdlat hdlon hlat hlon]
  · rw [hres]
    unfold processResolved
    rw [(persistMeasurement_inserts c _ req device).2]
    have herrs : (policyChecks c (getDevice c (St.init w) req.Identificador).2 req device).1 =
        [] := by
      rw [policyChecks_errors, validateCoordinates_of_valid req hv]
      unfold validateOfflineTime
      rw [hp]
      simp [not_lt.mpr hfresh]
    rw [(policyChecks_audit c _ req device).1 herrs, (getDevice_trace c _ req.Identificador).1]
    simp
  · obtain ⟨-, t, ht⟩ := persistMeasurement_success c
      (policyChecks c (getDevice c (St.init w) req.Identificador).2 req device).2 req device hi
    refine ⟨t, ?_⟩
    rw [hres]
    unfold processResolved
    rw [ht, (policyChecks_trace c _ req device).2.2.1,
      (getDevice_trace c _ req.Identificador).2.2.2.1, hlat, hlon]
    simp

/-- C4: for a validated report with a resolved device, when `InsertMeasurement`
returns an error `ProcessTelemetryData` returns an error and the insert is the last call
of the run: `UpdateDeviceConnection`, `UpdateDeviceLocation` and `LogDeviceData` are
never called. -/
theorem ProcessTelemetryData_insert_failure {W F : Type} [Field F] (c : Deps W F) (w : W)
    (req : TelemetryRequest F) (device : Device F)
    (hv : ValidateRequiredFields req = none)
    (hd : (getDevice c (St.init w) req.Identificador).1 = (some device, none))
    (hf : insertAnswer c
      (policyChecks c (getDevice c (St.init w) req.Identificador).2 req device).2
      req device ≠ none) :
    (ProcessTelemetryData c (St.init w) req).1 ≠ none ∧
    (∃ m : Measurement F, (ProcessTelemetryData c (St.init w) req).2.trace.getLast? =
      some (Call.repoInsertMeasurement m)) ∧
    connectionUpdates (ProcessTelemetryData c (St.init w) req).2.trace = [] ∧
    locationUpdates (ProcessTelemetryData c (St.init w) req).2.trace = [] ∧
    deviceDataLogs (ProcessTelemetryData c (St.init w) req).2.trace = [] := by
  rw [ProcessTelemetryData_resolved c _ req device hv hd]
  unfold processResolved
  obtain ⟨herr, htrace⟩ := persistMeasurement_failure c
    (policyChecks c (getDevice c (St.init w) req.Identificador).2 req device).2 req device hf
  obtain ⟨-, pc, pl, pd⟩ :=
    policyChecks_trace c (getDevice c (St.init w) req.Identificador).2 req device
  obtain ⟨-, -, gc, gl, gd, -⟩ := getDevice_trace c (St.init w) req.Identificador
  refine ⟨herr, ⟨buildMeasurement c.math device req
    (c.now (policyChecks c (getDevice c (St.init w) req.Identificador).2 req
      device).2.world).1, ?_⟩, ?_, ?_, ?_⟩
  · rw [htrace]
    simp
  · rw [htrace]
    simp [pc, gc]
  · rw [htrace]
    simp [pl, gl]
  · rw [htrace]
    simp [pd, gd]

/-- Witness for C4: DEV1 is known and the measurement insert is refused. -/
theorem ProcessTelemetryData_insert_failure_witness :
    (ProcessTelemetryData (scripted realMath (failingInsertScript (dev1Device 0) 5))
      (St.init ()) dev1Report).1 ≠ none ∧
    connectionUpdates
      (ProcessTelemetryData (scripted realMath (failingInsertScript (dev1Device 0) 5))
        (St.init ()) dev1Report).2.trace = [] :=
  have h := ProcessTelemetryData_insert_failure
    (scripted realMath (failingInsertScript (dev1Device 0) 5)) () dev1Report
    (dev1Device 0) rfl rfl (by simp [insertAnswer, scripted, failingInsertScript])
  ⟨h.1, h.2.2.1⟩

/-- C9: for a validated report with a resolved device, the one measurement inserted
has its distance present exactly when the device's latitude and longitude and the
report's latitude and longitude are all present, and when they are it equals
`CalculateDistance` of the device's and the report's coordinates. -/
theorem ProcessTelemetryData_distance {W F : Type} [Field F] (c : Deps W F) (w : W)
    (req : TelemetryRequest F) (device : Device F)
    (hv : ValidateRequiredFields req = none)
    (hd : (getDevice c (St.init w) req.Identificador).1 = (some device, none)) :
    ∃ m : Measurement F,
      insertedMeasurements (ProcessTelemetryData c (St.init w) req).2.trace = [m] ∧
      (m.Distancia.isSome = true ↔
        device.Latitud.isSome = true ∧ device.Longitud.isSome = true ∧
        req.Latitud.isSome = true ∧ req.Longitud.isSome = true) ∧
      (∀ dLat dLon rLat rLon : F,
        device.Latitud = some dLat → device.Longitud = some dLon →
        req.Latitud = some rLat → req.Longitud = some rLon →
        m.Distancia = some (CalculateDistance c.math dLat dLon rLat rLon)) := by
  obtain ⟨fecha, hm⟩ := ProcessTelemetryData_measurement c w req device hv hd
  exact ⟨_, hm, (distanceStep_spec c.math device req).1, (distanceStep_spec c.math device req).2⟩

/-- Witness for C9: DEV1 reports its first fix, so the device has no last known
coordinates and the inserted measurement has no distance. -/
theorem ProcessTelemetryData_distance_witness :
    ∃ m : Measurement ℝ,
      insertedMeasurements
        (ProcessTelemetryData (scripted realMath (cachedScript (dev1NoFix 0) 5))
          (St.init ()) dev1Report).2.trace = [m] ∧
      m.Distancia = none := by
  obtain ⟨m, hm, hiff, -⟩ := ProcessTelemetryData_distance
    (scripted realMath (cachedScript (dev1NoFix 0) 5)) () dev1Report (dev1NoFix 0) rfl rfl
  refine ⟨m, hm, ?_⟩
  cases hdist : m.Distancia with
  | none => rfl
  | some x =>
    have h := hiff.mp (by simp [hdist])
    simp [dev1NoFix] at h

/-- C10: for a validated report with a resolved device, the measurement passed to
`InsertMeasurement` carries the device's id, and its latitude, longitude and five
sensor values are those of the report, absent where the report's are absent and
present with the same value (zero included) where they are present. -/
theorem ProcessTelemetryData_measurement_mirrors {W F : Type} [Field F] (c : Deps W F) (w : W)
    (req : TelemetryRequest F) (device : Device F)
    (hv : ValidateRequiredFields req = none)
    (hd : (getDevice c (St.init w) req.Identificador).1 = (some device, none)) :
    ∃ m : Measurement F,
      insertedMeasurements (ProcessTelemetryData c (St.init w) req).2.trace = [m] ∧
      m.IDTelemetria = device.IDTelemetria ∧
      m.Latitud = req.Latitud ∧ m.Longitud = req.Longitud ∧
      m.Sensor1 = req.Sensor1 ∧ m.Sensor2 = req.Sensor2 ∧ m.Sensor3 = req.Sensor3 ∧
      m.Sensor4 = req.Sensor4 ∧ m.Sensor5 = req.Sensor5 := by
  obtain ⟨fecha, hm⟩ := ProcessTelemetryData_measurement c w req device hv hd
  exact ⟨_, hm, rfl, rfl, rfl, rfl, rfl, rfl, rfl, rfl⟩

/-- Witness for C10: a DEV1 report with sensor 1 at zero and sensor 2 absent gives a
measurement with sensor 1 present at zero and sensor 2 absent. -/
theorem ProcessTelemetryData_measurement_mirrors_witness :
    ∃ m : Measurement ℝ,
      insertedMeasurements
        (ProcessTelemetryData (scripted realMath (cachedScript (dev1Device 0) 5))
          (St.init ()) dev1SensorReport).2.trace = [m] ∧
      m.IDTelemetria = 7 ∧ m.Sensor1 = some 0 ∧ m.Sensor2 = none := by
  obtain ⟨m, hm, hid, -, -, h1, h2, -⟩ := ProcessTelemetryData_measurement_mirrors
    (scripted realMath (cachedScript (dev1Device 0) 5)) () dev1SensorReport (dev1Device 0)
    rfl rfl
  exact ⟨m, hm, hid, h1, h2⟩

/-! ## Reports that fail required-field validation -/

/-- C6: for a report missing the identifier, the latitude or the longitude,
`ProcessTelemetryData` returns an error and makes no call at all; in particular no
cache `GetDevice`, no repository `GetDeviceByIdentifier` and no `InsertMeasurement`. -/
theorem ProcessTelemetryData_invalid_report {W F : Type} [Field F] (c : Deps W F) (w : W)
    (req : TelemetryRequest F)
    (hmiss : req.Identificador = "" ∨ req.Latitud = none ∨ req.Longitud = none) :
    (ProcessTelemetryData c (St.init w) req).1 ≠ none ∧
    (ProcessTelemetryData c (St.init w) req).2.trace = [] ∧
    cacheLookups (ProcessTelemetryData c (St.init w) req).2.trace = [] ∧
    repoLookups (ProcessTelemetryData c (St.init w) req).2.trace = [] ∧
    insertedMeasurements (ProcessTelemetryData c (St.init w) req).2.trace = [] := by
  have hne : ValidateRequiredFields req ≠ none := by
    intro hv
    obtain ⟨hid, lat, lon, hla, hlo⟩ := present_of_valid req hv
    rcases hmiss with h | h | h
    · exact hid h
    · rw [hla] at h
      cases h
    · rw [hlo] at h
      cases h
  unfold ProcessTelemetryData
  cases hv : ValidateRequiredFields req with
  | none => exact absurd hv hne
  | some err => simp

/-- Witness for C6: a DEV1 report without latitude. -/
theorem ProcessTelemetryData_invalid_report_witness :
    (ProcessTelemetryData (scripted realMath (cachedScript (dev1Device 0) 5))
      (St.init ()) noLatitudeReport).1 ≠ none ∧
    (ProcessTelemetryData (scripted realMath (cachedScript (dev1Device 0) 5))
      (St.init ()) noLatitudeReport).2.trace = [] :=
  have h := ProcessTelemetryData_invalid_report
    (scripted realMath (cachedScript (dev1Device 0) 5)) () noLatitudeReport
    (Or.inr (Or.inl rfl))
  ⟨h.1, h.2.1⟩

/-- A report that fails `ValidateRequiredFields` fails the `binding:"required"` tags as
well, so `ShouldBindJSON` returns an error for it; a report that passes is bound. -/
theorem ShouldBindJSON_of_decoded {F : Type} (req : TelemetryRequest F) :
    (ValidateRequiredFields req ≠ none →
      ∃ err : String, ShouldBindJSON (Except.ok req) = Except.error err) ∧
    (ValidateRequiredFields req = none → ShouldBindJSON (Except.ok req) = Except.ok req) := by
  rcases req with ⟨ident, lat, lon, s1, s2, s3, s4, s5⟩
  by_cases hi : ident = "" <;> cases lat <;> cases lon <;>
    simp [ValidateRequiredFields, ShouldBindJSON, missingRequired, hi]

/-- C7, counterexample: a DEV1 report without latitude fails validation, and neither
the HTTP handler (where the binding already rejects it), nor the MQTT handler, nor
`ProcessTelemetryData` calls `InsertError` for it. -/
theorem invalid_report_no_error_record :
    ValidateRequiredFields noLatitudeReport ≠ none ∧
    insertedErrors
      (handleTelemetry (scripted realMath (emptyScript 0)) "10.0.0.1" (St.init ())
        (ShouldBindJSON (Except.ok noLatitudeReport))).2.trace = [] ∧
    insertedErrors
      (HandleMessage (scripted realMath (emptyScript 0)) "telemetria" (St.init ())
        (Except.ok noLatitudeReport)).trace = [] ∧
    insertedErrors
      (ProcessTelemetryData (scripted realMath (emptyScript 0)) (St.init ())
        noLatitudeReport).2.trace = [] := by
  refine ⟨?_, ?_, ?_, ?_⟩
  · simp [ValidateRequiredFields, noLatitudeReport]
  · simp [handleTelemetry, ShouldBindJSON, missingRequired, noLatitudeReport]
  · simp [HandleMessage, ValidateRequiredFields, noLatitudeReport]
  · simp [ProcessTelemetryData, ValidateRequiredFields, noLatitudeReport]

/-- C7, amended: when the decoded report fails `ValidateRequiredFields`, no
`InsertError` call is made.  Over HTTP the binding of the body already fails on the
`required` tags: the handler writes exactly one entry to the invalid-request log,
carrying the client address and the single violation `json`/"Formato JSON inválido"
but neither identifier nor coordinates, and answers with status 400 and the error
"Formato JSON inválido".  Over MQTT the handler writes exactly one entry to the
invalid-request log, carrying the address "MQTT", the report's identifier (empty when it
had none), its coordinates as supplied and the list of violations.  Neither adapter
enters the pipeline (no device lookup, no measurement). -/
theorem invalid_report_is_logged {W F : Type}
    [Add F] [Sub F] [Mul F] [Div F] [NatCast F] [One F] (c : Deps W F) (w : W)
    (clientIP topic : String) (req : TelemetryRequest F)
    (hinv : ValidateRequiredFields req ≠ none) :
    ((∃ err : String, ShouldBindJSON (Except.ok req) = Except.error err) ∧
      insertedErrors
        (handleTelemetry c clientIP (St.init w) (ShouldBindJSON (Except.ok req))).2.trace
          = [] ∧
      (∃ r : InvalidRequest F,
        invalidRequestLogs
          (handleTelemetry c clientIP (St.init w) (ShouldBindJSON (Except.ok req))).2.trace
            = [r] ∧
        r.IPAddress = clientIP ∧ r.Identificador = "" ∧
        r.Latitud = none ∧ r.Longitud = none ∧
        r.Errors = [{ Field := "json", Message := "Formato JSON inválido" }]) ∧
      (handleTelemetry c clientIP (St.init w) (ShouldBindJSON (Except.ok req))).1 =
        { code := 400, body := GinH.error "Formato JSON inválido" } ∧
      cacheLookups
        (handleTelemetry c clientIP (St.init w) (ShouldBindJSON (Except.ok req))).2.trace
          = [] ∧
      insertedMeasurements
        (handleTelemetry c clientIP (St.init w) (ShouldBindJSON (Except.ok req))).2.trace
          = []) ∧
    (insertedErrors (HandleMessage c topic (St.init w) (Except.ok req)).trace = [] ∧
      (∃ r : InvalidRequest F,
        invalidRequestLogs (HandleMessage c topic (St.init w) (Except.ok req)).trace = [r] ∧
        r.IPAddress = "MQTT" ∧ r.Identificador = req.Identificador ∧
        r.Latitud = req.Latitud ∧ r.Longitud = req.Longitud ∧
        r.Errors = specViolations req) ∧
      cacheLookups (HandleMessage c topic (St.init w) (Except.ok req)).trace = [] ∧
      insertedMeasurements (HandleMessage c topic (St.init w) (Except.ok req)).trace = []) := by
  have hviol : violationsOf (ValidateRequiredFields req) = specViolations req := by
    rcases req with ⟨ident, lat, lon, s1, s2, s3, s4, s5⟩
    by_cases hi : ident = "" <;> cases lat <;> cases lon <;>
      simp [ValidateRequiredFields, violationsOf, specViolations,
        ValidationErrors.GetErrors, hi]
  obtain ⟨berr, hb⟩ := (ShouldBindJSON_of_decoded req).1 hinv
  cases hv : ValidateRequiredFields req with
  | none => exact absurd hv hinv
  | some err =>
    rw [hv] at hviol
    change err.GetErrors = specViolations req at hviol
    constructor
    · rw [hb]
      unfold handleTelemetry
      exact ⟨⟨berr, rfl⟩, by simp, ⟨_, by simp; rfl, rfl, rfl, rfl, rfl, rfl⟩, rfl,
        by simp, by simp⟩
    · unfold HandleMessage
      simp only [hv]
      exact ⟨by simp, ⟨_, by simp; rfl, rfl, rfl, rfl, rfl, hviol⟩, by simp, by simp⟩

/-- Witness for C7 as amended: a report without identifier over both adapters. -/
theorem invalid_report_is_logged_witness :
    ValidateRequiredFields anonymousReport ≠ none ∧
    (handleTelemetry (scripted realMath (emptyScript 0)) "10.0.0.1" (St.init ())
      (ShouldBindJSON (Except.ok anonymousReport))).1 =
        { code := 400, body := GinH.error "Formato JSON inválido" } ∧
    insertedErrors
      (handleTelemetry (scripted realMath (emptyScript 0)) "10.0.0.1" (St.init ())
        (ShouldBindJSON (Except.ok anonymousReport))).2.trace = [] ∧
    insertedErrors
      (HandleMessage (scripted realMath (emptyScript 0)) "telemetria" (St.init ())
        (Except.ok anonymousReport)).trace = [] :=
  have hinv : ValidateRequiredFields anonymousReport ≠ none := by
    simp [ValidateRequiredFields, anonymousReport]
  have h := invalid_report_is_logged (scripted realMath (emptyScript 0)) () "10.0.0.1"
    "telemetria" anonymousReport hinv
  ⟨hinv, h.1.2.2.2.1, h.1.2.1, h.2.1⟩

/-! ## Best-effort steps and device resolution -/

/-- C11: for a validated report with a resolved device, when the run's
`InsertMeasurement` call succeeds `ProcessTelemetryData` returns `nil`, for every
behaviour of the other collaborators: the outcomes of `InsertError`,
`UpdateDeviceConnection`, `UpdateDeviceLocation` and `LogDeviceData` play no part. -/
theorem ProcessTelemetryData_best_effort {W F : Type} [Field F] (c : Deps W F) (w : W)
    (req : TelemetryRequest F) (device : Device F)
    (hv : ValidateRequiredFields req = none)
    (hd : (getDevice c (St.init w) req.Identificador).1 = (some device, none))
    (hi : insertAnswer c
      (policyChecks c (getDevice c (St.init w) req.Identificador).2 req device).2
      req device = none) :
    (ProcessTelemetryData c (St.init w) req).1 = none := by
  rw [ProcessTelemetryData_resolved c _ req device hv hd]
  exact (persistMeasurement_success c _ req device hi).1

/-- Witness for C11: DEV1 is stale, and the audit insert, the connection update, the
cache refresh and the device log all fail; the run still returns `nil`. -/
theorem ProcessTelemetryData_best_effort_witness :
    (ProcessTelemetryData
      (scripted realMath (bestEffortFailScript (dev1Device 0) (61 * Minute)))
      (St.init ()) dev1Report).1 = none ∧
    (insertedErrors (ProcessTelemetryData
      (scripted realMath (bestEffortFailScript (dev1Device 0) (61 * Minute)))
      (St.init ()) dev1Report).2.trace).length = 1 :=
  ⟨ProcessTelemetryData_best_effort
      (scripted realMath (bestEffortFailScript (dev1Device 0) (61 * Minute))) ()
      dev1Report (dev1Device 0) rfl rfl rfl,
    rfl⟩

/-- C12: on a cache hit `getDevice` returns exactly the cached device with no error,
and calls neither the repository's `GetDeviceByIdentifier` nor the cache's
`SetDevice`. -/
theorem getDevice_cache_hit {W F : Type} (c : Deps W F) (w : W) (identifier : String)
    (device : Device F)
    (hc : (c.cacheGetDevice identifier w).1.1 = some device) :
    (getDevice c (St.init w) identifier).1 = (some device, none) ∧
    repoLookups (getDevice c (St.init w) identifier).2.trace = [] ∧
    cacheStores (getDevice c (St.init w) identifier).2.trace = [] ∧
    cacheLookups (getDevice c (St.init w) identifier).2.trace = [identifier] := by
  unfold getDevice
  simp only [St.init_world, hc]
  cases (c.cacheGetDevice identifier w).1.2 <;> simp

/-- Witness for C12: DEV1 is in the cache. -/
theorem getDevice_cache_hit_witness :
    (getDevice (scripted realMath (cachedScript (dev1Device 0) 5)) (St.init ()) "DEV1").1 =
      (some (dev1Device 0), none) ∧
    repoLookups
      (getDevice (scripted realMath (cachedScript (dev1Device 0) 5)) (St.init ())
        "DEV1").2.trace = [] :=
  have h := getDevice_cache_hit (scripted realMath (cachedScript (dev1Device 0) 5)) ()
    "DEV1" (dev1Device 0) rfl
  ⟨h.1, h.2.1⟩

/-- C13: when the cache returns no device (a miss or a read error), `getDevice`
returns what the repository's lookup returned when that lookup succeeded (the stored
device, or not found), whatever `SetDevice` answers; and `getDevice` returns an error
only when the repository's lookup returned one. -/
theorem getDevice_cache_miss {W F : Type} (c : Deps W F) (w : W) (identifier : String)
    (hc : (c.cacheGetDevice identifier w).1.1 = none) :
    ((c.repoGetDeviceByIdentifier identifier (c.cacheGetDevice identifier w).2).1.2 = none →
      (getDevice c (St.init w) identifier).1 =
        ((c.repoGetDeviceByIdentifier identifier (c.cacheGetDevice identifier w).2).1.1,
          none)) ∧
    ((getDevice c (St.init w) identifier).1.2 ≠ none →
      (c.repoGetDeviceByIdentifier identifier (c.cacheGetDevice identifier w).2).1.2 ≠
        none) ∧
    repoLookups (getDevice c (St.init w) identifier).2.trace = [identifier] := by
  unfold getDevice
  simp only [St.init_world, hc]
  cases hce : (c.cacheGetDevice identifier w).1.2 <;>
    cases hre : (c.repoGetDeviceByIdentifier identifier (c.cacheGetDevice identifier w).2).1.2 <;>
    cases hrd : (c.repoGetDeviceByIdentifier identifier (c.cacheGetDevice identifier w).2).1.1 <;>
    simp [hre, hrd] <;>
    split <;> simp

/-- Witness for C13: the cache read fails, the repository holds DEV1 and the cache
write-back fails; DEV1 is returned without error. -/
theorem getDevice_cache_miss_witness :
    (getDevice (scripted realMath (storedScript (dev1Device 0) 5)) (St.init ()) "DEV1").1 =
      (some (dev1Device 0), none) :=
  (getDevice_cache_miss (scripted realMath (storedScript (dev1Device 0) 5)) () "DEV1"
    rfl).1 rfl

/-! ## Distance calculator over the real numbers -/

/-- The haversine term lies between 0 and 1. -/
theorem haversine_term_bounds (p1 p2 v : ℝ) :
    0 ≤ Real.sin ((p2 - p1) / 2) ^ 2 + Real.cos p1 * Real.cos p2 * Real.sin v ^ 2 ∧
    Real.sin ((p2 - p1) / 2) ^ 2 + Real.cos p1 * Real.cos p2 * Real.sin v ^ 2 ≤ 1 := by
  have h1 : Real.sin ((p2 - p1) / 2) ^ 2 = 1 / 2 - Real.cos (p2 - p1) / 2 := by
    rw [Real.sin_sq_eq_half_sub, show 2 * ((p2 - p1) / 2) = p2 - p1 by ring]
  have h2 : Real.cos p1 * Real.cos p2 = (Real.cos (p2 - p1) + Real.cos (p2 + p1)) / 2 := by
    rw [Real.cos_sub, Real.cos_add]
    ring
  have hs0 : 0 ≤ Real.sin v ^ 2 := sq_nonneg _
  have hs1 : Real.sin v ^ 2 ≤ 1 := Real.sin_sq_le_one v
  have ha := Real.neg_one_le_cos (p2 - p1)
  have hb := Real.cos_le_one (p2 - p1)
  have hc := Real.neg_one_le_cos (p2 + p1)
  have hd := Real.cos_le_one (p2 + p1)
  rw [h1, h2]
  constructor <;> nlinarith [mul_nonneg hs0 (sub_nonneg.mpr hb), mul_nonneg hs0 (sub_nonneg.mpr hd),
    mul_nonneg hs0 (by linarith : (0:ℝ) ≤ Real.cos (p2 - p1) + 1),
    mul_nonneg hs0 (by linarith : (0:ℝ) ≤ Real.cos (p2 + p1) + 1),
    mul_nonneg (sub_nonneg.mpr hs1) (sub_nonneg.mpr hb),
    mul_nonneg (sub_nonneg.mpr hs1) (by linarith : (0:ℝ) ≤ Real.cos (p2 - p1) + 1)]

/-- Over the reals, `atan2 (sqrt a) (sqrt (1 - a))` is `arcsin (sqrt a)` for `a` between
0 and 1. -/
theorem realMath_atan2_sqrt (a : ℝ) (h0 : 0 ≤ a) (h1 : a ≤ 1) :
    realMath.Atan2 (realMath.Sqrt a) (realMath.Sqrt (1 - a)) = Real.arcsin (Real.sqrt a) := by
  show Complex.arg ⟨Real.sqrt (1 - a), Real.sqrt a⟩ = Real.arcsin (Real.sqrt a)
  have habs : Complex.abs ⟨Real.sqrt (1 - a), Real.sqrt a⟩ = 1 := by
    rw [Complex.abs_apply, Complex.normSq_mk, Real.mul_self_sqrt (by linarith),
      Real.mul_self_sqrt h0]
    simp
  rw [Complex.arg_of_re_nonneg (by exact Real.sqrt_nonneg _), habs]
  simp

/-- C15: over the real numbers `CalculateDistance` is the haversine great-circle
distance in metres with Earth radius 6371.0 km, for all latitudes and longitudes (in
particular for latitudes in [-90, 90] and longitudes in [-180, 180]). -/
theorem CalculateDistance_haversine (lat1 lon1 lat2 lon2 : ℝ) :
    CalculateDistance realMath lat1 lon1 lat2 lon2 = haversineMeters lat1 lon1 lat2 lon2 := by
  obtain ⟨h0, h1⟩ := haversine_term_bounds (lat1 * Real.pi / 180) (lat2 * Real.pi / 180)
    ((lon2 * Real.pi / 180 - lon1 * Real.pi / 180) / 2)
  have hat := realMath_atan2_sqrt _ h0 h1
  unfold CalculateDistance haversineMeters degreesToRadians EarthRadiusKm
  simp only []
  have e : realMath.Sin ((lat2 * realMath.Pi / 180 - lat1 * realMath.Pi / 180) / 2) *
        realMath.Sin ((lat2 * realMath.Pi / 180 - lat1 * realMath.Pi / 180) / 2) +
      realMath.Cos (lat1 * realMath.Pi / 180) * realMath.Cos (lat2 * realMath.Pi / 180) *
        realMath.Sin ((lon2 * realMath.Pi / 180 - lon1 * realMath.Pi / 180) / 2) *
        realMath.Sin ((lon2 * realMath.Pi / 180 - lon1 * realMath.Pi / 180) / 2) =
      Real.sin ((lat2 * Real.pi / 180 - lat1 * Real.pi / 180) / 2) ^ 2 +
      Real.cos (lat1 * Real.pi / 180) * Real.cos (lat2 * Real.pi / 180) *
        Real.sin ((lon2 * Real.pi / 180 - lon1 * Real.pi / 180) / 2) ^ 2 := by
    have hpi : realMath.Pi = Real.pi := rfl
    rw [hpi]
    show Real.sin _ * Real.sin _ + Real.cos _ * Real.cos _ * Real.sin _ * Real.sin _ = _
    ring
  rw [e, hat]
  ring

/-- C16: over the real numbers the distance from a point to itself is 0, for every
latitude and longitude; in particular `CalculateDistance(0, 0, 0, 0) = 0`. -/
theorem CalculateDistance_same_point (lat lon : ℝ) :
    CalculateDistance realMath lat lon lat lon = 0 ∧
    CalculateDistance realMath 0 0 0 0 = 0 :=
  ⟨CalculateDistance_self realMath realMath_exactAtZero lat lon,
    CalculateDistance_self realMath realMath_exactAtZero 0 0⟩

/-- The distance is symmetric in its two points whenever the sine is an odd function. -/
theorem CalculateDistance_symm_of_odd {F : Type} [Field F] (m : MathFns F)
    (hodd : ∀ x : F, m.Sin (-x) = -m.Sin x) (a b c d : F) :
    CalculateDistance m a b c d = CalculateDistance m c d a b := by
  unfold CalculateDistance
  simp only []
  have e1 : (degreesToRadians m a - degreesToRadians m c) / 2 =
      -((degreesToRadians m c - degreesToRadians m a) / 2) := by ring
  have e2 : (degreesToRadians m b - degreesToRadians m d) / 2 =
      -((degreesToRadians m d - degreesToRadians m b) / 2) := by ring
  rw [e1, e2, hodd, hodd]
  have e3 : -m.Sin ((degreesToRadians m c - degreesToRadians m a) / 2) *
        -m.Sin ((degreesToRadians m c - degreesToRadians m a) / 2) +
      m.Cos (degreesToRadians m c) * m.Cos (degreesToRadians m a) *
        -m.Sin ((degreesToRadians m d - degreesToRadians m b) / 2) *
        -m.Sin ((degreesToRadians m d - degreesToRadians m b) / 2) =
      m.Sin ((degreesToRadians m c - degreesToRadians m a) / 2) *
        m.Sin ((degreesToRadians m c - degreesToRadians m a) / 2) +
      m.Cos (degreesToRadians m a) * m.Cos (degreesToRadians m c) *
        m.Sin ((degreesToRadians m d - degreesToRadians m b) / 2) *
        m.Sin ((degreesToRadians m d - degreesToRadians m b) / 2) := by ring
  rw [e3]

/-! ## Parsing the max-offline string -/

/-- A decimal digit has a code point from 48 to 57. -/
theorem isDigit_toNat (c : Char) (h : c.isDigit = true) : 48 ≤ c.toNat ∧ c.toNat ≤ 57 := by
  simp only [Char.isDigit, Bool.and_eq_true, decide_eq_true_eq] at h
  obtain ⟨h1, h2⟩ := h
  constructor
  · exact h1
  · exact h2

/-- A decimal digit is neither a newline, a blank, a sign nor a colon. -/
theorem isDigit_not_space (c : Char) (h : c.isDigit = true) :
    c ≠ '\n' ∧ isSpace c = false ∧ c ≠ '-' ∧ c ≠ '+' ∧ c ≠ ':' := by
  obtain ⟨h1, h2⟩ := isDigit_toNat c h
  refine ⟨?_, ?_, ?_, ?_, ?_⟩
  · rintro rfl
    revert h1; decide
  · simp only [isSpace]
    have : c.toNat ≠ 0x20 := by omega
    simp
    omega
  · rintro rfl
    revert h1; decide
  · rintro rfl
    revert h1; decide
  · rintro rfl
    revert h2; decide

/-- Splitting runs over a stretch without separator by accumulating it. -/
theorem splitLoop_append (sep : Char) (xs rest cur : List Char)
    (h : ∀ c ∈ xs, c ≠ sep) :
    splitLoop sep (xs ++ rest) cur = splitLoop sep rest (cur ++ xs) := by
  induction xs generalizing cur with
  | nil => simp
  | cons x xs ih =>
    have hx : x ≠ sep := h x (List.mem_cons_self _ _)
    have e : splitLoop sep (x :: xs ++ rest) cur = splitLoop sep (xs ++ rest) (cur ++ [x]) := by
      simp [splitLoop, hx]
    rw [e, ih _ (fun c hc => h c (List.mem_cons_of_mem _ hc))]
    simp

/-- A run of digits followed by a non-digit is what the digit scan takes. -/
theorem takeWhile_digits (ds rest : List Char) (hd : ∀ c ∈ ds, c.isDigit = true)
    (hr : ∀ c, rest.head? = some c → c.isDigit = false) :
    (ds ++ rest).takeWhile Char.isDigit = ds ∧ (ds ++ rest).dropWhile Char.isDigit = rest := by
  induction ds with
  | nil =>
    cases rest with
    | nil => simp
    | cons r rs =>
      have := hr r rfl
      simp [List.takeWhile, List.dropWhile, this]
  | cons d ds ih =>
    have hdd : d.isDigit = true := hd d (List.mem_cons_self _ _)
    obtain ⟨i1, i2⟩ := ih (fun c hc => hd c (List.mem_cons_of_mem _ hc))
    simp [List.takeWhile, List.dropWhile, hdd, i1, i2]

/-- The `%d` verb on a run of digits that is followed by a non-digit or the end. -/
theorem scanInt_digits (ds rest : List Char) (hne : ds ≠ [])
    (hd : ∀ c ∈ ds, c.isDigit = true)
    (hr : ∀ c, rest.head? = some c → c.isDigit = false)
    (hfit : (digitsValue ds : Int) ≤ maxDuration) :
    scanInt (ds ++ rest) = some ((digitsValue ds : Int), rest) := by
  obtain ⟨d, ds', rfl⟩ := List.exists_cons_of_ne_nil hne
  have hdd : d.isDigit = true := hd d (List.mem_cons_self _ _)
  obtain ⟨n1, n2, n3, n4, -⟩ := isDigit_not_space d hdd
  obtain ⟨t1, t2⟩ := takeWhile_digits (d :: ds') rest hd hr
  have hskip : skipSpace (d :: ds' ++ rest) = some (d :: ds' ++ rest) := by
    simp [skipSpace, n1, n2]
  have hmin : ¬ ((digitsValue (d :: ds') : Int) < minDuration) := by
    have : (0 : Int) ≤ (digitsValue (d :: ds') : Int) := Int.natCast_nonneg _
    simp only [minDuration]
    omega
  unfold scanInt
  rw [hskip]
  simp only [List.cons_append, List.head?_cons, Option.some.injEq, n3, n4, or_self,
    if_false, decide_False]
  rw [← List.cons_append, t1, t2]
  simp [hmin, not_lt.mpr hfit]

/-- A non-negative value inside the 64-bit range is not changed by wrapping. -/
theorem wrapInt64_of_fits (x : Int) (h0 : 0 ≤ x) (h1 : x ≤ maxDuration) : wrapInt64 x = x := by
  unfold wrapInt64
  simp only [maxDuration] at h1
  rw [Int.emod_eq_of_lt (by omega) (by omega)]
  omega

/-- C18: for non-negative integers h, m, s written in decimal (each a non-empty run of
digits, leading zeros allowed) as the string "h:m:s", with h*3600 + m*60 + s seconds
inside the 64-bit nanosecond range, `parseTimeDuration` succeeds and returns exactly
h*3600 + m*60 + s seconds. -/
theorem parseTimeDuration_hms (dh dm ds : List Char)
    (hh : dh ≠ [] ∧ ∀ c ∈ dh, c.isDigit = true)
    (hm : dm ≠ [] ∧ ∀ c ∈ dm, c.isDigit = true)
    (hs : ds ≠ [] ∧ ∀ c ∈ ds, c.isDigit = true)
    (hfit : ((digitsValue dh * 3600 + digitsValue dm * 60 + digitsValue ds : Nat) : Int) *
      Second ≤ maxDuration) :
    parseTimeDuration (String.mk (dh ++ ':' :: (dm ++ ':' :: ds))) =
      Except.ok (((digitsValue dh * 3600 + digitsValue dm * 60 + digitsValue ds : Nat) : Int) *
        Second) := by
  have hcolon : ∀ l : List Char, (∀ c ∈ l, c.isDigit = true) → ∀ c ∈ l, c ≠ ':' :=
    fun l hl c hc => (isDigit_not_space c (hl c hc)).2.2.2.2
  have hhead : ∀ (r : List Char) (c : Char), (':' :: r).head? = some c → c.isDigit = false := by
    intro r c hc
    simp only [List.head?_cons, Option.some.injEq] at hc
    subst hc
    decide
  have hnil : ∀ c : Char, ([] : List Char).head? = some c → c.isDigit = false := by
    intro c hc
    simp at hc
  have hH : (0 : Int) ≤ (digitsValue dh : Int) := Int.natCast_nonneg _
  have hM : (0 : Int) ≤ (digitsValue dm : Int) := Int.natCast_nonneg _
  have hS : (0 : Int) ≤ (digitsValue ds : Int) := Int.natCast_nonneg _
  have hsum : (digitsValue dh : Int) * Hour + (digitsValue dm : Int) * Minute +
      (digitsValue ds : Int) * Second =
      ((digitsValue dh * 3600 + digitsValue dm * 60 + digitsValue ds : Nat) : Int) *
        Second := by
    simp only [Hour, Minute]
    push_cast
    ring
  have hfit' : (digitsValue dh : Int) * Hour + (digitsValue dm : Int) * Minute +
      (digitsValue ds : Int) * Second ≤ maxDuration := by
    rw [hsum]
    exact hfit
  simp only [Hour, Minute, Second, maxDuration] at hfit'
  have fH : (digitsValue dh : Int) ≤ maxDuration := by
    simp only [maxDuration]; omega
  have fM : (digitsValue dm : Int) ≤ maxDuration := by
    simp only [maxDuration]; omega
  have fS : (digitsValue ds : Int) ≤ maxDuration := by
    simp only [maxDuration]; omega
  have hsplit : (stringsSplitColon (String.mk (dh ++ ':' :: (dm ++ ':' :: ds)))).length = 3 := by
    unfold stringsSplitColon
    show (splitLoop ':' (dh ++ ':' :: (dm ++ ':' :: ds)) []).length = 3
    rw [splitLoop_append ':' dh _ [] (hcolon dh hh.2)]
    simp only [splitLoop, if_true, List.nil_append]
    rw [splitLoop_append ':' dm _ [] (hcolon dm hm.2)]
    simp only [splitLoop, if_true, List.nil_append]
    have := splitLoop_append ':' ds [] [] (hcolon ds hs.2)
    rw [List.append_nil] at this
    rw [this]
    simp [splitLoop]
  have hscan : sscanfHMS (String.mk (dh ++ ':' :: (dm ++ ':' :: ds))) =
      some ((digitsValue dh : Int), (digitsValue dm : Int), (digitsValue ds : Int)) := by
    unfold sscanfHMS
    show (match scanInt (dh ++ ':' :: (dm ++ ':' :: ds)) with
      | none => none
      | some (hours, r1) => _) = _
    rw [scanInt_digits dh _ hh.1 hh.2 (hhead _) fH]
    simp only [scanLiteral, if_true]
    rw [scanInt_digits dm _ hm.1 hm.2 (hhead _) fM]
    simp only [scanLiteral, if_true]
    have := scanInt_digits ds [] hs.1 hs.2 hnil fS
    rw [List.append_nil] at this
    rw [this]
  unfold parseTimeDuration
  simp only [hsplit, ne_eq, not_true_eq_false, if_false, hscan]
  have w1 : wrapInt64 ((digitsValue dh : Int) * Hour) = (digitsValue dh : Int) * Hour := by
    apply wrapInt64_of_fits
    · simp only [Hour, Minute, Second]; omega
    · simp only [Hour, Minute, Second, maxDuration]; omega
  have w2 : wrapInt64 ((digitsValue dm : Int) * Minute) = (digitsValue dm : Int) * Minute := by
    apply wrapInt64_of_fits
    · simp only [Minute, Second]; omega
    · simp only [Minute, Second, maxDuration]; omega
  have w3 : wrapInt64 ((digitsValue ds : Int) * Second) = (digitsValue ds : Int) * Second := by
    apply wrapInt64_of_fits
    · simp only [Second]; omega
    · simp only [Second, maxDuration]; omega
  have w4 : wrapInt64 ((digitsValue dh : Int) * Hour + (digitsValue dm : Int) * Minute) =
      (digitsValue dh : Int) * Hour + (digitsValue dm : Int) * Minute := by
    apply wrapInt64_of_fits
    · simp only [Hour, Minute, Second]; omega
    · simp only [Hour, Minute, Second, maxDuration]; omega
  have w5 : wrapInt64 ((digitsValue dh : Int) * Hour + (digitsValue dm : Int) * Minute +
      (digitsValue ds : Int) * Second) =
      (digitsValue dh : Int) * Hour + (digitsValue dm : Int) * Minute +
        (digitsValue ds : Int) * Second := by
    apply wrapInt64_of_fits
    · simp only [Hour, Minute, Second]; omega
    · simp only [Hour, Minute, Second, maxDuration]; omega
  rw [w1, w2, w3, w4, w5, hsum]

/-- Witness for C18: "01:00:00" is one hour and "838:59:59" is 3020399 seconds. -/
theorem parseTimeDuration_hms_witness :
    parseTimeDuration "01:00:00" = Except.ok (3600 * Second) ∧
    parseTimeDuration "838:59:59" = Except.ok (3020399 * Second) :=
  ⟨parseTimeDuration_hms ['0', '1'] ['0', '0'] ['0', '0']
      ⟨by decide, by decide⟩ ⟨by decide, by decide⟩ ⟨by decide, by decide⟩ (by decide),
    parseTimeDuration_hms ['8', '3', '8'] ['5', '9'] ['5', '9']
      ⟨by decide, by decide⟩ ⟨by decide, by decide⟩ ⟨by decide, by decide⟩ (by decide)⟩

/-! ## Admission control -/

/-- Comparing Go's saturating `time.Since` with three minutes is comparing the plain
difference of the instants. -/
theorem timeSub_gt_three_minutes (now t : Int) :
    timeSub now t > 3 * Minute ↔ now - t > 3 * Minute := by
  unfold timeSub
  simp only [maxDuration, minDuration, Minute, Second]
  split_ifs <;> omega

/-- The map left by the admission handler: the entry of `ip` holds the limiter after
`Allow` and the last activity `now`. -/
theorem RateLimitMiddleware_clients (cfg : RateLimitConfig) (clients : Clients) (ip : String)
    (now allowAt : Int) :
    (RateLimitMiddleware cfg clients ip now allowAt).2 =
      clients.set ip
        { limiter := ((limiterOf cfg clients ip).Allow allowAt).2, lastSeen := now } := by
  unfold RateLimitMiddleware
  dsimp only
  split <;> rfl

/-- The decision of the admission handler is the decision of the limiter of `ip`. -/
theorem RateLimitMiddleware_allowed (cfg : RateLimitConfig) (clients : Clients) (ip : String)
    (now allowAt : Int) :
    (RateLimitMiddleware cfg clients ip now allowAt).1.allowed =
      ((limiterOf cfg clients ip).Allow allowAt).1 := by
  unfold RateLimitMiddleware
  dsimp only
  cases ((limiterOf cfg clients ip).Allow allowAt).1 <;> simp

/-- C20: a sweep at instant `now` removes exactly the entries whose last activity is
more than 3 minutes before `now` and leaves every other entry, limiter and last
activity included, as it was; and a call of the admission handler for `ip`, whether
it admits or denies, leaves the entry of `ip` with last activity `now` and every
other entry as it was. -/
theorem sweep_and_lastSeen (cfg : RateLimitConfig) (clients : Clients) (ip : String)
    (now allowAt : Int) :
    (sweep clients now ip = none ↔
      clients ip = none ∨ ∃ c : client, clients ip = some c ∧ now - c.lastSeen > 3 * Minute) ∧
    (∀ c : client, clients ip = some c → now - c.lastSeen ≤ 3 * Minute →
      sweep clients now ip = some c) ∧
    (∃ c : client, (RateLimitMiddleware cfg clients ip now allowAt).2 ip = some c ∧
      c.lastSeen = now) ∧
    (∀ other : String, other ≠ ip →
      (RateLimitMiddleware cfg clients ip now allowAt).2 other = clients other) := by
  refine ⟨?_, ?_, ?_, ?_⟩
  · unfold sweep
    cases h : clients ip with
    | none => simp
    | some c =>
      by_cases hgt : now - c.lastSeen > 3 * Minute
      · simp [(timeSub_gt_three_minutes now c.lastSeen).mpr hgt, hgt]
      · have : ¬ timeSub now c.lastSeen > 3 * Minute :=
          fun h => hgt ((timeSub_gt_three_minutes now c.lastSeen).mp h)
        simp [this, hgt]
  · intro c hc hle
    unfold sweep
    have : ¬ timeSub now c.lastSeen > 3 * Minute :=
      fun h => absurd ((timeSub_gt_three_minutes now c.lastSeen).mp h) (not_lt.mpr hle)
    simp [hc, this]
  · rw [RateLimitMiddleware_clients]
    exact ⟨{ limiter := ((limiterOf cfg clients ip).Allow allowAt).2, lastSeen := now },
      by simp [Clients.set], rfl⟩
  · intro other hne
    rw [RateLimitMiddleware_clients]
    simp [Clients.set, hne]

/-- Witness for C20: an entry last seen at instant 0 is kept by the sweep at 3 minutes
and removed by the sweep at 4 minutes. -/
theorem sweep_and_lastSeen_witness :
    sweep (RateLimitMiddleware slowConfig Clients.empty "10.0.0.1" 0 0).2 (4 * Minute)
      "10.0.0.1" = none ∧
    (sweep (RateLimitMiddleware slowConfig Clients.empty "10.0.0.1" 0 0).2 (3 * Minute)
      "10.0.0.1").isSome = true := by
  obtain ⟨c, hc, hseen⟩ := (sweep_and_lastSeen slowConfig Clients.empty "10.0.0.1" 0 0).2.2.1
  constructor
  · refine (sweep_and_lastSeen slowConfig
      (RateLimitMiddleware slowConfig Clients.empty "10.0.0.1" 0 0).2 "10.0.0.1"
      (4 * Minute) 0).1.mpr (Or.inr ⟨c, hc, ?_⟩)
    rw [hseen]
    decide
  · rw [(sweep_and_lastSeen slowConfig
      (RateLimitMiddleware slowConfig Clients.empty "10.0.0.1" 0 0).2 "10.0.0.1"
      (3 * Minute) 0).2.1 c hc (by rw [hseen]; decide)]
    rfl

/-- A bucket never holds more than its burst. -/
theorem Limiter.advance_le_burst (lim : Limiter) (t : Int) :
    lim.advance t ≤ (lim.burst : ℚ) :=
  min_le_left _ _

/-- Seconds of a non-negative number of nanoseconds are non-negative. -/
theorem seconds_nonneg (d : Int) (h : 0 ≤ d) : (0 : ℚ) ≤ ((d : Int) : ℚ) / 1000000000 := by
  have : (0 : ℚ) ≤ ((d : Int) : ℚ) := by exact_mod_cast h
  positivity

/-- A bucket with a non-negative rate and between 0 and burst tokens holds a
non-negative number of tokens at any instant. -/
theorem Limiter.advance_nonneg (lim : Limiter) (t : Int) (hr : 0 ≤ lim.limit)
    (h0 : 0 ≤ lim.tokens) (hb : lim.tokens ≤ (lim.burst : ℚ)) : 0 ≤ lim.advance t := by
  unfold Limiter.advance
  have hs := seconds_nonneg (max 0 (t - lim.last)) (le_max_left _ _)
  have := mul_nonneg hr hs
  exact le_min (le_trans h0 hb) (by linarith)

/-- Between two instants a bucket gains at most the refill of the time between them. -/
theorem Limiter.advance_later (lim : Limiter) (t t' : Int) (hr : 0 ≤ lim.limit)
    (htt : t ≤ t') :
    lim.advance t' ≤ lim.advance t + lim.limit * (((t' - t : Int) : ℚ) / 1000000000) := by
  unfold Limiter.advance
  have hd := mul_nonneg hr (seconds_nonneg (t' - t) (by omega))
  have hle : (max 0 (t' - lim.last) : Int) ≤ max 0 (t - lim.last) + (t' - t) := by omega
  have hq : ((max 0 (t' - lim.last) : Int) : ℚ) / 1000000000 ≤
      ((max 0 (t - lim.last) : Int) : ℚ) / 1000000000 + ((t' - t : Int) : ℚ) / 1000000000 := by
    have : ((max 0 (t' - lim.last) : Int) : ℚ) ≤
        ((max 0 (t - lim.last) : Int) : ℚ) + ((t' - t : Int) : ℚ) := by exact_mod_cast hle
    rw [← add_div]
    exact div_le_div_of_nonneg_right this (by norm_num)
  have hm := mul_le_mul_of_nonneg_left hq hr
  rw [mul_add] at hm
  rcases le_total (lim.burst : ℚ)
    (lim.tokens + lim.limit * (((max 0 (t - lim.last) : Int) : ℚ) / 1000000000)) with h | h
  · rw [min_eq_left h]
    exact le_trans (min_le_left _ _) (by linarith)
  · rw [min_eq_right h]
    exact le_trans (min_le_right _ _) (by linarith)

/-- The tokens of a bucket at `t'`, after it granted a request at `t ≤ t'`. -/
theorem Limiter.advance_after_grant (lim : Limiter) (t t' : Int) (htt : t ≤ t') :
    ({ lim with tokens := lim.advance t - 1, last := t } : Limiter).advance t' =
      min (lim.burst : ℚ)
        (lim.advance t - 1 + lim.limit * (((t' - t : Int) : ℚ) / 1000000000)) := by
  unfold Limiter.advance
  simp only []
  rw [max_eq_right (by omega : (0 : Int) ≤ t' - t)]

/-- `Allow` grants exactly when the bucket holds at least one token. -/
theorem Limiter.Allow_fst (lim : Limiter) (t : Int) :
    (lim.Allow t).1 = true ↔ 1 ≤ lim.advance t := by
  unfold Limiter.Allow
  split <;> simp [*]

/-- The limiter of `ip` after the admission handler ran for `ip`. -/
theorem limiterOf_after (cfg : RateLimitConfig) (clients : Clients) (ip : String)
    (now allowAt : Int) :
    limiterOf cfg (RateLimitMiddleware cfg clients ip now allowAt).2 ip =
      ((limiterOf cfg clients ip).Allow allowAt).2 := by
  rw [RateLimitMiddleware_clients]
  simp [limiterOf, Clients.set]

/-- The limiter of `ip` is not touched by the admission handler run for another
client. -/
theorem limiterOf_other (cfg : RateLimitConfig) (clients : Clients) (ip other : String)
    (now allowAt : Int) (h : other ≠ ip) :
    limiterOf cfg (RateLimitMiddleware cfg clients other now allowAt).2 ip =
      limiterOf cfg clients ip := by
  rw [RateLimitMiddleware_clients]
  have : ip ≠ other := fun e => h e.symm
  simp [limiterOf, Clients.set, this]
/-- A new bucket with a non-negative burst is in a reachable state. -/
theorem NewLimiter_valid (cfg : RateLimitConfig) (hb : 0 ≤ cfg.BurstSize) :
    (NewLimiter cfg.RequestsPerSecond cfg.BurstSize).Valid cfg := by
  refine ⟨rfl, rfl, ?_, le_refl _⟩
  show (0 : ℚ) ≤ (cfg.BurstSize : ℚ)
  exact_mod_cast hb

/-- `Allow` keeps a bucket in a reachable state. -/
theorem Limiter.Allow_valid (cfg : RateLimitConfig) (lim : Limiter) (t : Int)
    (h : lim.Valid cfg) : (lim.Allow t).2.Valid cfg := by
  obtain ⟨h1, h2, h3, h4⟩ := h
  unfold Limiter.Allow
  split
  · rename_i hge
    refine ⟨h1, h2, ?_, ?_⟩
    · show (0 : ℚ) ≤ lim.advance t - 1
      linarith
    · show lim.advance t - 1 ≤ (lim.burst : ℚ)
      have := lim.advance_le_burst t
      linarith
  · exact ⟨h1, h2, h3, h4⟩

/-- The admission handler keeps the bucket of every client in a reachable state. -/
theorem RateLimitMiddleware_valid (cfg : RateLimitConfig) (clients : Clients)
    (ip other : String) (now allowAt : Int) (h : (limiterOf cfg clients ip).Valid cfg) :
    (limiterOf cfg (RateLimitMiddleware cfg clients other now allowAt).2 ip).Valid cfg := by
  by_cases e : other = ip
  · subst e
    rw [limiterOf_after]
    exact Limiter.Allow_valid cfg _ _ h
  · rw [limiterOf_other cfg clients ip other now allowAt e]
    exact h

/-- A run of the admission handler keeps the bucket of every client in a reachable
state. -/
theorem serve_valid (cfg : RateLimitConfig) (ip : String) (reqs : List Request) :
    ∀ clients : Clients, (limiterOf cfg clients ip).Valid cfg →
      (limiterOf cfg (serve cfg clients reqs).2 ip).Valid cfg := by
  induction reqs with
  | nil => intro clients h; exact h
  | cons q qs ih =>
    intro clients h
    exact ih _ (RateLimitMiddleware_valid cfg clients ip q.ip q.now q.allowAt h)

/-- The decisions of a run, request by request. -/
theorem serve_cons (cfg : RateLimitConfig) (clients : Clients) (q : Request)
    (qs : List Request) :
    (serve cfg clients (q :: qs)).1 =
      (q.ip, ((limiterOf cfg clients q.ip).Allow q.allowAt).1) ::
        (serve cfg (RateLimitMiddleware cfg clients q.ip q.now q.allowAt).2 qs).1 := by
  simp only [serve]
  rw [RateLimitMiddleware_allowed]

/-- The span of a sequence with at least two requests. -/
theorem spanSeconds_cons_cons (q q' : Request) (qs : List Request) :
    spanSeconds (q :: q' :: qs) =
      ((q'.allowAt - q.allowAt : Int) : ℚ) / 1000000000 + spanSeconds (q' :: qs) := by
  unfold spanSeconds
  simp only [List.getLast?_cons_cons, List.head?_cons, Option.map_some', Option.getD_some]
  rw [← add_div]
  congr 1
  push_cast
  ring

/-- The span of a single request is zero. -/
theorem spanSeconds_singleton (q : Request) : spanSeconds [q] = 0 := by
  simp [spanSeconds]

/-- Counting the admitted requests, decision by decision. -/
theorem admitted_cons (ip : String) (b : Bool) (rest : List (String × Bool)) :
    admitted ((ip, b) :: rest) = (if b then 1 else 0) + admitted rest := by
  cases b <;> simp [admitted, List.filter_cons, Nat.add_comm]

/-- From a reachable bucket state, the requests of one client admitted over a
sequence in time order number at most the tokens in the bucket at the first request
plus the refill over the span of the sequence. -/
theorem admitted_le_tokens (cfg : RateLimitConfig) (ip : String)
    (hr : 0 ≤ cfg.RequestsPerSecond) (qs : List Request) :
    ∀ (q : Request) (clients : Clients), (∀ x ∈ q :: qs, x.ip = ip) → InOrder (q :: qs) →
      (limiterOf cfg clients ip).Valid cfg →
      (admitted (serve cfg clients (q :: qs)).1 : ℚ) ≤
        (limiterOf cfg clients ip).advance q.allowAt +
          cfg.RequestsPerSecond * spanSeconds (q :: qs) := by
  induction qs with
  | nil =>
    intro q clients hip _ hv
    have hq : q.ip = ip := hip q (List.mem_cons_self _ _)
    obtain ⟨v1, v2, v3, v4⟩ := hv
    have hnn := (limiterOf cfg clients ip).advance_nonneg q.allowAt (v1 ▸ hr) v3 v4
    rw [serve_cons, hq, spanSeconds_singleton, admitted_cons]
    simp only [serve, mul_zero, add_zero]
    by_cases ha : ((limiterOf cfg clients ip).Allow q.allowAt).1 = true
    · have := ((limiterOf cfg clients ip).Allow_fst q.allowAt).mp ha
      simp [ha, admitted]
      exact this
    · simp [ha, admitted]
      exact hnn
  | cons q' qs ih =>
    intro q clients hip hord hv
    have hq : q.ip = ip := hip q (List.mem_cons_self _ _)
    have hip' : ∀ x ∈ q' :: qs, x.ip = ip := fun x hx => hip x (List.mem_cons_of_mem _ hx)
    have hord' : InOrder (q' :: qs) := (List.pairwise_cons.mp hord).2
    have htt : q.allowAt ≤ q'.allowAt :=
      (List.pairwise_cons.mp hord).1 q' (List.mem_cons_self _ _)
    have hv' := RateLimitMiddleware_valid cfg clients ip q.ip q.now q.allowAt hv
    have hrec := ih q' _ hip' hord' hv'
    have hlim : (limiterOf cfg clients ip).limit = cfg.RequestsPerSecond := hv.1
    rw [serve_cons, admitted_cons, spanSeconds_cons_cons, hq]
    rw [hq, limiterOf_after] at hrec
    by_cases ha : ((limiterOf cfg clients ip).Allow q.allowAt).1 = true
    · have hge := ((limiterOf cfg clients ip).Allow_fst q.allowAt).mp ha
      have hstate : ((limiterOf cfg clients ip).Allow q.allowAt).2 =
          { limiterOf cfg clients ip with
            tokens := (limiterOf cfg clients ip).advance q.allowAt - 1, last := q.allowAt } := by
        unfold Limiter.Allow
        rw [if_pos hge]
      rw [hstate, Limiter.advance_after_grant _ _ _ htt, hlim] at hrec
      have hmin := min_le_right ((limiterOf cfg clients ip).burst : ℚ)
        ((limiterOf cfg clients ip).advance q.allowAt - 1 +
          cfg.RequestsPerSecond * (((q'.allowAt - q.allowAt : Int) : ℚ) / 1000000000))
      simp only [ha, if_true]
      rw [Nat.cast_add, Nat.cast_one, mul_add]
      linarith
    · have hstate : ((limiterOf cfg clients ip).Allow q.allowAt).2 = limiterOf cfg clients ip := by
        unfold Limiter.Allow
        rw [if_neg (fun h => ha (((limiterOf cfg clients ip).Allow_fst q.allowAt).mpr h))]
      rw [hstate] at hrec
      have hlater := (limiterOf cfg clients ip).advance_later q.allowAt q'.allowAt
        (hlim ▸ hr) htt
      rw [hlim] at hlater
      simp only [ha, Bool.false_eq_true, if_false, zero_add]
      rw [mul_add]
      linarith
/-- A full bucket stays full while it waits. -/
theorem NewLimiter_advance (r : ℚ) (b : Int) (t : Int) (hr : 0 ≤ r) :
    (NewLimiter r b).advance t = (b : ℚ) := by
  unfold Limiter.advance NewLimiter
  simp only []
  have := mul_nonneg hr (seconds_nonneg (max 0 (t - 0)) (le_max_left _ _))
  exact min_eq_left (by linarith)

/-- From a bucket that holds enough for every initial run of the sequence, a
conforming sequence of requests of one client in time order is admitted in full. -/
theorem conforming_granted (cfg : RateLimitConfig) (ip : String) (qs : List Request) :
    ∀ (q : Request) (clients : Clients), (∀ x ∈ q :: qs, x.ip = ip) → InOrder (q :: qs) →
      (limiterOf cfg clients ip).limit = cfg.RequestsPerSecond →
      (limiterOf cfg clients ip).burst = cfg.BurstSize →
      Conforms cfg (q :: qs) →
      (∀ p : List Request, p <+: q :: qs → p ≠ [] →
        (p.length : ℚ) ≤ (limiterOf cfg clients ip).advance q.allowAt +
          cfg.RequestsPerSecond * spanSeconds p) →
      ∀ d ∈ (serve cfg clients (q :: qs)).1, d.2 = true := by
  induction qs with
  | nil =>
    intro q clients hip _ _ _ _ hpre d hd
    have hq : q.ip = ip := hip q (List.mem_cons_self _ _)
    have h1 := hpre [q] (List.prefix_refl _) (by simp)
    rw [spanSeconds_singleton] at h1
    simp only [List.length_singleton, Nat.cast_one, mul_zero, add_zero] at h1
    rw [serve_cons, hq] at hd
    simp only [serve, List.mem_singleton] at hd
    rw [hd]
    exact ((limiterOf cfg clients ip).Allow_fst q.allowAt).mpr h1
  | cons q' qs ih =>
    intro q clients hip hord hlim hburst hconf hpre d hd
    have hq : q.ip = ip := hip q (List.mem_cons_self _ _)
    have hip' : ∀ x ∈ q' :: qs, x.ip = ip := fun x hx => hip x (List.mem_cons_of_mem _ hx)
    have hord' : InOrder (q' :: qs) := (List.pairwise_cons.mp hord).2
    have htt : q.allowAt ≤ q'.allowAt :=
      (List.pairwise_cons.mp hord).1 q' (List.mem_cons_self _ _)
    have h1 := hpre [q] (by simp) (by simp)
    rw [spanSeconds_singleton] at h1
    simp only [List.length_singleton, Nat.cast_one, mul_zero, add_zero] at h1
    have ha := ((limiterOf cfg clients ip).Allow_fst q.allowAt).mpr h1
    have hstate : ((limiterOf cfg clients ip).Allow q.allowAt).2 =
        { limiterOf cfg clients ip with
          tokens := (limiterOf cfg clients ip).advance q.allowAt - 1, last := q.allowAt } := by
      unfold Limiter.Allow
      rw [if_pos h1]
    rw [serve_cons, hq] at hd
    rcases List.mem_cons.mp hd with hd | hd
    · rw [hd]
      exact ha
    · have hnext : limiterOf cfg (RateLimitMiddleware cfg clients ip q.now q.allowAt).2 ip =
          { limiterOf cfg clients ip with
            tokens := (limiterOf cfg clients ip).advance q.allowAt - 1, last := q.allowAt } := by
        rw [limiterOf_after, hstate]
      refine ih q' (RateLimitMiddleware cfg clients ip q.now q.allowAt).2 hip' hord' ?_ ?_ ?_ ?_
        d hd
      · rw [hnext]
        exact hlim
      · rw [hnext]
        exact hburst
      · intro w hw hne
        exact hconf w (hw.trans (List.suffix_cons q _).isInfix) hne
      · intro p hp hne
        rw [hnext, Limiter.advance_after_grant _ _ _ htt, hlim, hburst]
        obtain ⟨x, p', rfl⟩ := List.exists_cons_of_ne_nil hne
        have hx : x = q' := (List.cons_prefix_cons.mp hp).1
        subst hx
        rw [← sub_le_iff_le_add]
        apply le_min
        · have := hconf (x :: p') ((hp.isInfix).trans (List.suffix_cons q _).isInfix) hne
          linarith
        · have hlong := hpre (q :: x :: p') (List.cons_prefix_cons.mpr ⟨rfl, hp⟩) (by simp)
          rw [spanSeconds_cons_cons] at hlong
          simp only [List.length_cons, Nat.cast_add, Nat.cast_one] at hlong ⊢
          rw [mul_add] at hlong
          linarith

/-- The decisions taken for one client do not depend on the requests of the others:
they are the decisions of the run of that client's requests alone, from any map with
the same entry for the client. -/
theorem serve_filter (cfg : RateLimitConfig) (ip : String) (reqs : List Request) :
    ∀ clients clients' : Clients, clients ip = clients' ip →
      (serve cfg clients reqs).1.filter (fun d => decide (d.1 = ip)) =
        (serve cfg clients' (reqs.filter fun q => decide (q.ip = ip))).1 := by
  induction reqs with
  | nil => intro clients clients' _; rfl
  | cons q qs ih =>
    intro clients clients' h
    by_cases hq : q.ip = ip
    · have hl : limiterOf cfg clients ip = limiterOf cfg clients' ip := by
        simp [limiterOf, h]
      have hnext : (RateLimitMiddleware cfg clients q.ip q.now q.allowAt).2 ip =
          (RateLimitMiddleware cfg clients' q.ip q.now q.allowAt).2 ip := by
        rw [RateLimitMiddleware_clients, RateLimitMiddleware_clients, hq, hl]
        simp [Clients.set]
      rw [List.filter_cons_of_pos (by simpa using hq), serve_cons, serve_cons,
        List.filter_cons_of_pos (by simpa using hq), hq, hl]
      rw [hq] at hnext
      rw [ih _ _ hnext]
    · have hnext : (RateLimitMiddleware cfg clients q.ip q.now q.allowAt).2 ip = clients' ip := by
        rw [RateLimitMiddleware_clients]
        have : ip ≠ q.ip := fun e => hq e.symm
        simp [Clients.set, this, h]
      rw [List.filter_cons_of_neg (by simpa using hq), serve_cons,
        List.filter_cons_of_neg (by simpa using hq)]
      exact ih _ _ hnext
/-- C19, counterexample: with one token of burst and one token per 1000 s, a client
is admitted at instant 0, its idle entry is removed by the sweep 240 s later, and its
next request at 240 s is admitted again from a fresh full bucket (it is denied when no
sweep ran): two admissions in a window of 240 s, above `b + r * t = 1.24`. -/
theorem admission_bound_broken_by_sweep :
    (RateLimitMiddleware slowConfig Clients.empty "10.0.0.1" 0 0).1.allowed = true ∧
    (RateLimitMiddleware slowConfig
      (sweep (RateLimitMiddleware slowConfig Clients.empty "10.0.0.1" 0 0).2 (240 * Second))
      "10.0.0.1" (240 * Second) (240 * Second)).1.allowed = true ∧
    (RateLimitMiddleware slowConfig
      (RateLimitMiddleware slowConfig Clients.empty "10.0.0.1" 0 0).2
      "10.0.0.1" (240 * Second) (240 * Second)).1.allowed = false ∧
    (slowConfig.BurstSize : ℚ) + slowConfig.RequestsPerSecond * 240 < 2 := by
  refine ⟨?_, ?_, ?_, ?_⟩
  · norm_num [RateLimitMiddleware, limiterOf, Limiter.Allow, Limiter.advance, NewLimiter,
      slowConfig, Clients.empty, Clients.set]
  · norm_num [RateLimitMiddleware, limiterOf, Limiter.Allow, Limiter.advance, NewLimiter,
      slowConfig, Clients.empty, Clients.set, Second, sweep, timeSub, Minute, maxDuration,
      minDuration]
  · norm_num [RateLimitMiddleware, limiterOf, Limiter.Allow, Limiter.advance, NewLimiter,
      slowConfig, Clients.empty, Clients.set, Second]
  · norm_num [slowConfig]

/-- C19, amended: for a client whose entry is not removed by the sweep during the run,
with a non-negative rate `r` and burst `b`: the decisions for the client are those of
the run of its own requests alone, whatever the other clients request; from a fresh
(full) bucket a sequence of its requests in time order that conforms to the bucket
(every run of consecutive requests has at most `b + r * span`) is admitted in full;
and after any run, over any sequence of its requests in time order the number admitted
is at most `b + r * span`. -/
theorem admission_token_bucket (cfg : RateLimitConfig) (ip : String)
    (hr : 0 ≤ cfg.RequestsPerSecond) (hb : 0 ≤ cfg.BurstSize) :
    (∀ (clients : Clients) (reqs : List Request),
      (serve cfg clients reqs).1.filter (fun d => decide (d.1 = ip)) =
        (serve cfg clients (reqs.filter fun q => decide (q.ip = ip))).1) ∧
    (∀ (clients : Clients) (reqs : List Request), clients ip = none →
      (∀ q ∈ reqs, q.ip = ip) → InOrder reqs → Conforms cfg reqs →
      ∀ d ∈ (serve cfg clients reqs).1, d.2 = true) ∧
    (∀ (clients : Clients) (pre win : List Request), clients ip = none →
      (∀ q ∈ win, q.ip = ip) → InOrder win →
      (admitted (serve cfg (serve cfg clients pre).2 win).1 : ℚ) ≤
        (cfg.BurstSize : ℚ) + cfg.RequestsPerSecond * spanSeconds win) := by
  refine ⟨fun clients reqs => serve_filter cfg ip reqs clients clients rfl, ?_, ?_⟩
  · intro clients reqs hfresh hip hord hconf
    cases reqs with
    | nil => intro d hd; simp [serve] at hd
    | cons q qs =>
      have hl : limiterOf cfg clients ip =
          NewLimiter cfg.RequestsPerSecond cfg.BurstSize := by
        simp [limiterOf, hfresh]
      refine conforming_granted cfg ip qs q clients hip hord (by rw [hl]; rfl)
        (by rw [hl]; rfl) hconf ?_
      intro p hp hne
      rw [hl, NewLimiter_advance _ _ _ hr]
      exact hconf p hp.isInfix hne
  · intro clients pre win hfresh hip hord
    have hv0 : (limiterOf cfg clients ip).Valid cfg := by
      have hl : limiterOf cfg clients ip =
          NewLimiter cfg.RequestsPerSecond cfg.BurstSize := by
        simp [limiterOf, hfresh]
      rw [hl]
      exact NewLimiter_valid cfg hb
    have hv := serve_valid cfg ip pre clients hv0
    cases win with
    | nil =>
      simp [serve, admitted, spanSeconds]
      exact hb
    | cons q qs =>
      have h := admitted_le_tokens cfg ip hr qs q _ hip hord hv
      have hle := (limiterOf cfg (serve cfg clients pre).2 ip).advance_le_burst q.allowAt
      rw [hv.2.1] at hle
      linarith

/-- Witness for C19 as amended: without a sweep, the two requests of the
counterexample are bounded by `1 + (1/1000) * 240`. -/
theorem admission_token_bucket_witness :
    (admitted (serve slowConfig Clients.empty
      [{ ip := "10.0.0.1", now := 0, allowAt := 0 },
        { ip := "10.0.0.1", now := 240 * Second, allowAt := 240 * Second }]).1 : ℚ) ≤
      (slowConfig.BurstSize : ℚ) + slowConfig.RequestsPerSecond *
        spanSeconds [{ ip := "10.0.0.1", now := 0, allowAt := 0 },
          { ip := "10.0.0.1", now := 240 * Second, allowAt := 240 * Second }] :=
  (admission_token_bucket slowConfig "10.0.0.1" (by norm_num [slowConfig])
    (by norm_num [slowConfig])).2.2 Clients.empty []
    [{ ip := "10.0.0.1", now := 0, allowAt := 0 },
      { ip := "10.0.0.1", now := 240 * Second, allowAt := 240 * Second }]
    rfl (by simp) (by simp [InOrder, Second])

/-! ## Cache-aside round trip -/

/-- What the fields written for a device give back under each field name. -/
theorem deviceFields_lookup {F : Type} (cd : Codec F) (device : Device F) :
    (deviceFields cd device).lookup "idTelemetria" = some (cd.formatUint device.IDTelemetria) ∧
    (deviceFields cd device).lookup "nombre" = some device.Nombre ∧
    (deviceFields cd device).lookup "tiempoFueraLinea" = some device.TiempoFueraLinea ∧
    (deviceFields cd device).lookup "ultimaConexion" =
      some (cd.formatTime device.UltimaConexion) ∧
    (deviceFields cd device).lookup "latitud" = device.Latitud.map cd.formatFloat ∧
    (deviceFields cd device).lookup "longitud" = device.Longitud.map cd.formatFloat ∧
    (deviceFields cd device).length ≠ 0 := by
  unfold deviceFields
  cases device.Latitud <;> cases device.Longitud <;>
    simp [List.lookup]

/-- Reading back the fields written for a device gives its id, name, max-offline
string and coordinates, when the codec reads back what it wrote for them. -/
theorem Cache_GetDevice_of_fields {R F : Type} (conn : Connection R) (cd : Codec F)
    (identifier : String) (r : R) (device : Device F)
    (hget : (conn.client.hGetAll (deviceKey identifier) r).1 = (deviceFields cd device, none))
    (hid : cd.parseUint (cd.formatUint device.IDTelemetria) = some device.IDTelemetria)
    (hlat : ∀ x : F, device.Latitud = some x → cd.parseFloat (cd.formatFloat x) = some x)
    (hlon : ∀ x : F, device.Longitud = some x → cd.parseFloat (cd.formatFloat x) = some x) :
    ∃ d : Device F, (Cache.GetDevice conn cd identifier r).1 = (some d, none) ∧
      d.IDTelemetria = device.IDTelemetria ∧ d.Identificador = identifier ∧
      d.Nombre = device.Nombre ∧ d.TiempoFueraLinea = device.TiempoFueraLinea ∧
      d.Latitud = device.Latitud ∧ d.Longitud = device.Longitud := by
  obtain ⟨l1, l2, l3, l4, l5, l6, l7⟩ := deviceFields_lookup cd device
  rw [Prod.ext_iff] at hget
  obtain ⟨hg1, hg2⟩ := hget
  unfold Cache.GetDevice
  simp only [hg2, hg1, l7, if_false, l1, l2, l3, l4, l5, l6, hid]
  rcases hla : device.Latitud with _ | la <;> rcases hlo : device.Longitud with _ | lo
  · simp
    cases cd.parseTime (cd.formatTime device.UltimaConexion) <;> simp
  · simp [hlon lo hlo]
    cases cd.parseTime (cd.formatTime device.UltimaConexion) <;> simp
  · simp [hlat la hla]
    cases cd.parseTime (cd.formatTime device.UltimaConexion) <;> simp
  · simp [hlat la hla, hlon lo hlo]
    cases cd.parseTime (cd.formatTime device.UltimaConexion) <;> simp

/-- On a cache hit `getDevice` returns the cached device and does not call the
repository. -/
theorem getDevice_hit_aux {W F : Type} (c : Deps W F) (w : W) (identifier : String)
    (device : Device F)
    (hc : (c.cacheGetDevice identifier w).1.1 = some device) :
    (getDevice c (St.init w) identifier).1 = (some device, none) ∧
    repoLookups (getDevice c (St.init w) identifier).2.trace = [] := by
  unfold getDevice
  simp only [St.init_world, hc]
  cases (c.cacheGetDevice identifier w).1.2 <;> simp

/-- The cache-aside round trip when the storage row carries the identifier asked for:
over a working keyed store, for an identifier with no cache entry and a storage row
whose `Identificador` is that identifier, the first `getDevice` returns the storage row
and leaves the cache populated, and a `getDevice` for the same identifier right after it
returns a device with the same id, identifier, name, max-offline string and coordinates
and makes no call to the repository. -/
theorem getDevice_round_trip {W F : Type} (base : Deps W F) (cd : Codec F) (ttl : Int)
    (store : MemStore) (w : W) (identifier : String) (device : Device F)
    (hempty : store (deviceKey identifier) = [])
    (hrow : (base.repoGetDeviceByIdentifier identifier w).1 = (some device, none))
    (hident : device.Identificador = identifier)
    (hid : cd.parseUint (cd.formatUint device.IDTelemetria) = some device.IDTelemetria)
    (hlat : ∀ x : F, device.Latitud = some x → cd.parseFloat (cd.formatFloat x) = some x)
    (hlon : ∀ x : F, device.Longitud = some x → cd.parseFloat (cd.formatFloat x) = some x) :
    (getDevice (withRedisCache base ⟨memRedis, ttl⟩ cd) (St.init (store, w)) identifier).1 =
      (some device, none) ∧
    (getDevice (withRedisCache base ⟨memRedis, ttl⟩ cd) (St.init (store, w))
      identifier).2.world.1 (deviceKey identifier) ≠ [] ∧
    ∃ d : Device F,
      (getDevice (withRedisCache base ⟨memRedis, ttl⟩ cd)
        (St.init (getDevice (withRedisCache base ⟨memRedis, ttl⟩ cd) (St.init (store, w))
          identifier).2.world) identifier).1 = (some d, none) ∧
      d.IDTelemetria = device.IDTelemetria ∧ d.Identificador = device.Identificador ∧
      d.Nombre = device.Nombre ∧ d.TiempoFueraLinea = device.TiempoFueraLinea ∧
      d.Latitud = device.Latitud ∧ d.Longitud = device.Longitud ∧
      repoLookups (getDevice (withRedisCache base ⟨memRedis, ttl⟩ cd)
        (St.init (getDevice (withRedisCache base ⟨memRedis, ttl⟩ cd) (St.init (store, w))
          identifier).2.world) identifier).2.trace = [] := by
  obtain ⟨-, -, -, -, -, -, l7⟩ := deviceFields_lookup cd device
  have hmiss : (Cache.GetDevice ⟨memRedis, ttl⟩ cd identifier store) = ((none, none), store) := by
    simp [Cache.GetDevice, memRedis, hempty]
  rw [Prod.ext_iff] at hrow
  obtain ⟨hr1, hr2⟩ := hrow
  simp only [] at hr1 hr2
  have hset : Cache.SetDevice ⟨memRedis, ttl⟩ cd device store =
      (none, fun k => if k = deviceKey identifier then
        mergeFields (deviceFields cd device) (store k) else store k) := by
    simp [Cache.SetDevice, memRedis, hident]
  have hfirst : getDevice (withRedisCache base ⟨memRedis, ttl⟩ cd) (St.init (store, w))
      identifier =
      ((some device, none),
        (getDevice (withRedisCache base ⟨memRedis, ttl⟩ cd) (St.init (store, w))
          identifier).2) := by
    unfold getDevice
    simp [withRedisCache, hmiss, hr1, hr2]
  have hworld : (getDevice (withRedisCache base ⟨memRedis, ttl⟩ cd) (St.init (store, w))
      identifier).2.world.1 =
      fun k => if k = deviceKey identifier then
        mergeFields (deviceFields cd device) (store k) else store k := by
    unfold getDevice
    simp [withRedisCache, hmiss, hr1, hr2, hset]
  have hstored : (getDevice (withRedisCache base ⟨memRedis, ttl⟩ cd) (St.init (store, w))
      identifier).2.world.1 (deviceKey identifier) = deviceFields cd device := by
    rw [hworld]
    simp [hempty, mergeFields]
  refine ⟨by rw [hfirst], ?_, ?_⟩
  · rw [hstored]
    intro h
    exact l7 (by rw [h]; rfl)
  · obtain ⟨d, hd, p1, p2, p3, p4, p5, p6⟩ := Cache_GetDevice_of_fields
      (⟨memRedis, ttl⟩ : Connection MemStore) cd identifier
      (getDevice (withRedisCache base ⟨memRedis, ttl⟩ cd) (St.init (store, w))
        identifier).2.world.1 device
      (Prod.ext (by exact hstored) rfl) hid hlat hlon
    have hhit := getDevice_hit_aux (withRedisCache base ⟨memRedis, ttl⟩ cd)
      (getDevice (withRedisCache base ⟨memRedis, ttl⟩ cd) (St.init (store, w))
        identifier).2.world identifier d
      (by
        show (Cache.GetDevice ⟨memRedis, ttl⟩ cd identifier _).1.1 = some d
        rw [hd])
    exact ⟨d, hhit.1, p1, p2.trans hident.symm, p3, p4, p5, p6, hhit.2⟩

/-- An instance of the round trip: DEV1 is stored without coordinates (as the
repository returns it), the keyed store is empty; the first resolution returns the row
and the second is served from the store. -/
theorem getDevice_round_trip_witness :
    (getDevice (withRedisCache (scripted realMath (storedScript (dev1NoFix 0) 5))
      ⟨memRedis, 1000⟩ testCodec) (St.init (MemStore.empty, ())) "DEV1").1 =
      (some (dev1NoFix 0), none) ∧
    ∃ d : Device ℝ,
      (getDevice (withRedisCache (scripted realMath (storedScript (dev1NoFix 0) 5))
        ⟨memRedis, 1000⟩ testCodec)
        (St.init (getDevice (withRedisCache (scripted realMath (storedScript (dev1NoFix 0) 5))
          ⟨memRedis, 1000⟩ testCodec) (St.init (MemStore.empty, ())) "DEV1").2.world)
        "DEV1").1 = (some d, none) ∧ d.IDTelemetria = 7 := by
  obtain ⟨h1, -, d, h3, h4, -⟩ := getDevice_round_trip
    (scripted realMath (storedScript (dev1NoFix 0) 5)) testCodec 1000 MemStore.empty ()
    "DEV1" (dev1NoFix 0) rfl rfl rfl (by decide) (fun _ h => nomatch h) (fun _ h => nomatch h)
  exact ⟨h1, d, h3, h4⟩

/-- C14, evaluation at the failing input: the identifier "dev1" is asked for, the keyed
store is empty and the table returns the row of "DEV1".  The first `getDevice` returns
the row and writes it under the key of "DEV1", the key of "dev1" stays absent, and the
`getDevice` for "dev1" right after it calls the repository again.  In the pipeline the
first report of "dev1" is inserted with device id 7 and the next one with device id 0. -/
theorem round_trip_other_spelling :
    (getDevice (anyCaseDeps realMath) (St.init ((), (MemStore.empty, ()))) "dev1").1 =
      (some (dev1NoFix 0), none) ∧
    (getDevice (anyCaseDeps realMath) (St.init ((), (MemStore.empty, ()))) "dev1").2.world.2.1
      (deviceKey "DEV1") ≠ [] ∧
    (getDevice (anyCaseDeps realMath) (St.init ((), (MemStore.empty, ()))) "dev1").2.world.2.1
      (deviceKey "dev1") = [] ∧
    repoLookups (getDevice (anyCaseDeps realMath)
      (St.init (getDevice (anyCaseDeps realMath)
        (St.init ((), (MemStore.empty, ()))) "dev1").2.world)
      "dev1").2.trace = ["dev1"] ∧
    (insertedMeasurements (ProcessTelemetryData (anyCaseDeps realMath)
      (St.init ((), (MemStore.empty, ()))) dev1LowerReport).2.trace).map
        Measurement.IDTelemetria = [7] ∧
    (insertedMeasurements (ProcessTelemetryData (anyCaseDeps realMath)
      (St.init (ProcessTelemetryData (anyCaseDeps realMath)
        (St.init ((), (MemStore.empty, ()))) dev1LowerReport).2.world)
      dev1LowerReport).2.trace).map Measurement.IDTelemetria = [0] := by
  refine ⟨rfl, ?_, rfl, rfl, rfl, rfl⟩
  decide

/-! ## Admission before the pipeline -/

/-- The trace projections are not changed by a log line of the logging middleware. -/
theorem LoggingMiddleware_trace {W F α : Type} (c : Deps W F) (method path clientIP : String)
    (s : St W F) (next : St W F → (HttpResponse × St W F) × α) :
    ∃ line : String,
      (LoggingMiddleware c method path clientIP s next).1.2.trace =
        (next { world := (c.now s.world).2, trace := s.trace }).1.2.trace ++
          [Call.loggerInfo line] ∧
      (LoggingMiddleware c method path clientIP s next).1.1 =
        (next { world := (c.now s.world).2, trace := s.trace }).1.1 :=
  ⟨_, rfl, rfl⟩

/-- C21, counterexample: with an admission configuration that admits nothing, the HTTP
chain answers a DEV1 report with 429 and inserts nothing, while the MQTT handler, which
has no admission step, takes the same report into the pipeline and inserts a
measurement. -/
theorem mqtt_bypasses_admission :
    (serveTelemetry closedConfig (scripted realMath (cachedScript (dev1Device 0) 5))
      "10.0.0.1" Clients.empty (St.init ()) (Except.ok dev1Report)).1.1.code = 429 ∧
    insertedMeasurements
      (serveTelemetry closedConfig (scripted realMath (cachedScript (dev1Device 0) 5))
        "10.0.0.1" Clients.empty (St.init ()) (Except.ok dev1Report)).1.2.trace = [] ∧
    cacheLookups
      (HandleMessage (scripted realMath (cachedScript (dev1Device 0) 5)) "telemetria"
        (St.init ()) (Except.ok dev1Report)).trace = ["DEV1"] ∧
    (insertedMeasurements
      (HandleMessage (scripted realMath (cachedScript (dev1Device 0) 5)) "telemetria"
        (St.init ()) (Except.ok dev1Report)).trace).length = 1 := by
  have hdeny : (RateLimitMiddleware closedConfig Clients.empty "10.0.0.1" 5 5).1.response =
      some { code := 429, body := GinH.error "Límite de tasa excedido" } := by
    norm_num [RateLimitMiddleware, limiterOf, Limiter.Allow, Limiter.advance, NewLimiter,
      closedConfig, Clients.empty]
  have hchain : (admitThenHandle closedConfig
      (scripted realMath (cachedScript (dev1Device 0) 5)) "10.0.0.1" Clients.empty
      { world := (), trace := [] } (Except.ok dev1Report)).1 =
      ({ code := 429, body := GinH.error "Límite de tasa excedido" },
        { world := (), trace := [] }) := by
    unfold admitThenHandle
    simp only []
    rw [show ((scripted realMath (cachedScript (dev1Device 0) 5)).now ()).1 = 5 from rfl]
    rw [hdeny]
  obtain ⟨line, htr, hresp⟩ := LoggingMiddleware_trace
    (scripted realMath (cachedScript (dev1Device 0) 5)) "POST" "/telemetry" "10.0.0.1"
    (St.init ()) (fun s0 => admitThenHandle closedConfig
      (scripted realMath (cachedScript (dev1Device 0) 5)) "10.0.0.1" Clients.empty s0
      (Except.ok dev1Report))
  refine ⟨?_, ?_, rfl, rfl⟩
  · unfold serveTelemetry
    rw [hresp]
    show (admitThenHandle closedConfig _ "10.0.0.1" Clients.empty
      { world := (), trace := [] } (Except.ok dev1Report)).1.1.code = 429
    rw [hchain]
  · unfold serveTelemetry
    rw [htr]
    show insertedMeasurements ((admitThenHandle closedConfig _ "10.0.0.1" Clients.empty
      { world := (), trace := [] } (Except.ok dev1Report)).1.2.trace ++ _) = []
    rw [hchain]
    simp

/-- The response written by the rate-limit handler: none when it admits, the 429
response when it denies. -/
theorem RateLimitMiddleware_response (cfg : RateLimitConfig) (clients : Clients) (ip : String)
    (now allowAt : Int) :
    ((RateLimitMiddleware cfg clients ip now allowAt).1.allowed = true →
      (RateLimitMiddleware cfg clients ip now allowAt).1.response = none) ∧
    ((RateLimitMiddleware cfg clients ip now allowAt).1.allowed = false →
      (RateLimitMiddleware cfg clients ip now allowAt).1.response =
        some { code := 429, body := GinH.error "Límite de tasa excedido" }) := by
  unfold RateLimitMiddleware
  dsimp only
  cases ((limiterOf cfg clients ip).Allow allowAt).1 <;> simp

/-- C21, amended: every `POST /telemetry` request goes through the rate-limit handler
before `handleTelemetry`, and so before `ProcessTelemetryData`: the map is always left
as the admission decision left it; a denied request is answered 429 and only the
request log line is added to the trace; an admitted request gets the response and the
calls of `handleTelemetry`.  The MQTT handler has no admission step: for every decoded
message that passes `ValidateRequiredFields` its calls are those of
`ProcessTelemetryData`, run right after the reception log line, plus one closing log
line. -/
theorem admission_gates_http_only {W F : Type} [Field F] (cfg : RateLimitConfig)
    (c : Deps W F) (clientIP topic : String) (clients : Clients) (s : St W F)
    (bound : Except String (TelemetryRequest F)) (req : TelemetryRequest F) :
    (serveTelemetry cfg c clientIP clients s bound).2 =
      (RateLimitMiddleware cfg clients clientIP (c.now (c.now s.world).2).1
        (c.now (c.now (c.now s.world).2).2).1).2 ∧
    ((RateLimitMiddleware cfg clients clientIP (c.now (c.now s.world).2).1
        (c.now (c.now (c.now s.world).2).2).1).1.allowed = false →
      (serveTelemetry cfg c clientIP clients s bound).1.1 =
        { code := 429, body := GinH.error "Límite de tasa excedido" } ∧
      ∃ line : String, (serveTelemetry cfg c clientIP clients s bound).1.2.trace =
        s.trace ++ [Call.loggerInfo line]) ∧
    ((RateLimitMiddleware cfg clients clientIP (c.now (c.now s.world).2).1
        (c.now (c.now (c.now s.world).2).2).1).1.allowed = true →
      (serveTelemetry cfg c clientIP clients s bound).1.1 =
        (handleTelemetry c clientIP
          { world := (c.now (c.now (c.now s.world).2).2).2, trace := s.trace } bound).1 ∧
      ∃ line : String, (serveTelemetry cfg c clientIP clients s bound).1.2.trace =
        (handleTelemetry c clientIP
          { world := (c.now (c.now (c.now s.world).2).2).2, trace := s.trace }
          bound).2.trace ++ [Call.loggerInfo line]) ∧
    (ValidateRequiredFields req = none →
      ∃ closing : Call F, (HandleMessage c topic s (Except.ok req)).trace =
        (ProcessTelemetryData c
          (s.log (Call.loggerInfo ("Mensaje MQTT recibido en topic: " ++ topic)))
          req).2.trace ++ [closing]) := by
  obtain ⟨hallow, hdeny⟩ := RateLimitMiddleware_response cfg clients clientIP
    (c.now (c.now s.world).2).1 (c.now (c.now (c.now s.world).2).2).1
  obtain ⟨line, htr, hresp⟩ := LoggingMiddleware_trace c "POST" "/telemetry" clientIP s
    (fun s0 => admitThenHandle cfg c clientIP clients s0 bound)
  refine ⟨?_, ?_, ?_, ?_⟩
  · unfold serveTelemetry LoggingMiddleware admitThenHandle
    dsimp only
    split <;> rfl
  · intro hd
    have hr := hdeny hd
    have hchain : (admitThenHandle cfg c clientIP clients
        { world := (c.now s.world).2, trace := s.trace } bound).1 =
        ({ code := 429, body := GinH.error "Límite de tasa excedido" },
          { world := (c.now (c.now (c.now s.world).2).2).2, trace := s.trace }) := by
      unfold admitThenHandle
      simp only []
      rw [hr]
    unfold serveTelemetry
    refine ⟨?_, line, ?_⟩
    · rw [hresp, hchain]
    · rw [htr, hchain]
  · intro ha
    have hr := hallow ha
    have hchain : (admitThenHandle cfg c clientIP clients
        { world := (c.now s.world).2, trace := s.trace } bound).1 =
        handleTelemetry c clientIP
          { world := (c.now (c.now (c.now s.world).2).2).2, trace := s.trace } bound := by
      unfold admitThenHandle
      simp only []
      rw [hr]
    unfold serveTelemetry
    refine ⟨?_, line, ?_⟩
    · rw [hresp, hchain]
    · rw [htr, hchain]
  · intro hv
    unfold HandleMessage
    simp only [hv]
    split
    · exact ⟨_, rfl⟩
    · exact ⟨_, rfl⟩

/-- Witness for C21 as amended: the same DEV1 report is stopped by a closed admission
over HTTP and processed over MQTT. -/
theorem admission_gates_http_only_witness :
    (serveTelemetry closedConfig (scripted realMath (cachedScript (dev1Device 0) 5))
      "10.0.0.1" Clients.empty (St.init ()) (Except.ok dev1Report)).1.1 =
      { code := 429, body := GinH.error "Límite de tasa excedido" } :=
  ((admission_gates_http_only closedConfig (scripted realMath (cachedScript (dev1Device 0) 5))
    "10.0.0.1" "telemetria" Clients.empty (St.init ()) (Except.ok dev1Report)
    dev1Report).2.1 (by
      norm_num [RateLimitMiddleware, limiterOf, Limiter.Allow, Limiter.advance, NewLimiter,
        closedConfig, Clients.empty])).1

/-! ## Outcome classes of the HTTP adapter -/

/-- C22, counterexample: DEV1 not found and DEV1 with a failing measurement insert are
different pipeline errors, and the HTTP handler answers both with the same response,
status 500 and the same body. -/
theorem http_not_found_same_as_insert_failure :
    (ProcessTelemetryData (scripted realMath (emptyScript 0)) (St.init ()) dev1Report).1 =
      some "dispositivo no encontrado: DEV1" ∧
    (ProcessTelemetryData (scripted realMath (failingInsertScript (dev1Device 0) 5))
      (St.init ()) dev1Report).1 = some "error al insertar medición: connection refused" ∧
    (handleTelemetry (scripted realMath (emptyScript 0)) "10.0.0.1" (St.init ())
      (Except.ok dev1Report)).1 =
      { code := 500, body := GinH.error "Error al procesar datos de telemetría" } ∧
    (handleTelemetry (scripted realMath (failingInsertScript (dev1Device 0) 5)) "10.0.0.1"
      (St.init ()) (Except.ok dev1Report)).1 =
      { code := 500, body := GinH.error "Error al procesar datos de telemetría" } := by
  refine ⟨rfl, rfl, rfl, rfl⟩

/-- C22, amended: for a validated report the HTTP handler answers 200 with the success
body when `ProcessTelemetryData` returns `nil`, and for every error it returns, device
not found and failed measurement insert alike, the one response with status 500 and
body error "Error al procesar datos de telemetría". -/
theorem handleTelemetry_error_class {W F : Type} [Field F] (c : Deps W F) (w : W)
    (clientIP : String) (req : TelemetryRequest F)
    (hv : ValidateRequiredFields req = none) :
    ((ProcessTelemetryData c (St.init w) req).1 ≠ none →
      (handleTelemetry c clientIP (St.init w) (Except.ok req)).1 =
        { code := 500, body := GinH.error "Error al procesar datos de telemetría" }) ∧
    ((ProcessTelemetryData c (St.init w) req).1 = none →
      (handleTelemetry c clientIP (St.init w) (Except.ok req)).1 =
        { code := 200,
          body := GinH.success "success" "Datos de telemetría procesados exitosamente" }) := by
  unfold handleTelemetry
  simp only [hv]
  cases h : (ProcessTelemetryData c (St.init w) req).1 <;> simp

/-- Witness for C22 as amended: DEV1 is not found and the answer is the 500 response. -/
theorem handleTelemetry_error_class_witness :
    (handleTelemetry (scripted realMath (emptyScript 0)) "10.0.0.1" (St.init ())
      (Except.ok dev1Report)).1 =
      { code := 500, body := GinH.error "Error al procesar datos de telemetría" } :=
  (handleTelemetry_error_class (scripted realMath (emptyScript 0)) () "10.0.0.1" dev1Report
    rfl).1 (by
      have h : (ProcessTelemetryData (scripted realMath (emptyScript 0)) (St.init ())
          dev1Report).1 = some "dispositivo no encontrado: DEV1" := rfl
      rw [h]
      simp)

/-! ## The coordinate check after validation -/

/-- The staleness check yields no violation or exactly the staleness message. -/
theorem validateOfflineTime_cases {W F : Type} (c : Deps W F) (s : St W F) (device : Device F) :
    (validateOfflineTime c s device).1 = [] ∨
    (validateOfflineTime c s device).1 =
      [offlineMessage c device (timeSub (c.now s.world).1 device.UltimaConexion)] := by
  unfold validateOfflineTime
  cases parseTimeDuration device.TiempoFueraLinea with
  | error e => left; rfl
  | ok d =>
    by_cases h : timeSub (c.now s.world).1 device.UltimaConexion > d
    · right; simp [h]
    · left; simp [h]

/-- C23: for a report on which `ValidateRequiredFields` returns no error,
`validateCoordinates` returns the empty list; so in `ProcessTelemetryData`, for a
resolved device, the violations audited are exactly those of `validateOfflineTime`, an
error record is written if and only if `validateOfflineTime` produced a violation, and
the description of that record is the one staleness message alone: no "Falta dato"
violation and no "; " delimiter is joined to it. -/
theorem policy_record_iff_stale {W F : Type} [Field F] (c : Deps W F) (w : W)
    (req : TelemetryRequest F) (device : Device F)
    (hv : ValidateRequiredFields req = none)
    (hd : (getDevice c (St.init w) req.Identificador).1 = (some device, none)) :
    validateCoordinates req = [] ∧
    (policyChecks c (getDevice c (St.init w) req.Identificador).2 req device).1 =
      (validateOfflineTime c (getDevice c (St.init w) req.Identificador).2 device).1 ∧
    (insertedErrors (ProcessTelemetryData c (St.init w) req).2.trace ≠ [] ↔
      (validateOfflineTime c (getDevice c (St.init w) req.Identificador).2 device).1 ≠ []) ∧
    (∀ e ∈ insertedErrors (ProcessTelemetryData c (St.init w) req).2.trace,
      insertedErrors (ProcessTelemetryData c (St.init w) req).2.trace = [e] ∧
      e.Descripcion = offlineMessage c device
        (timeSub (c.now (getDevice c (St.init w) req.Identificador).2.world).1
          device.UltimaConexion)) := by
  have hcoord := validateCoordinates_of_valid req hv
  have herrs : (policyChecks c (getDevice c (St.init w) req.Identificador).2 req device).1 =
      (validateOfflineTime c (getDevice c (St.init w) req.Identificador).2 device).1 := by
    rw [policyChecks_errors, hcoord, List.append_nil]
  have htrace : insertedErrors (ProcessTelemetryData c (St.init w) req).2.trace =
      insertedErrors (policyChecks c (getDevice c (St.init w) req.Identificador).2 req
        device).2.trace := by
    rw [ProcessTelemetryData_resolved c _ req device hv hd]
    unfold processResolved
    rw [(persistMeasurement_inserts c _ req device).2]
  have hg : insertedErrors (getDevice c (St.init w) req.Identificador).2.trace = [] := by
    rw [(getDevice_trace c _ req.Identificador).1]
    simp
  obtain ⟨hnone, hsome⟩ :=
    policyChecks_audit c (getDevice c (St.init w) req.Identificador).2 req device
  rw [herrs] at hnone hsome
  rw [hg] at hnone hsome
  refine ⟨hcoord, herrs, ?_, ?_⟩
  · rw [htrace]
    constructor
    · intro hne hnil
      exact hne (hnone hnil)
    · intro hne
      obtain ⟨e, he, -⟩ := hsome hne
      rw [he]
      simp
  · intro e he
    rw [htrace] at he ⊢
    rcases validateOfflineTime_cases c (getDevice c (St.init w) req.Identificador).2 device
      with hnil | hone
    · rw [hnone hnil] at he
      simp at he
    · obtain ⟨e', he', -, -, hdesc⟩ := hsome (by rw [hone]; simp)
      rw [he'] at he ⊢
      simp only [List.nil_append, List.mem_singleton] at he
      subst he
      refine ⟨by simp, ?_⟩
      rw [hdesc, hone]
      rfl

/-- Witness for C23: DEV1 reports 61 minutes after its last contact; one record is
written and it describes the staleness only. -/
theorem policy_record_iff_stale_witness :
    validateCoordinates dev1Report = [] ∧
    (insertedErrors (ProcessTelemetryData
      (scripted realMath (cachedScript (dev1Device 0) (61 * Minute))) (St.init ())
      dev1Report).2.trace ≠ [] ↔
      (validateOfflineTime (scripted realMath (cachedScript (dev1Device 0) (61 * Minute)))
        (getDevice (scripted realMath (cachedScript (dev1Device 0) (61 * Minute)))
          (St.init ()) dev1Report.Identificador).2 (dev1Device 0)).1 ≠ []) :=
  have h := policy_record_iff_stale
    (scripted realMath (cachedScript (dev1Device 0) (61 * Minute))) () dev1Report
    (dev1Device 0) rfl rfl
  ⟨h.1, h.2.2.1⟩

/-! ## Devices resolved from storage -/

/-- A device returned by the MySQL repository carries no coordinates. -/
theorem Repository_GetDeviceByIdentifier_no_fix {D F : Type} (db : SqlDB D)
    (identifier : String) (d : D) (device : Device F)
    (h : (Repository.GetDeviceByIdentifier db identifier d).1.1 = some device) :
    device.Latitud = none ∧ device.Longitud = none := by
  unfold Repository.GetDeviceByIdentifier at h
  dsimp only at h
  split at h
  · simp at h
  · simp at h
  · simp only [Option.some.injEq] at h
    subst h
    exact ⟨rfl, rfl⟩

/-- C25: with the MySQL repository, a device resolved through the storage fallback
(the cache gave none) has latitude and longitude absent, and the measurement inserted
for the report has its distance absent, whatever coordinates the report carries. -/
theorem storage_device_has_no_fix {D W F : Type} [Field F] (base : Deps W F) (db : SqlDB D)
    (d : D) (w : W) (req : TelemetryRequest F) (device : Device F)
    (hv : ValidateRequiredFields req = none)
    (hmiss : (base.cacheGetDevice req.Identificador w).1.1 = none)
    (hd : (getDevice (withMySQLRepository base db) (St.init (d, w)) req.Identificador).1 =
      (some device, none)) :
    device.Latitud = none ∧ device.Longitud = none ∧
    ∃ m : Measurement F,
      insertedMeasurements
        (ProcessTelemetryData (withMySQLRepository base db) (St.init (d, w)) req).2.trace =
        [m] ∧
      m.Distancia = none := by
  have hfix : device.Latitud = none ∧ device.Longitud = none := by
    have hmiss' : ((withMySQLRepository base db).cacheGetDevice req.Identificador
        (d, w)).1.1 = none := hmiss
    have hres := hd
    unfold getDevice at hres
    simp only [St.init_world, hmiss'] at hres
    cases hq2 : ((withMySQLRepository base db).repoGetDeviceByIdentifier req.Identificador
        ((withMySQLRepository base db).cacheGetDevice req.Identificador (d, w)).2).1.2 with
    | some e =>
      cases hce : ((withMySQLRepository base db).cacheGetDevice req.Identificador
          (d, w)).1.2 <;> simp [hce, hq2] at hres
    | none =>
      cases hq1 : ((withMySQLRepository base db).repoGetDeviceByIdentifier req.Identificador
          ((withMySQLRepository base db).cacheGetDevice req.Identificador (d, w)).2).1.1 with
      | none =>
        cases hce : ((withMySQLRepository base db).cacheGetDevice req.Identificador
            (d, w)).1.2 <;> simp [hce, hq1, hq2] at hres
      | some dev =>
        have hdev : dev = device := by
          cases hce : ((withMySQLRepository base db).cacheGetDevice req.Identificador
              (d, w)).1.2 <;> simp [hce, hq1, hq2] at hres <;> exact hres
        subst hdev
        exact Repository_GetDeviceByIdentifier_no_fix db req.Identificador
          ((withMySQLRepository base db).cacheGetDevice req.Identificador (d, w)).2.1 dev hq1
  obtain ⟨fecha, hm⟩ :=
    ProcessTelemetryData_measurement (withMySQLRepository base db) (d, w) req device hv hd
  refine ⟨hfix.1, hfix.2, _, hm, ?_⟩
  show distanceStep _ device req = none
  unfold distanceStep
  rw [hfix.1]

/-- Witness for C25: DEV1 is resolved from the table with an empty cache and reports
(10.0, 20.0); the measurement has no distance. -/
theorem storage_device_has_no_fix_witness :
    ∃ m : Measurement ℝ,
      insertedMeasurements
        (ProcessTelemetryData (withMySQLRepository (scripted realMath (emptyScript 5)) dev1Table)
          (St.init ((), ())) dev1Report).2.trace = [m] ∧
      m.Distancia = none := by
  obtain ⟨-, -, h⟩ := storage_device_has_no_fix (scripted realMath (emptyScript 5)) dev1Table
    () () dev1Report (dev1NoFix 0) rfl rfl rfl
  exact h

/-! ## Location refresh on an absent cache key -/

/-- C24, evaluation at the failing input.  On an empty store, `UpdateDeviceLocation`
for DEV1 succeeds and `GetDevice` then reports a hit with id 0 and an empty max-offline
string.  End to end: DEV1 (id 7) is resolved from storage while the cache write-back
fails once; the run refreshes the location on the absent key, and the next report of
DEV1 is resolved from that entry and its measurement is inserted under device id 0. -/
theorem partial_cache_entry :
    (Cache.UpdateDeviceLocation ⟨memRedis, 1000⟩ testCodec "DEV1" 10 20 5
      MemStore.empty).1 = none ∧
    (∃ d : Device ℝ,
      (Cache.GetDevice ⟨memRedis, 1000⟩ testCodec "DEV1"
        (Cache.UpdateDeviceLocation ⟨memRedis, 1000⟩ testCodec "DEV1" 10 20 5
          MemStore.empty).2).1 = (some d, none) ∧
      d.IDTelemetria = 0 ∧ d.TiempoFueraLinea = "") ∧
    (insertedMeasurements
      (ProcessTelemetryData
        (withRedisCache (scripted realMath (storedScript (dev1NoFix 0) 5))
          ⟨flakyRedis, 1000⟩ testCodec)
        (St.init ((1, MemStore.empty), ())) dev1Report).2.trace).map
      Measurement.IDTelemetria = [7] ∧
    (insertedMeasurements
      (ProcessTelemetryData
        (withRedisCache (scripted realMath (storedScript (dev1NoFix 0) 5))
          ⟨flakyRedis, 1000⟩ testCodec)
        (St.init (ProcessTelemetryData
          (withRedisCache (scripted realMath (storedScript (dev1NoFix 0) 5))
            ⟨flakyRedis, 1000⟩ testCodec)
          (St.init ((1, MemStore.empty), ())) dev1Report).2.world)
        dev1Report).2.trace).map Measurement.IDTelemetria = [0] := by
  refine ⟨rfl, ⟨_, rfl, rfl, rfl⟩, rfl, rfl⟩

/-! ## MQTT client construction -/

/-- A broker URL shorter than three bytes makes `NewClient` panic. -/
theorem NewClient_short_url (cfg : MQTTConfig) (h : (goBytes cfg.BrokerURL).length < 3) :
    NewClient cfg = Outcome.sliceBoundsPanic 3 (goBytes cfg.BrokerURL).length := by
  unfold NewClient sliceTo
  simp [Nat.not_le.mpr h]

/-- C26, evaluation at the failing inputs: the configurations with MQTT enabled and
broker URL "x" or "ws" are accepted by `Config.Validate`, and `NewClient` fails on them
with a slice-bounds panic; with "tcp://localhost:1883" it returns. -/
theorem NewClient_panics_on_short_url :
    (configWithBroker "x").Validate = none ∧
    NewClient (configWithBroker "x").MQTT = Outcome.sliceBoundsPanic 3 1 ∧
    (configWithBroker "ws").Validate = none ∧
    NewClient (configWithBroker "ws").MQTT = Outcome.sliceBoundsPanic 3 2 ∧
    (∃ opts : ClientOptions,
      NewClient (configWithBroker "tcp://localhost:1883").MQTT = Outcome.returned opts) := by
  refine ⟨by decide, ?_, by decide, ?_, ⟨_, rfl⟩⟩
  · exact NewClient_short_url (configWithBroker "x").MQTT (by decide)
  · exact NewClient_short_url (configWithBroker "ws").MQTT (by decide)

/-! ## Rounding to `float64` -/

theorem roundHalfEven_intCast (n : ℤ) : roundHalfEven (n : ℚ) = n := by
  simp [roundHalfEven]

theorem roundHalfEven_neg (q : ℚ) : roundHalfEven (-q) = -roundHalfEven q := by
  by_cases hq : q = (⌊q⌋ : ℚ)
  · rw [hq, ← Int.cast_neg, roundHalfEven_intCast, roundHalfEven_intCast]
  · have h1 : (⌊q⌋ : ℚ) < q := lt_of_le_of_ne (Int.floor_le q) (Ne.symm hq)
    have h2 : q < ⌊q⌋ + 1 := Int.lt_floor_add_one q
    have h3 : ⌊-q⌋ = -⌊q⌋ - 1 := by
      rw [Int.floor_eq_iff]
      push_cast
      constructor <;> linarith
    unfold roundHalfEven
    rw [h3]
    push_cast
    split_ifs <;> first | omega | (exfalso; linarith)

theorem abs_roundHalfEven_sub_le (q : ℚ) : |(roundHalfEven q : ℚ) - q| ≤ 1 / 2 := by
  have h1 := Int.floor_le q
  have h2 := Int.lt_floor_add_one q
  unfold roundHalfEven
  rw [abs_le]
  split_ifs <;> push_cast <;> constructor <;> linarith

theorem ulp_pos (q : ℚ) : 0 < ulp q := by
  unfold ulp
  positivity

theorem ulp_neg (q : ℚ) : ulp (-q) = ulp q := by
  simp [ulp, binaryExponent]

theorem roundToFloat_neg (q : ℚ) : roundToFloat (-q) = -roundToFloat q := by
  unfold roundToFloat
  rw [ulp_neg, neg_div, roundHalfEven_neg]
  push_cast
  ring

theorem roundToFloat_zero : roundToFloat 0 = 0 := by
  simp [roundToFloat, roundHalfEven]

theorem abs_roundToFloat_sub_le (q : ℚ) : |roundToFloat q - q| ≤ ulp q / 2 := by
  have hu := ulp_pos q
  have h := abs_roundHalfEven_sub_le (q / ulp q)
  have h2 : roundToFloat q - q = ((roundHalfEven (q / ulp q) : ℚ) - q / ulp q) * ulp q := by
    unfold roundToFloat
    field_simp
  rw [h2, abs_mul, abs_of_pos hu]
  calc |(roundHalfEven (q / ulp q) : ℚ) - q / ulp q| * ulp q ≤ 1 / 2 * ulp q :=
        mul_le_mul_of_nonneg_right h hu.le
    _ = ulp q / 2 := by ring

theorem ulp_le (q : ℚ) : ulp q ≤ |q| + 1 := by
  unfold ulp binaryExponent
  rcases le_total (Int.log 2 |q|) (-1022) with h | h
  · rw [max_eq_right h]
    have : (2 : ℚ) ^ (-1022 - 52 : ℤ) ≤ 1 := zpow_le_one_of_nonpos₀ (by norm_num) (by norm_num)
    linarith [abs_nonneg q]
  · rw [max_eq_left h]
    rcases eq_or_ne q 0 with h0 | h0
    · subst h0
      have h0 : Int.log 2 |(0 : ℚ)| = 0 := by simp
      rw [h0]
      norm_num
    · have hpos : 0 < |q| := abs_pos.mpr h0
      have h1 : (2 : ℚ) ^ (Int.log 2 |q|) ≤ |q| := by
        have := Int.zpow_log_le_self (by norm_num : 1 < 2) hpos
        simpa using this
      have h2 : (2 : ℚ) ^ (Int.log 2 |q| - 52) ≤ (2 : ℚ) ^ (Int.log 2 |q|) :=
        zpow_le_zpow_right₀ (by norm_num) (by omega)
      linarith

theorem abs_roundToFloat_le (q : ℚ) : |roundToFloat q| ≤ 2 * |q| + 1 := by
  have h1 := abs_roundToFloat_sub_le q
  have h2 := ulp_le q
  have h3 : |roundToFloat q| ≤ |roundToFloat q - q| + |q| := by
    have := abs_add (roundToFloat q - q) q
    simpa using this
  linarith [abs_nonneg q]

theorem roundToFloat_natCast (n : ℕ) (h : n < 2 ^ 53) : roundToFloat (n : ℚ) = n := by
  rcases Nat.eq_zero_or_pos n with h0 | h0
  · subst h0
    simpa using roundToFloat_zero
  · have hk : Nat.log 2 n < 53 := Nat.log_lt_of_lt_pow (by omega) h
    obtain ⟨j, hj⟩ : ∃ j : ℕ, ((Nat.log 2 n : ℕ) : ℤ) - 52 = -(j : ℤ) :=
      ⟨52 - Nat.log 2 n, by omega⟩
    have hu : ulp (n : ℚ) = ((2 : ℚ) ^ j)⁻¹ := by
      unfold ulp binaryExponent
      rw [abs_of_nonneg (Nat.cast_nonneg n), Int.log_natCast,
        max_eq_left (by omega : (-1022 : ℤ) ≤ ((Nat.log 2 n : ℕ) : ℤ)), hj, zpow_neg,
        zpow_natCast]
    have hq : (n : ℚ) / ulp (n : ℚ) = ((n * 2 ^ j : ℕ) : ℤ) := by
      rw [hu]
      push_cast
      field_simp
    unfold roundToFloat
    rw [hq, roundHalfEven_intCast, hu]
    push_cast
    field_simp

theorem overflowThreshold_pos : 0 < overflowThreshold := by
  unfold overflowThreshold
  norm_num

theorem Float64.round_of_lt (q : ℚ) (h : |q| < overflowThreshold) :
    Float64.round q = Float64.num (roundToFloat q) := by
  simp [Float64.round, not_le.mpr h]

theorem Float64.round_of_le (q : ℚ) (h : overflowThreshold ≤ |q|) :
    Float64.round q = Float64.inf (decide (q < 0)) := by
  simp [Float64.round, h]

theorem Float64.round_zero : Float64.round 0 = Float64.num 0 := by
  rw [Float64.round_of_lt 0 (by simpa using overflowThreshold_pos), roundToFloat_zero]

theorem Float64.round_natCast (n : ℕ) (h : n < 2 ^ 53) :
    Float64.round (n : ℚ) = Float64.num n := by
  have h1 : ((n : ℚ)) < 2 ^ 53 := by exact_mod_cast h
  have h2 : |(n : ℚ)| < overflowThreshold := by
    rw [abs_of_nonneg (Nat.cast_nonneg n)]
    unfold overflowThreshold
    refine lt_trans h1 ?_
    norm_num
  rw [Float64.round_of_lt _ h2, roundToFloat_natCast n h]

theorem Float64.round_neg (q : ℚ) : Float64.round (-q) = Float64.neg (Float64.round q) := by
  unfold Float64.round
  rw [abs_neg]
  by_cases h : overflowThreshold ≤ |q|
  · have hq : q ≠ 0 := by
      rintro rfl
      have := overflowThreshold_pos
      simp at h
      linarith
    rw [if_pos h, if_pos h]
    simp only [Float64.neg]
    congr 1
    rcases lt_or_gt_of_ne hq with h1 | h1
    · simp [h1, h1.le]
    · simp [h1, h1.le, not_lt.mpr h1.le]
  · rw [if_neg h, if_neg h, roundToFloat_neg]
    rfl

theorem Float64.ofNat_eq (n : ℕ) [n.AtLeastTwo] (h : n < 2 ^ 53) :
    (OfNat.ofNat n : Float64) = Float64.num n :=
  Float64.round_natCast n h

/-! ## Arithmetic of `float64` -/

theorem Float64.add_def (x y : Float64) : x + y = Float64.add x y := rfl

theorem Float64.sub_def (x y : Float64) : x - y = Float64.add x (Float64.neg y) := rfl

theorem Float64.mul_def (x y : Float64) : x * y = Float64.mul x y := rfl

theorem Float64.div_def (x y : Float64) : x / y = Float64.div x y := rfl

theorem Float64.neg_def (x : Float64) : -x = Float64.neg x := rfl

theorem Float64.one_def : (1 : Float64) = Float64.num 1 := rfl

theorem Float64.add_nan (x : Float64) : Float64.add x Float64.nan = Float64.nan := by
  cases x <;> rfl

theorem Float64.mul_nan (x : Float64) : Float64.mul x Float64.nan = Float64.nan := by
  cases x <;> rfl

theorem Float64.div_nan (x : Float64) : Float64.div x Float64.nan = Float64.nan := by
  cases x <;> rfl

theorem Float64.add_neg_swap (x y : Float64) :
    Float64.add x (Float64.neg y) = Float64.neg (Float64.add y (Float64.neg x)) := by
  cases x with
  | num p =>
    cases y with
    | num q =>
      show Float64.round (p + -q) = Float64.neg (Float64.round (q + -p))
      rw [← Float64.round_neg]
      congr 1
      ring
    | inf b => cases b <;> rfl
    | nan => rfl
  | inf a =>
    cases y with
    | num q => cases a <;> rfl
    | inf b => cases a <;> cases b <;> rfl
    | nan => rfl
  | nan => cases y <;> rfl

theorem Float64.mul_swap (x y : Float64) : Float64.mul x y = Float64.mul y x := by
  cases x with
  | num p =>
    cases y with
    | num q =>
      show Float64.round (p * q) = Float64.round (q * p)
      rw [mul_comm]
    | inf b =>
      show (if p = 0 then Float64.nan else Float64.inf (decide (p < 0) != b)) =
        if p = 0 then Float64.nan else Float64.inf (b != decide (p < 0))
      generalize decide (p < 0) = s
      cases b <;> cases s <;> rfl
    | nan => rfl
  | inf a =>
    cases y with
    | num q =>
      show (if q = 0 then Float64.nan else Float64.inf (a != decide (q < 0))) =
        if q = 0 then Float64.nan else Float64.inf (decide (q < 0) != a)
      generalize decide (q < 0) = s
      cases a <;> cases s <;> rfl
    | inf b => cases a <;> cases b <;> rfl
    | nan => rfl
  | nan => cases y <;> rfl

theorem decide_neg_lt (q : ℚ) (h : q ≠ 0) : decide (-q < 0) = !decide (q < 0) := by
  rcases lt_or_gt_of_ne h with h1 | h1
  · simp [h1, h1.le]
  · simp [h1, h1.le, not_lt.mpr h1.le]

theorem Float64.mul_neg_right (x y : Float64) :
    Float64.mul x (Float64.neg y) = Float64.neg (Float64.mul x y) := by
  cases x with
  | num p =>
    cases y with
    | num q =>
      show Float64.round (p * -q) = Float64.neg (Float64.round (p * q))
      rw [← Float64.round_neg]
      congr 1
      ring
    | inf b =>
      show (if p = 0 then Float64.nan else Float64.inf (decide (p < 0) != !b)) =
        Float64.neg (if p = 0 then Float64.nan else Float64.inf (decide (p < 0) != b))
      generalize decide (p < 0) = s
      split_ifs
      · rfl
      · cases b <;> cases s <;> rfl
    | nan => rfl
  | inf a =>
    cases y with
    | num q =>
      show (if -q = 0 then Float64.nan else Float64.inf (a != decide (-q < 0))) =
        Float64.neg (if q = 0 then Float64.nan else Float64.inf (a != decide (q < 0)))
      by_cases hq : q = 0
      · simp [hq, Float64.neg]
      · rw [if_neg (by simpa using hq), if_neg hq, decide_neg_lt q hq]
        generalize decide (q < 0) = s
        cases a <;> cases s <;> rfl
    | inf b => cases a <;> cases b <;> rfl
    | nan => rfl
  | nan => cases y <;> rfl

theorem Float64.neg_neg_self (x : Float64) : Float64.neg (Float64.neg x) = x := by
  cases x with
  | num p => simp [Float64.neg]
  | inf a => simp [Float64.neg]
  | nan => rfl

theorem Float64.mul_neg_left (x y : Float64) :
    Float64.mul (Float64.neg x) y = Float64.neg (Float64.mul x y) := by
  rw [Float64.mul_swap, Float64.mul_neg_right, Float64.mul_swap]

theorem Float64.neg_div_left (x y : Float64) :
    Float64.div (Float64.neg x) y = Float64.neg (Float64.div x y) := by
  cases x with
  | num p =>
    cases y with
    | num q =>
      show (if q = 0 then (if -p = 0 then Float64.nan else Float64.inf (decide (-p < 0)))
          else Float64.round (-p / q)) =
        Float64.neg (if q = 0 then (if p = 0 then Float64.nan else Float64.inf (decide (p < 0)))
          else Float64.round (p / q))
      by_cases hq : q = 0
      · rw [if_pos hq, if_pos hq]
        by_cases hp : p = 0
        · simp [hp, Float64.neg]
        · rw [if_neg (by simpa using hp), if_neg hp, decide_neg_lt p hp]
          rfl
      · rw [if_neg hq, if_neg hq, ← Float64.round_neg]
        congr 1
        ring
    | inf b =>
      show Float64.num 0 = Float64.neg (Float64.num 0)
      simp [Float64.neg]
    | nan => rfl
  | inf a =>
    cases y with
    | num q =>
      show Float64.inf ((!a) != decide (q < 0)) = Float64.neg (Float64.inf (a != decide (q < 0)))
      generalize decide (q < 0) = s
      cases a <;> cases s <;> rfl
    | inf b => rfl
    | nan => rfl
  | nan => cases y <;> rfl

theorem float64Math_sin_neg (fin : FiniteMath) (x : Float64) :
    (float64Math fin).Sin (Float64.neg x) = Float64.neg ((float64Math fin).Sin x) := by
  cases x with
  | num q =>
    show (if -q = 0 then Float64.num 0
        else if -q < 0 then Float64.num (-fin.Sin (- -q)) else Float64.num (fin.Sin (-q))) =
      Float64.neg (if q = 0 then Float64.num 0
        else if q < 0 then Float64.num (-fin.Sin (-q)) else Float64.num (fin.Sin q))
    by_cases hq : q = 0
    · simp [hq, Float64.neg]
    · rw [if_neg (by simpa using hq), if_neg hq]
      rcases lt_or_gt_of_ne hq with h1 | h1
      · rw [if_neg (by linarith), if_pos h1]
        simp [Float64.neg]
      · rw [if_pos (by linarith), if_neg (by linarith)]
        simp [Float64.neg]
  | inf a => rfl
  | nan => rfl

/-! ## The distance calculation in `float64` -/

/-- In `float64` the distance calculation gives the same value for the two orders of
its points. -/
theorem CalculateDistance_float64_symm (fin : FiniteMath) (a b c d : Float64) :
    CalculateDistance (float64Math fin) a b c d =
      CalculateDistance (float64Math fin) c d a b := by
  have key : ∀ x y u v : Float64,
      (float64Math fin).Sin ((y - x) / 2) * (float64Math fin).Sin ((y - x) / 2) +
        (float64Math fin).Cos x * (float64Math fin).Cos y *
          (float64Math fin).Sin ((v - u) / 2) * (float64Math fin).Sin ((v - u) / 2) =
      (float64Math fin).Sin ((x - y) / 2) * (float64Math fin).Sin ((x - y) / 2) +
        (float64Math fin).Cos y * (float64Math fin).Cos x *
          (float64Math fin).Sin ((u - v) / 2) * (float64Math fin).Sin ((u - v) / 2) := by
    intro x y u v
    simp only [Float64.sub_def, Float64.mul_def, Float64.div_def, Float64.add_def]
    rw [Float64.add_neg_swap x y, Float64.add_neg_swap u v]
    simp only [Float64.neg_div_left, float64Math_sin_neg, Float64.mul_neg_left,
      Float64.mul_neg_right, Float64.neg_neg_self]
    rw [Float64.mul_swap ((float64Math fin).Cos y) ((float64Math fin).Cos x)]
  unfold CalculateDistance
  simp only []
  rw [key]

theorem float64Pi_bounds : 0 < float64Pi ∧ float64Pi < 4 := by
  unfold float64Pi
  constructor <;> norm_num

theorem Float64.num_div_num (p q : ℚ) (hq : q ≠ 0) :
    Float64.div (Float64.num p) (Float64.num q) = Float64.round (p / q) := by
  simp [Float64.div, hq]

/-- For a finite number of degrees of magnitude at most 180 the conversion to radians
is finite. -/
theorem degreesToRadians_finite (fin : FiniteMath) (x : ℚ) (hx : |x| ≤ 180) :
    ∃ r : ℚ, degreesToRadians (float64Math fin) (Float64.num x) = Float64.num r := by
  have hpi := float64Pi_bounds
  have h1 : |x * float64Pi| ≤ 720 := by
    rw [abs_mul, abs_of_pos hpi.1]
    nlinarith [abs_nonneg x]
  have hthr : (3000 : ℚ) < overflowThreshold := by
    unfold overflowThreshold
    norm_num
  have h2 : |roundToFloat (x * float64Pi)| ≤ 1441 := by
    have := abs_roundToFloat_le (x * float64Pi)
    linarith
  have h3 : |roundToFloat (x * float64Pi) / 180| < overflowThreshold := by
    rw [abs_div]
    have : |roundToFloat (x * float64Pi)| / |(180 : ℚ)| ≤ |roundToFloat (x * float64Pi)| := by
      apply div_le_self (abs_nonneg _)
      norm_num
    linarith
  refine ⟨roundToFloat (roundToFloat (x * float64Pi) / 180), ?_⟩
  show Float64.div (Float64.mul (Float64.num x) (Float64.num float64Pi)) (OfNat.ofNat 180) = _
  rw [Float64.ofNat_eq 180 (by norm_num)]
  show Float64.div (Float64.round (x * float64Pi)) (Float64.num ((180 : ℕ) : ℚ)) = _
  have h4 : (((180 : ℕ) : ℚ)) = 180 := by norm_num
  rw [Float64.round_of_lt _ (by linarith), h4, Float64.num_div_num _ _ (by norm_num),
    Float64.round_of_lt _ h3]

theorem Float64.num_sub_self (r : ℚ) : Float64.num r - Float64.num r = Float64.num 0 := by
  show Float64.round (r + -r) = Float64.num 0
  rw [add_neg_cancel, Float64.round_zero]

theorem Float64.zero_div_two : Float64.num 0 / 2 = Float64.num 0 := by
  show Float64.div (Float64.num 0) (OfNat.ofNat 2) = _
  rw [Float64.ofNat_eq 2 (by norm_num), Float64.num_div_num _ _ (by norm_num), zero_div,
    Float64.round_zero]

theorem Float64.num_mul_zero (p : ℚ) : Float64.num p * Float64.num 0 = Float64.num 0 := by
  show Float64.round (p * 0) = Float64.num 0
  rw [mul_zero, Float64.round_zero]

theorem Float64.zero_mul_num (p : ℚ) : Float64.num 0 * Float64.num p = Float64.num 0 := by
  show Float64.round (0 * p) = Float64.num 0
  rw [zero_mul, Float64.round_zero]

theorem Float64.zero_add_zero : Float64.num 0 + Float64.num 0 = Float64.num 0 := by
  show Float64.round (0 + 0) = Float64.num 0
  rw [add_zero, Float64.round_zero]

theorem Float64.one_sub_zero : (1 : Float64) - Float64.num 0 = Float64.num 1 := by
  show Float64.round (1 + -0) = Float64.num 1
  have h := Float64.round_natCast 1 (by norm_num)
  simpa using h

theorem Float64.ofNat_mul_zero (n : ℕ) [n.AtLeastTwo] (h : n < 2 ^ 53) :
    (OfNat.ofNat n : Float64) * Float64.num 0 = Float64.num 0 := by
  rw [Float64.ofNat_eq n h, Float64.num_mul_zero]

theorem Float64.zero_mul_ofNat (n : ℕ) [n.AtLeastTwo] (h : n < 2 ^ 53) :
    Float64.num 0 * (OfNat.ofNat n : Float64) = Float64.num 0 := by
  rw [Float64.ofNat_eq n h, Float64.zero_mul_num]

/-- In `float64`, for a point with coordinates of magnitude at most 180 degrees, the
distance from the point to itself is zero. -/
theorem CalculateDistance_self_float64 (fin : FiniteMath) (hfin : fin.Bounded)
    (lat lon : ℚ) (hlat : |lat| ≤ 180) (hlon : |lon| ≤ 180) :
    CalculateDistance (float64Math fin) (Float64.num lat) (Float64.num lon)
      (Float64.num lat) (Float64.num lon) = 0 := by
  obtain ⟨r, hr⟩ := degreesToRadians_finite fin lat hlat
  obtain ⟨t, ht⟩ := degreesToRadians_finite fin lon hlon
  obtain ⟨k, hk, hk1⟩ : ∃ k : ℚ, (float64Math fin).Cos (Float64.num r) = Float64.num k ∧
      |k| ≤ 1 := ⟨_, rfl, hfin.cos_le_one _⟩
  have hcos : Float64.num k * Float64.num k = Float64.num (roundToFloat (k * k)) := by
    show Float64.round (k * k) = _
    apply Float64.round_of_lt
    have h2 : |k * k| ≤ 1 := by
      rw [abs_mul]
      nlinarith [abs_nonneg k]
    have h3 : (1 : ℚ) < overflowThreshold := by
      unfold overflowThreshold
      norm_num
    linarith
  have hsin : (float64Math fin).Sin (Float64.num 0) = Float64.num 0 := by
    simp [float64Math]
  have hsqrt0 : (float64Math fin).Sqrt (Float64.num 0) = Float64.num 0 := by
    simp [float64Math]
  have hsqrt1 : (float64Math fin).Sqrt (Float64.num 1) = Float64.num 1 := by
    simp [float64Math, hfin.sqrt_one]
  have hatan : (float64Math fin).Atan2 (Float64.num 0) (Float64.num 1) = Float64.num 0 := by
    simp [float64Math, float64Atan2]
  unfold CalculateDistance EarthRadiusKm
  simp only [hr, ht, Float64.num_sub_self, Float64.zero_div_two, hsin, hk, hcos,
    Float64.num_mul_zero, Float64.zero_add_zero, hsqrt0, Float64.one_sub_zero, hsqrt1, hatan]
  rw [Float64.ofNat_mul_zero 2 (by norm_num), Float64.ofNat_mul_zero 6371 (by norm_num),
    Float64.zero_mul_ofNat 1000 (by norm_num)]
  rfl

/-- In `float64`, when the conversion of the first latitude to radians overflows, the
distance calculation gives NaN, whatever the other coordinates are. -/
theorem CalculateDistance_overflow (fin : FiniteMath) (x : ℚ)
    (hx : overflowThreshold ≤ x * float64Pi) (lon1 lat2 lon2 : Float64) :
    CalculateDistance (float64Math fin) (Float64.num x) lon1 lat2 lon2 = Float64.nan := by
  have hpos : 0 < x * float64Pi := lt_of_lt_of_le overflowThreshold_pos hx
  have h1 : degreesToRadians (float64Math fin) (Float64.num x) = Float64.inf false := by
    show Float64.div (Float64.round (x * float64Pi)) (OfNat.ofNat 180) = _
    rw [Float64.ofNat_eq 180 (by norm_num),
      Float64.round_of_le _ (by rwa [abs_of_pos hpos])]
    simp [Float64.div, not_lt.mpr hpos.le]
  have h2 : ∀ y : Float64,
      (float64Math fin).Sin ((y - Float64.inf false) / 2) = Float64.nan := by
    intro y
    show (float64Math fin).Sin
      (Float64.div (Float64.add y (Float64.neg (Float64.inf false))) (OfNat.ofNat 2)) = _
    rw [Float64.ofNat_eq 2 (by norm_num)]
    cases y with
    | num p => simp [Float64.add, Float64.neg, Float64.div, float64Math]
    | inf b => cases b <;> simp [Float64.add, Float64.neg, Float64.div, float64Math]
    | nan => simp [Float64.add, Float64.div, float64Math]
  unfold CalculateDistance EarthRadiusKm
  simp only [h1, h2]
  simp only [Float64.mul_def, Float64.add_def, Float64.sub_def]
  have h3 : (float64Math fin).Sqrt Float64.nan = Float64.nan := rfl
  have h4 : ∀ y : Float64, (float64Math fin).Atan2 Float64.nan y = Float64.nan := by
    intro y
    cases y <;> rfl
  have h5 : ∀ y : Float64, Float64.add (Float64.mul Float64.nan Float64.nan) y =
      Float64.nan := by
    intro y
    cases y <;> rfl
  have h6 : ∀ y : Float64, Float64.mul Float64.nan y = Float64.nan := by
    intro y
    cases y <;> rfl
  rw [h5, h3, h4, Float64.mul_nan, Float64.mul_nan, h6]

/-! ## A report at the device's last known position -/

theorem float1e308_overflows : overflowThreshold ≤ float1e308 * float64Pi := by
  unfold overflowThreshold float1e308 float64Pi
  norm_num

/-- C3, counterexample: DEV1 reports latitude 1e308 and longitude 20, which passes
`ValidateRequiredFields`, and its cached last fix is the same position; the last
contact is fresh and every collaborator succeeds.  The run returns `nil`, and the one
measurement handed to `InsertMeasurement` has distance NaN, not 0: the conversion of
1e308 degrees to radians overflows. -/
theorem same_position_overflow :
    ValidateRequiredFields farReport = none ∧
    farReport.Latitud = (farDevice 0).Latitud ∧
    farReport.Longitud = (farDevice 0).Longitud ∧
    (ProcessTelemetryData
      (scripted (float64Math coarseMath) (cachedScript (farDevice 0) (59 * Minute)))
      (St.init ()) farReport).1 = none ∧
    (insertedMeasurements (ProcessTelemetryData
      (scripted (float64Math coarseMath) (cachedScript (farDevice 0) (59 * Minute)))
      (St.init ()) farReport).2.trace).map Measurement.Distancia = [some Float64.nan] ∧
    Float64.nan ≠ (0 : Float64) := by
  have h := ProcessTelemetryData_at_last_fix
    (scripted (float64Math coarseMath) (cachedScript (farDevice 0) (59 * Minute))) ()
    farReport (farDevice 0) (60 * Minute) (Float64.num float1e308) (Float64.num 20)
    rfl rfl rfl rfl rfl rfl parseTimeDuration_one_hour (by decide) rfl
  obtain ⟨h1, ⟨m, hm, hdist⟩, -, -⟩ := h
  refine ⟨rfl, rfl, rfl, h1, ?_, ?_⟩
  · rw [hm]
    show [m.Distancia] = _
    rw [hdist]
    show [some (CalculateDistance (float64Math coarseMath) _ _ _ _)] = _
    rw [CalculateDistance_overflow coarseMath float1e308 float1e308_overflows]
  · intro h0
    cases h0

/-- C3, amended: in `float64`, for a validated report whose coordinates equal the
resolved device's last known coordinates and lie in the geographic ranges (latitude
of magnitude at most 90, longitude of magnitude at most 180), with the last contact
within the max-offline duration and `InsertMeasurement` succeeding,
`ProcessTelemetryData` returns `nil`, inserts exactly one measurement whose distance is
present and equal to 0, never calls `InsertError`, and calls `UpdateDeviceLocation` once
with the report's identifier and coordinates. -/
theorem ProcessTelemetryData_same_position {W : Type} (c : Deps W Float64) (w : W)
    (fin : FiniteMath) (req : TelemetryRequest Float64) (device : Device Float64) (d : Int)
    (lat lon : ℚ)
    (hmath : c.math = float64Math fin) (hfin : fin.Bounded)
    (hv : ValidateRequiredFields req = none)
    (hd : (getDevice c (St.init w) req.Identificador).1 = (some device, none))
    (hlat : req.Latitud = some (Float64.num lat))
    (hlon : req.Longitud = some (Float64.num lon))
    (hdlat : device.Latitud = req.Latitud) (hdlon : device.Longitud = req.Longitud)
    (hrlat : |lat| ≤ 90) (hrlon : |lon| ≤ 180)
    (hp : parseTimeDuration device.TiempoFueraLinea = Except.ok d)
    (hfresh : timeSub (c.now (getDevice c (St.init w) req.Identificador).2.world).1
      device.UltimaConexion ≤ d)
    (hi : insertAnswer c
      (policyChecks c (getDevice c (St.init w) req.Identificador).2 req device).2
      req device = none) :
    (ProcessTelemetryData c (St.init w) req).1 = none ∧
    (∃ m : Measurement Float64,
      insertedMeasurements (ProcessTelemetryData c (St.init w) req).2.trace = [m] ∧
      m.Distancia = some 0) ∧
    insertedErrors (ProcessTelemetryData c (St.init w) req).2.trace = [] ∧
    (∃ t : Int,
      locationUpdates (ProcessTelemetryData c (St.init w) req).2.trace =
        [(req.Identificador, Float64.num lat, Float64.num lon, t)]) := by
  have h := ProcessTelemetryData_at_last_fix c w req device d (Float64.num lat)
    (Float64.num lon) hv hd hlat hlon (hdlat.trans hlat) (hdlon.trans hlon) hp hfresh hi
  rw [hmath, CalculateDistance_self_float64 fin hfin lat lon (by linarith) hrlon] at h
  exact h

/-- Witness for C3 as amended: DEV1 at (10.0, 20.0) with prior fix (10.0, 20.0), last
seen at instant 0 and reporting 59 minutes later. -/
theorem ProcessTelemetryData_same_position_witness :
    (ProcessTelemetryData
      (scripted (float64Math coarseMath) (cachedScript (dev1Device64 0) (59 * Minute)))
      (St.init ()) dev1Report64).1 = none ∧
    (∃ m : Measurement Float64, insertedMeasurements
      (ProcessTelemetryData
        (scripted (float64Math coarseMath) (cachedScript (dev1Device64 0) (59 * Minute)))
        (St.init ()) dev1Report64).2.trace = [m] ∧ m.Distancia = some 0) ∧
    insertedErrors
      (ProcessTelemetryData
        (scripted (float64Math coarseMath) (cachedScript (dev1Device64 0) (59 * Minute)))
        (St.init ()) dev1Report64).2.trace = [] :=
  have hb : coarseMath.Bounded :=
    { sqrt_one := by norm_num [coarseMath]
      cos_le_one := fun _ => by norm_num [coarseMath] }
  have h := ProcessTelemetryData_same_position
    (scripted (float64Math coarseMath) (cachedScript (dev1Device64 0) (59 * Minute))) ()
    coarseMath dev1Report64 (dev1Device64 0) (60 * Minute) 10 20 rfl hb rfl rfl rfl rfl
    rfl rfl (by norm_num) (by norm_num) parseTimeDuration_one_hour (by decide) rfl
  ⟨h.1, h.2.1, h.2.2.1⟩

/-! ## Symmetry of the distance -/

/-- C17, counterexample: in `float64` the distance between latitude 1e308 on the
meridian and the origin is NaN in both orders of the points, and NaN is within no
tolerance of NaN. -/
theorem CalculateDistance_nan_both_orders :
    CalculateDistance (float64Math coarseMath) (Float64.num float1e308) 0 0 0 =
      Float64.nan ∧
    CalculateDistance (float64Math coarseMath) 0 0 (Float64.num float1e308) 0 =
      Float64.nan ∧
    ∀ tol : ℚ, Float64.withinTolerance tol
      (CalculateDistance (float64Math coarseMath) (Float64.num float1e308) 0 0 0)
      (CalculateDistance (float64Math coarseMath) 0 0 (Float64.num float1e308) 0) =
        false := by
  have h1 := CalculateDistance_overflow coarseMath float1e308 float1e308_overflows 0 0 0
  have h2 : CalculateDistance (float64Math coarseMath) 0 0 (Float64.num float1e308) 0 =
      Float64.nan := by
    rw [CalculateDistance_float64_symm, h1]
  refine ⟨h1, h2, ?_⟩
  intro tol
  rw [h1, h2]
  rfl

/-- C17, amended: `CalculateDistance` is symmetric in its two points exactly over the
real numbers, for all coordinates; in `float64` the two orders of the points give the
same value, so that whenever this value is a number the two results agree within any
tolerance (when it is NaN they agree within none). -/
theorem CalculateDistance_symmetric (a b c d : ℝ) (fin : FiniteMath) (x y z w : Float64) :
    CalculateDistance realMath a b c d = CalculateDistance realMath c d a b ∧
    CalculateDistance (float64Math fin) x y z w =
      CalculateDistance (float64Math fin) z w x y ∧
    (∀ tol r : ℚ, 0 ≤ tol → CalculateDistance (float64Math fin) x y z w = Float64.num r →
      Float64.withinTolerance tol (CalculateDistance (float64Math fin) x y z w)
        (CalculateDistance (float64Math fin) z w x y) = true) ∧
    (CalculateDistance (float64Math fin) x y z w = Float64.nan →
      ∀ tol : ℚ, Float64.withinTolerance tol (CalculateDistance (float64Math fin) x y z w)
        (CalculateDistance (float64Math fin) z w x y) = false) := by
  refine ⟨CalculateDistance_symm_of_odd realMath (fun t => Real.sin_neg t) a b c d,
    CalculateDistance_float64_symm fin x y z w, ?_, ?_⟩
  · intro tol r htol hr
    rw [← CalculateDistance_float64_symm fin x y z w, hr]
    unfold Float64.withinTolerance
    rw [Float64.num_sub_self]
    simpa using htol
  · intro hnan tol
    rw [← CalculateDistance_float64_symm fin x y z w, hnan]
    rfl

/-- Witness for C17 as amended: the distance from (10, 20) to itself is the number 0 in
`float64`, and the two orders agree within tolerance 0. -/
theorem CalculateDistance_symmetric_witness :
    CalculateDistance (float64Math coarseMath) (Float64.num 10) (Float64.num 20)
      (Float64.num 10) (Float64.num 20) = Float64.num 0 ∧
    Float64.withinTolerance 0
      (CalculateDistance (float64Math coarseMath) (Float64.num 10) (Float64.num 20)
        (Float64.num 10) (Float64.num 20))
      (CalculateDistance (float64Math coarseMath) (Float64.num 10) (Float64.num 20)
        (Float64.num 10) (Float64.num 20)) = true :=
  have hb : coarseMath.Bounded :=
    { sqrt_one := by norm_num [coarseMath]
      cos_le_one := fun _ => by norm_num [coarseMath] }
  have h0 : CalculateDistance (float64Math coarseMath) (Float64.num 10) (Float64.num 20)
      (Float64.num 10) (Float64.num 20) = Float64.num 0 :=
    CalculateDistance_self_float64 coarseMath hb 10 20 (by norm_num) (by norm_num)
  ⟨h0, (CalculateDistance_symmetric 0 0 0 0 coarseMath (Float64.num 10) (Float64.num 20)
    (Float64.num 10) (Float64.num 20)).2.2.1 0 0 le_rfl h0⟩

end Telemetria
